import Mathlib

/-!
# IPC Manager response handlers, kernel flow allocator, netlink parsing and data transfer

A shallow embedding of

* `rinad/src/ipcm/ipcp-handlers.cc`: the `IPCManager_` handlers that complete
  pending transactions when a response event arrives;
* `linux/net/rina/kfa.c`: the entry points of the kernel flow allocator;
* `linux/net/rina/netlink-utils.c`: the parsers and the builders of RINA netlink
  messages;
* the data transfer core declared in `linux/net/rina/dtp.h` and configured through
  `librina-ipc-process.h`, whose bodies are missing and which is modelled from
  the specification.

The handlers are written with explicit state passing.  Everything a handler
does that another thread or the caller can observe (a flushed log record, the
completion of a transaction, a call into an IPC process object) is appended to
a trace, oldest effect first.  Reader/writer locks of the user-space code are
scoped locks released on every exit path and are not represented.
-/

set_option autoImplicit false

namespace rinad

/-- Result of an IPC Manager operation, as delivered to the waiting caller. -/
inductive ipcm_res_t where
  | IPCM_SUCCESS
  | IPCM_FAILURE
  deriving DecidableEq, Repr

/-- Severity given to `FLUSH_LOG`. -/
inductive LogLevel where
  | INFO
  | WARN
  | ERR
  deriving DecidableEq, Repr

/-- Kind of an IPC process (`get_type()`); only the normal kind is named in the handlers. -/
inductive IPCProcessType where
  | NORMAL_IPC_PROCESS
  | SHIM_IPC_PROCESS
  deriving DecidableEq, Repr

/-- The IPC process object kept by the manager.  `state_` stands for the private
state that the object's own methods read and write. -/
structure IPCMIPCProcess where
  id : Nat
  type : IPCProcessType
  name : String
  dif_name_ : String
  state_ : Nat
  deriving DecidableEq, Repr

/-- Pending transaction of the normal table.  `ipcp_id` is the field of
`IPCPTransState`, `slave_ipcp_id` the additional field of `IPCPregTransState`. -/
structure TransState where
  tid : Nat
  ipcp_id : Nat
  slave_ipcp_id : Nat
  deriving DecidableEq, Repr

/-- Pending transaction of the system-call table. -/
structure SyscallTransState where
  tid : Nat
  deriving DecidableEq, Repr

/-- Observable effects of a handler. -/
inductive Effect where
  /-- A log record was flushed: `FLUSH_LOG(level, ss)`. -/
  | FLUSH_LOG (level : LogLevel)
  /-- The call `trans->completed(ret)` on a transaction of the normal table. -/
  | completed (tid : Nat) (ret : ipcm_res_t)
  /-- The call `trans->completed(ret)` on a transaction of the system-call table. -/
  | syscall_completed (tid : Nat) (ret : ipcm_res_t)
  /-- The call `ipcp->assignToDIFResult(success)`. -/
  | assignToDIFResult (ipcp_id : Nat) (success : Bool)
  /-- The call `ipcp->setInitialized()`. -/
  | setInitialized (ipcp_id : Nat)
  /-- The call `ipcm_register_response_common(e, name, slave_ipcp, slave_dif_name)`. -/
  | register_response_common (seq : Nat) (slave_ipcp_id : Nat)
  /-- The call `ipcm_unregister_response_common(e, slave_ipcp, name)`. -/
  | unregister_response_common (seq : Nat) (slave_ipcp_id : Nat)
  /-- The call `ipcp->notifyRegistrationToSupportingDIF(slave name, slave DIF name)`. -/
  | notifyRegistrationToSupportingDIF (ipcp_id : Nat) (slave_name : String) (dif : String)
  /-- The call `ipcp->notifyUnregistrationFromSupportingDIF(slave name, slave DIF name)`. -/
  | notifyUnregistrationFromSupportingDIF (ipcp_id : Nat) (slave_name : String) (dif : String)
  deriving DecidableEq, Repr

/-- The part of `IPCManager_` the handlers work on. -/
structure IPCManager_ where
  ipcps : List IPCMIPCProcess
  pend_transactions : List TransState
  pend_sys_trans : List SyscallTransState
  trace : List Effect
  deriving DecidableEq, Repr

/-- How a handler invocation ends. -/
inductive Outcome (α : Type) where
  /-- The handler returned `v` to its caller. -/
  | returned (v : α)
  /-- An `assert` failed and the process was aborted. -/
  | assert_failed
  /-- A member was read through a null pointer. -/
  | null_deref
  deriving DecidableEq, Repr

/-- What a method of an IPC process object did: the private state it left
behind and whether it raised the exception its callers catch. -/
structure MethodResult where
  state_ : Nat
  threw : Bool
  deriving DecidableEq, Repr

structure IPCProcessDaemonInitializedEvent where
  ipcProcessId : Nat
  deriving DecidableEq, Repr

structure IpcmRegisterApplicationResponseEvent where
  sequenceNumber : Nat
  result : Int
  deriving DecidableEq, Repr

structure IpcmUnregisterApplicationResponseEvent where
  sequenceNumber : Nat
  result : Int
  deriving DecidableEq, Repr

structure AssignToDIFResponseEvent where
  sequenceNumber : Nat
  result : Int
  deriving DecidableEq, Repr

structure UpdateDIFConfigurationResponseEvent where
  sequenceNumber : Nat
  result : Int
  deriving DecidableEq, Repr

structure EnrollToDIFResponseEvent where
  sequenceNumber : Nat
  result : Int
  deriving DecidableEq, Repr

/-- The base event class the stub handlers receive. -/
structure IPCEvent where
  sequenceNumber : Nat
  deriving DecidableEq, Repr

/-- Methods the handlers call whose bodies live outside `ipcp-handlers.cc`.
They are parameters of the embedding. -/
structure Callees where
  /-- The method `IPCMIPCProcess::assignToDIFResult(success)`; may raise `AssignToDIFException`. -/
  assignToDIFResult : IPCMIPCProcess → Bool → MethodResult
  /-- The method `IPCMIPCProcess::setInitialized()`. -/
  setInitialized : IPCMIPCProcess → Nat
  /-- The call `ipcm_register_response_common(e, app_name, slave_ipcp, slave_dif_name)`:
  its boolean result and the private state it leaves in the supporting IPC process. -/
  ipcm_register_response_common :
    IpcmRegisterApplicationResponseEvent → String → IPCMIPCProcess → String → Bool × Nat
  /-- The call `ipcm_unregister_response_common(e, slave_ipcp, app_name)`. -/
  ipcm_unregister_response_common :
    IpcmUnregisterApplicationResponseEvent → IPCMIPCProcess → String → Bool × Nat
  /-- The method `IPCMIPCProcess::notifyRegistrationToSupportingDIF`; may raise
  `NotifyRegistrationToDIFException`. -/
  notifyRegistrationToSupportingDIF : IPCMIPCProcess → String → String → MethodResult
  /-- The method `IPCMIPCProcess::notifyUnregistrationFromSupportingDIF`; may raise
  `NotifyRegistrationToDIFException`. -/
  notifyUnregistrationFromSupportingDIF : IPCMIPCProcess → String → String → MethodResult

/-- The constant `#define IPCP_DAEMON_INIT_RETRIES 5`. -/
def IPCP_DAEMON_INIT_RETRIES : Nat := 5

/-- Append one effect to the trace. -/
def emit (m : IPCManager_) (ef : Effect) : IPCManager_ :=
  { m with trace := m.trace ++ [ef] }

/-- The logging call `FLUSH_LOG(level, ss)`. -/
def FLUSH_LOG (level : LogLevel) (m : IPCManager_) : IPCManager_ :=
  emit m (Effect.FLUSH_LOG level)

/-- Modelled from the spec: `get_transaction_state<T>(tid)` is declared outside the
sources at hand; the pending-request table is keyed by correlation id and a
lookup that finds nothing yields null. -/
def get_transaction_state (m : IPCManager_) (tid : Nat) : Option TransState :=
  m.pend_transactions.find? (fun t => t.tid == tid)

/-- Modelled from the spec: `remove_transaction_state(tid)` drops the entry keyed
by `tid` from the pending-request table and leaves the others. -/
def remove_transaction_state (m : IPCManager_) (tid : Nat) : IPCManager_ :=
  { m with pend_transactions := m.pend_transactions.filter (fun t => t.tid != tid) }

/-- Modelled from the spec: `get_syscall_transaction_state(tid)`, the lookup in the
table of pending system-call transactions. -/
def get_syscall_transaction_state (m : IPCManager_) (tid : Nat) : Option SyscallTransState :=
  m.pend_sys_trans.find? (fun t => t.tid == tid)

/-- Modelled from the spec: `remove_syscall_transaction_state(tid)`. -/
def remove_syscall_transaction_state (m : IPCManager_) (tid : Nat) : IPCManager_ :=
  { m with pend_sys_trans := m.pend_sys_trans.filter (fun t => t.tid != tid) }

/-- Modelled from the spec: `lookup_ipcp_by_id(id)` returns the IPC process with that
id, or null when there is none (for instance after it was deleted). -/
def lookup_ipcp_by_id (m : IPCManager_) (id : Nat) : Option IPCMIPCProcess :=
  m.ipcps.find? (fun p => p.id == id)

/-- Write back the private state a method left in the IPC process `id`. -/
def set_ipcp_state (m : IPCManager_) (id : Nat) (st : Nat) : IPCManager_ :=
  { m with ipcps := m.ipcps.map (fun p => if p.id == id then { p with state_ := st } else p) }

/-- The call `trans->completed(ret)` for a transaction of the normal table: sets the
return value of the promise and signals the waiting caller. -/
def completed (m : IPCManager_) (trans : TransState) (ret : ipcm_res_t) : IPCManager_ :=
  emit m (Effect.completed trans.tid ret)

/-- The call `trans->completed(ret)` for a system-call transaction. -/
def syscall_completed (m : IPCManager_) (trans : SyscallTransState) (ret : ipcm_res_t) :
    IPCManager_ :=
  emit m (Effect.syscall_completed trans.tid ret)

/-- The C expression `-(ret == IPCM_SUCCESS)`. -/
def neg_is_success (ret : ipcm_res_t) : Int :=
  -(if ret = ipcm_res_t.IPCM_SUCCESS then 1 else 0)

/-- The object a pointer obtained from `lookup_ipcp_by_id` designates now: methods
called in between may have written its private state. -/
def deref (m : IPCManager_) (ipcp : IPCMIPCProcess) : IPCMIPCProcess :=
  (lookup_ipcp_by_id m ipcp.id).getD ipcp

/-- The retry loop of `ipc_process_daemon_initialized_event_handler`:
`for(i=0; i<IPCP_DAEMON_INIT_RETRIES; ++i)` with `retries` iterations left and
`calls` lookups made so far.  Returns the transaction found, if any, and the
number of lookups made. -/
def daemon_init_lookup (m : IPCManager_) (id : Nat) :
    (retries : Nat) → (calls : Nat) → Option SyscallTransState × Nat
  | 0, calls => (none, calls)
  | n + 1, calls =>
    match get_syscall_transaction_state m id with
    | some tx => (some tx, calls + 1)
    | none => daemon_init_lookup m id n (calls + 1)

/-- The handler `IPCManager_::ipc_process_daemon_initialized_event_handler`.
`NDEBUG` tells whether `assert` is compiled out. -/
def ipc_process_daemon_initialized_event_handler (x : Callees) (NDEBUG : Bool)
    (m : IPCManager_) (e : IPCProcessDaemonInitializedEvent) : IPCManager_ × Outcome Unit :=
  match (daemon_init_lookup m e.ipcProcessId IPCP_DAEMON_INIT_RETRIES 0).1 with
  | none =>
    -- the message is built in `ss` but never flushed; assert(0); return
    if NDEBUG then (m, Outcome.returned ()) else (m, Outcome.assert_failed)
  | some tx =>
    match lookup_ipcp_by_id m e.ipcProcessId with
    | none =>
      let m := FLUSH_LOG LogLevel.WARN m
      -- assert(0)
      if NDEBUG then
        let m := syscall_completed m tx ipcm_res_t.IPCM_FAILURE
        let m := remove_syscall_transaction_state m e.ipcProcessId
        (m, Outcome.returned ())
      else (m, Outcome.assert_failed)
    | some ipcp =>
      -- assert(ipcp->get_type() == rina::NORMAL_IPC_PROCESS)
      if NDEBUG || ipcp.type == IPCProcessType.NORMAL_IPC_PROCESS then
        let m := set_ipcp_state (emit m (Effect.setInitialized ipcp.id)) ipcp.id
                   (x.setInitialized ipcp)
        let m := FLUSH_LOG LogLevel.INFO m
        let m := syscall_completed m tx ipcm_res_t.IPCM_SUCCESS
        let m := remove_transaction_state m tx.tid
        (m, Outcome.returned ())
      else (m, Outcome.assert_failed)

/-- The handler `IPCManager_::ipcm_register_response_ipcp`. -/
def ipcm_register_response_ipcp (x : Callees) (NDEBUG : Bool) (m : IPCManager_)
    (e : IpcmRegisterApplicationResponseEvent) : IPCManager_ × Outcome Int :=
  match get_transaction_state m e.sequenceNumber with
  | none =>
    -- assert(0); return -1
    if NDEBUG then (m, Outcome.returned (-1)) else (m, Outcome.assert_failed)
  | some tx =>
    match lookup_ipcp_by_id m tx.ipcp_id with
    | none => (m, Outcome.returned (-1))
    | some ipcp =>
      match lookup_ipcp_by_id m tx.slave_ipcp_id with
      | none => (m, Outcome.returned (-1))
      | some slave_ipcp =>
        let slave_dif_name := slave_ipcp.dif_name_
        let common := x.ipcm_register_response_common e ipcp.name slave_ipcp slave_dif_name
        let m := set_ipcp_state
                   (emit m (Effect.register_response_common e.sequenceNumber slave_ipcp.id))
                   slave_ipcp.id common.2
        let (m, ret) :=
          if common.1 then
            let r := x.notifyRegistrationToSupportingDIF (deref m ipcp)
                       (deref m slave_ipcp).name slave_dif_name
            let m := set_ipcp_state
                       (emit m (Effect.notifyRegistrationToSupportingDIF ipcp.id
                                  (deref m slave_ipcp).name slave_dif_name))
                       ipcp.id r.state_
            if r.threw then (FLUSH_LOG LogLevel.ERR m, ipcm_res_t.IPCM_FAILURE)
            else (FLUSH_LOG LogLevel.INFO m, ipcm_res_t.IPCM_SUCCESS)
          else (FLUSH_LOG LogLevel.ERR m, ipcm_res_t.IPCM_FAILURE)
        let m := completed m tx ret
        let m := remove_transaction_state m tx.tid
        (m, Outcome.returned (neg_is_success ret))

/-- The handler `IPCManager_::ipcm_unregister_response_ipcp`. -/
def ipcm_unregister_response_ipcp (x : Callees) (NDEBUG : Bool) (m : IPCManager_)
    (e : IpcmUnregisterApplicationResponseEvent) : IPCManager_ × Outcome Int :=
  match get_transaction_state m e.sequenceNumber with
  | none =>
    -- assert(0); return -1
    if NDEBUG then (m, Outcome.returned (-1)) else (m, Outcome.assert_failed)
  | some tx =>
    match lookup_ipcp_by_id m tx.ipcp_id with
    | none => (m, Outcome.returned (-1))
    | some ipcp =>
      match lookup_ipcp_by_id m tx.slave_ipcp_id with
      | none => (m, Outcome.returned (-1))
      | some slave_ipcp =>
        let slave_dif_name := slave_ipcp.dif_name_
        let common := x.ipcm_unregister_response_common e slave_ipcp ipcp.name
        let m := set_ipcp_state
                   (emit m (Effect.unregister_response_common e.sequenceNumber slave_ipcp.id))
                   slave_ipcp.id common.2
        let (m, ret) :=
          if common.1 then
            let r := x.notifyUnregistrationFromSupportingDIF (deref m ipcp)
                       (deref m slave_ipcp).name slave_dif_name
            let m := set_ipcp_state
                       (emit m (Effect.notifyUnregistrationFromSupportingDIF ipcp.id
                                  (deref m slave_ipcp).name slave_dif_name))
                       ipcp.id r.state_
            if r.threw then (FLUSH_LOG LogLevel.ERR m, ipcm_res_t.IPCM_FAILURE)
            else (FLUSH_LOG LogLevel.INFO m, ipcm_res_t.IPCM_SUCCESS)
          else (FLUSH_LOG LogLevel.ERR m, ipcm_res_t.IPCM_FAILURE)
        let m := completed m tx ret
        let m := remove_transaction_state m tx.tid
        (m, Outcome.returned (neg_is_success ret))

/-- The handler `IPCManager_::assign_to_dif_response_event_handler`. -/
def assign_to_dif_response_event_handler (x : Callees) (m : IPCManager_)
    (e : AssignToDIFResponseEvent) : IPCManager_ × Outcome Unit :=
  let success := (e.result == 0)
  match get_transaction_state m e.sequenceNumber with
  | none => (FLUSH_LOG LogLevel.WARN m, Outcome.returned ())
  | some tx =>
    let ipcp := lookup_ipcp_by_id m tx.ipcp_id
    -- the `try` block: `none` stands for a raised AssignToDIFException
    let (m, tried) : IPCManager_ × Option ipcm_res_t :=
      match ipcp with
      | none => (FLUSH_LOG LogLevel.WARN m, none)
      | some p =>
        let r := x.assignToDIFResult p success
        let m := set_ipcp_state (emit m (Effect.assignToDIFResult p.id success)) p.id r.state_
        if r.threw then (m, none)
        else
          (FLUSH_LOG LogLevel.INFO m,
            some (if success then ipcm_res_t.IPCM_SUCCESS else ipcm_res_t.IPCM_FAILURE))
    match tried with
    | some ret =>
      let m := completed m tx ret
      (remove_transaction_state m tx.tid, Outcome.returned ())
    | none =>
      -- the `catch` block starts by reading `ipcp->get_name()`
      match ipcp with
      | none => (m, Outcome.null_deref)
      | some _ =>
        let m := FLUSH_LOG LogLevel.ERR m
        let m := completed m tx ipcm_res_t.IPCM_FAILURE
        (remove_transaction_state m tx.tid, Outcome.returned ())

/-- The handler `IPCManager_::update_dif_config_response_event_handler`. -/
def update_dif_config_response_event_handler (m : IPCManager_)
    (e : UpdateDIFConfigurationResponseEvent) : IPCManager_ × Outcome Unit :=
  -- `success = (e->result == 0)` is only written to the log text
  match get_transaction_state m e.sequenceNumber with
  | none => (FLUSH_LOG LogLevel.WARN m, Outcome.returned ())
  | some tx =>
    let ipcp := lookup_ipcp_by_id m tx.ipcp_id
    -- the `try` block: `none` stands for a raised UpdateDIFConfigurationException
    let (m, tried) : IPCManager_ × Option ipcm_res_t :=
      match ipcp with
      | none => (FLUSH_LOG LogLevel.WARN m, none)
      | some _ => (FLUSH_LOG LogLevel.INFO m, some ipcm_res_t.IPCM_SUCCESS)
    match tried with
    | some ret =>
      let m := completed m tx ret
      (remove_transaction_state m tx.tid, Outcome.returned ())
    | none =>
      -- the `catch` block starts by reading `ipcp->get_name()`
      match ipcp with
      | none => (m, Outcome.null_deref)
      | some _ =>
        let m := FLUSH_LOG LogLevel.ERR m
        let m := completed m tx ipcm_res_t.IPCM_FAILURE
        (remove_transaction_state m tx.tid, Outcome.returned ())

/-- The handler `IPCManager_::enroll_to_dif_response_event_handler`. -/
def enroll_to_dif_response_event_handler (m : IPCManager_)
    (event : EnrollToDIFResponseEvent) : IPCManager_ × Outcome Unit :=
  let success := (event.result == 0)
  match get_transaction_state m event.sequenceNumber with
  | none => (FLUSH_LOG LogLevel.WARN m, Outcome.returned ())
  | some tx =>
    let (m, ret) : IPCManager_ × ipcm_res_t :=
      match lookup_ipcp_by_id m tx.ipcp_id with
      | none => (FLUSH_LOG LogLevel.WARN m, ipcm_res_t.IPCM_FAILURE)
      | some _ =>
        if success then (FLUSH_LOG LogLevel.INFO m, ipcm_res_t.IPCM_SUCCESS)
        else (FLUSH_LOG LogLevel.ERR m, ipcm_res_t.IPCM_FAILURE)
    let m := completed m tx ret
    (remove_transaction_state m tx.tid, Outcome.returned ())

/-- The stub `IPCManager_::ipc_process_create_connection_response_handler`: `(void) event;`. -/
def ipc_process_create_connection_response_handler (m : IPCManager_) (_event : IPCEvent) :
    IPCManager_ × Outcome Unit :=
  (m, Outcome.returned ())

/-- The stub `IPCManager_::ipc_process_update_connection_response_handler`: `(void) event;`. -/
def ipc_process_update_connection_response_handler (m : IPCManager_) (_event : IPCEvent) :
    IPCManager_ × Outcome Unit :=
  (m, Outcome.returned ())

/-- The stub `IPCManager_::ipc_process_create_connection_result_handler`: `(void) event;`. -/
def ipc_process_create_connection_result_handler (m : IPCManager_) (_event : IPCEvent) :
    IPCManager_ × Outcome Unit :=
  (m, Outcome.returned ())

/-- The stub `IPCManager_::ipc_process_destroy_connection_result_handler`: `(void) event;`. -/
def ipc_process_destroy_connection_result_handler (m : IPCManager_) (_event : IPCEvent) :
    IPCManager_ × Outcome Unit :=
  (m, Outcome.returned ())

/-- Number of times the transaction `tid` of the normal table is completed in a trace. -/
def completions (tr : List Effect) (tid : Nat) : List ipcm_res_t :=
  tr.filterMap (fun ef =>
    match ef with
    | Effect.completed t ret => if t = tid then some ret else none
    | _ => none)

/-- Whether a trace completes any transaction, of either table. -/
def completes_any (tr : List Effect) : Bool :=
  tr.any (fun ef =>
    match ef with
    | Effect.completed _ _ => true
    | Effect.syscall_completed _ _ => true
    | _ => false)

/-- An environment for running the handlers on concrete inputs: no method raises,
every method leaves the private state of its object as it was, and the common
parts of the registration handlers report success when the event does. -/
def sample_callees : Callees where
  assignToDIFResult := fun p _ => { state_ := p.state_, threw := false }
  setInitialized := fun p => p.state_
  ipcm_register_response_common := fun e _ slave _ => (e.result == 0, slave.state_)
  ipcm_unregister_response_common := fun e slave _ => (e.result == 0, slave.state_)
  notifyRegistrationToSupportingDIF := fun p _ _ => { state_ := p.state_, threw := false }
  notifyUnregistrationFromSupportingDIF := fun p _ _ => { state_ := p.state_, threw := false }

/-- A normal IPC process with id 7. -/
def sample_ipcp : IPCMIPCProcess :=
  { id := 7, type := IPCProcessType.NORMAL_IPC_PROCESS, name := "a", dif_name_ := "d", state_ := 0 }

/-- A manager with IPC process 7 and nothing pending. -/
def sample_idle_mgr : IPCManager_ :=
  { ipcps := [sample_ipcp], pend_transactions := [], pend_sys_trans := [], trace := [] }

/-- A manager with one pending transaction, number 1, issued for IPC process 7
with supporting IPC process 8, and no IPC process at all. -/
def sample_orphan_mgr : IPCManager_ :=
  { ipcps := [], pend_transactions := [{ tid := 1, ipcp_id := 7, slave_ipcp_id := 8 }],
    pend_sys_trans := [], trace := [] }

/-- A manager with IPC process 7 and one pending transaction, number 1, issued
for it with supporting IPC process 8, which does not exist. -/
def sample_mgr : IPCManager_ :=
  { ipcps := [sample_ipcp], pend_transactions := [{ tid := 1, ipcp_id := 7, slave_ipcp_id := 8 }],
    pend_sys_trans := [], trace := [] }

end rinad

namespace linux_rina

/-- The content of `struct kfa`: the spinlock (held or free) and the flow-id manager. -/
structure kfa where
  lock : Bool
  fidm : Nat
  deriving DecidableEq, Repr

/-- The content of `struct sdu`, declared in `du.h`; `kfa.c` never looks inside. -/
structure sdu where
  buffer : List Nat
  deriving DecidableEq, Repr

/-- What an entry point does besides computing its result, in program order. -/
inductive Op where
  /-- The macro call `LOG_ERR(msg)`. -/
  | LOG_ERR (msg : String)
  /-- The macro `LOG_MISSING`. -/
  | LOG_MISSING
  /-- The call `spin_lock(&instance->lock)`. -/
  | spin_lock
  /-- The call `spin_unlock(&instance->lock)`. -/
  | spin_unlock
  /-- The call `fidm_destroy(instance->fidm)`. -/
  | fidm_destroy (fidm : Nat)
  /-- The call `rkfree(instance)`. -/
  | rkfree
  deriving DecidableEq, Repr

/-- Helpers of `common.h`, `fidm.h` and `du.h` that `kfa.c` calls; their bodies are
not part of the sources at hand and they are parameters of the embedding. -/
structure Helpers where
  is_flow_id_ok : Int → Bool
  is_port_id_ok : Int → Bool
  is_sdu_ok : Option sdu → Bool
  flow_id_bad : Int

/-- Result of an entry point: the instance as the call leaves it (`none` when the
pointer was null or the instance was freed), the returned value, and what was done. -/
structure Run (α : Type) where
  inst : Option kfa
  ret : α
  ops : List Op
  deriving DecidableEq, Repr

/-- The critical section every flow operation runs once its arguments are accepted:
`spin_lock(&instance->lock); LOG_MISSING; spin_unlock(&instance->lock);`. -/
def locked_missing (i : kfa) : kfa × List Op :=
  let i := { i with lock := true }
  let i := { i with lock := false }
  (i, [Op.spin_lock, Op.LOG_MISSING, Op.spin_unlock])

/-- The function `kfa_create`: `alloc` is the outcome of `rkzalloc`, `fidm` that of `fidm_create`. -/
def kfa_create (alloc : Bool) (fidm : Option Nat) : Option kfa :=
  if !alloc then none
  else
    match fidm with
    | none => none
    | some f => some { lock := false, fidm := f }

/-- The function `kfa_destroy`. -/
def kfa_destroy (inst : Option kfa) : Run Int :=
  match inst with
  | none => { inst := none, ret := -1, ops := [Op.LOG_ERR "Bogus instance passed, bailing out"] }
  | some i => { inst := none, ret := 0, ops := [Op.fidm_destroy i.fidm, Op.rkfree] }

/-- The function `kfa_flow_create`. -/
def kfa_flow_create (h : Helpers) (inst : Option kfa) : Run Int :=
  match inst with
  | none => { inst := none, ret := -1, ops := [Op.LOG_ERR "Bogus instance passed, bailing out"] }
  | some i =>
    let r := locked_missing i
    { inst := some r.1, ret := h.flow_id_bad, ops := r.2 }

/-- The function `kfa_flow_bind`.  The third check is `is_port_id_ok(fid)`, as in the source. -/
def kfa_flow_bind (h : Helpers) (inst : Option kfa) (fid : Int) (_pid : Int) : Run Int :=
  match inst with
  | none => { inst := none, ret := -1, ops := [Op.LOG_ERR "Bogus instance passed, bailing out"] }
  | some i =>
    if !h.is_flow_id_ok fid then
      { inst := some i, ret := -1, ops := [Op.LOG_ERR "Bogus flow-id, bailing out"] }
    else if !h.is_port_id_ok fid then
      { inst := some i, ret := -1, ops := [Op.LOG_ERR "Bogus port-id, bailing out"] }
    else
      let r := locked_missing i
      { inst := some r.1, ret := -1, ops := r.2 }

/-- The function `kfa_flow_unbind`. -/
def kfa_flow_unbind (h : Helpers) (inst : Option kfa) (id : Int) : Run Int :=
  match inst with
  | none => { inst := none, ret := -1, ops := [Op.LOG_ERR "Bogus instance passed, bailing out"] }
  | some i =>
    if !h.is_port_id_ok id then
      { inst := some i, ret := -1, ops := [Op.LOG_ERR "Bogus port-id, bailing out"] }
    else
      let r := locked_missing i
      { inst := some r.1, ret := h.flow_id_bad, ops := r.2 }

/-- The function `kfa_flow_destroy`. -/
def kfa_flow_destroy (h : Helpers) (inst : Option kfa) (id : Int) : Run Int :=
  match inst with
  | none => { inst := none, ret := -1, ops := [Op.LOG_ERR "Bogus instance passed, bailing out"] }
  | some i =>
    if !h.is_flow_id_ok id then
      { inst := some i, ret := -1, ops := [Op.LOG_ERR "Bogus flow-id, bailing out"] }
    else
      let r := locked_missing i
      { inst := some r.1, ret := -1, ops := r.2 }

/-- The function `kfa_flow_sdu_write`.  The SDU check logs the port-id message, as in the source. -/
def kfa_flow_sdu_write (h : Helpers) (inst : Option kfa) (id : Int) (s : Option sdu) : Run Int :=
  match inst with
  | none => { inst := none, ret := -1, ops := [Op.LOG_ERR "Bogus instance passed, bailing out"] }
  | some i =>
    if !h.is_port_id_ok id then
      { inst := some i, ret := -1, ops := [Op.LOG_ERR "Bogus port-id, bailing out"] }
    else if !h.is_sdu_ok s then
      { inst := some i, ret := -1, ops := [Op.LOG_ERR "Bogus port-id, bailing out"] }
    else
      let r := locked_missing i
      { inst := some r.1, ret := -1, ops := r.2 }

/-- The function `kfa_flow_sdu_read`; the returned pointer is `none` for `NULL`. -/
def kfa_flow_sdu_read (h : Helpers) (inst : Option kfa) (id : Int) : Run (Option sdu) :=
  match inst with
  | none => { inst := none, ret := none, ops := [Op.LOG_ERR "Bogus instance passed, bailing out"] }
  | some i =>
    if !h.is_port_id_ok id then
      { inst := some i, ret := none, ops := [Op.LOG_ERR "Bogus port-id, bailing out"] }
    else
      let r := locked_missing i
      { inst := some r.1, ret := none, ops := r.2 }

/-- Identifier checks in the style of the kernel headers: an id is valid when it is
not negative, and an SDU pointer is valid when it is not null and its buffer is
not empty.  Used to run the entry points on concrete arguments. -/
def sample_helpers : Helpers where
  is_flow_id_ok := fun id => decide (0 ≤ id)
  is_port_id_ok := fun id => decide (0 ≤ id)
  is_sdu_ok := fun s =>
    match s with
    | none => false
    | some d => !d.buffer.isEmpty
  flow_id_bad := -1

end linux_rina

namespace linux_rina

/-! ### Netlink parsing (`netlink-utils.c`) -/

/-- A netlink attribute as the parsers see it: its type and its payload bytes. -/
structure nlattr where
  nla_type : Nat
  data : List Nat
  deriving DecidableEq, Repr

/-- The attribute kinds the parsers write into their policy tables. -/
inductive nla_kind where
  | NLA_U32
  | NLA_FLAG
  | NLA_STRING
  | NLA_NESTED
  deriving DecidableEq, Repr

/-- A table of attribute pointers indexed by attribute type (`struct nlattr *attrs[]`);
`none` is the null pointer. -/
abbrev attr_table := Nat → Option nlattr

/-- A policy table built on the stack: the entries whose `.type` the function
assigns, in program order.  The other entries are left as they are. -/
abbrev nla_policy := List (Nat × nla_kind)

/-- The user header of a RINA netlink message. -/
structure rina_msg_hdr where
  src_ipc_id : Nat
  dst_ipc_id : Nat
  deriving DecidableEq, Repr

/-- The netlink message header with the bytes that follow it. -/
structure nlmsghdr where
  body : List nlattr
  deriving DecidableEq, Repr

/-- The fields of `struct genl_info` the parsers use. -/
structure genl_info where
  nlhdr : nlmsghdr
  userhdr : rina_msg_hdr
  attrs : attr_table

/-- The content of `struct name`: four string pointers, `none` for a null pointer. -/
structure name where
  process_name : Option String
  process_instance : Option String
  entity_name : Option String
  entity_instance : Option String
  deriving DecidableEq, Repr

/-- The content of `struct uint_range`. -/
structure uint_range where
  min : Nat
  max : Nat
  deriving DecidableEq, Repr

/-- The content of `struct flow_spec`; the four ranges are pointers. -/
structure flow_spec where
  average_bandwidth : Option uint_range
  average_sdu_bandwidth : Option uint_range
  peak_bandwidth_duration : Option uint_range
  peak_sdu_bandwidth_duration : Option uint_range
  undetected_bit_error_rate : Nat
  ordered_delivery : Nat
  partial_delivery : Nat
  max_allowable_gap : Int
  delay : Nat
  jitter : Nat
  max_sdu_size : Nat
  deriving DecidableEq, Repr

/-- The content of `struct rnl_ipcm_alloc_flow_req_msg`. -/
structure rnl_ipcm_alloc_flow_req_msg where
  source : name
  dest : name
  fspec : flow_spec
  id : Int
  dif_name : name
  deriving DecidableEq, Repr

/-- The content of `struct rnl_alloc_flow_resp_msg`. -/
structure rnl_alloc_flow_resp_msg where
  dif_name : name
  accept : Nat
  deny_reason : Option String
  notify_src : Nat
  deriving DecidableEq, Repr

/-- The content of `struct rnl_dealloc_flow_req_msg`. -/
structure rnl_dealloc_flow_req_msg where
  id : Int
  dif_name : name
  app_name : name
  deriving DecidableEq, Repr

/-- The content of `struct rnl_dealloc_flow_resp_msg`. -/
structure rnl_dealloc_flow_resp_msg where
  result : Int
  err_desc : Option String
  app_name : name
  deriving DecidableEq, Repr

/-- The attribute numbers of `netlink.h`, which is not among the sources at hand.
They are parameters of the embedding. -/
structure AttrIds where
  APNI_ATTR_PROCESS_NAME : Nat
  APNI_ATTR_PROCESS_INSTANCE : Nat
  APNI_ATTR_ENTITY_NAME : Nat
  APNI_ATTR_ENTITY_INSTANCE : Nat
  APNI_ATTR_MAX : Nat
  FSPEC_ATTR_AVG_BWITH : Nat
  FSPEC_ATTR_AVG_SDU_BWITH : Nat
  FSPEC_ATTR_DELAY : Nat
  FSPEC_ATTR_JITTER : Nat
  FSPEC_ATTR_MAX_GAP : Nat
  FSPEC_ATTR_MAX_SDU_SIZE : Nat
  FSPEC_ATTR_IN_ORD_DELIVERY : Nat
  FSPEC_ATTR_PART_DELIVERY : Nat
  FSPEC_ATTR_PEAK_BWITH_DURATION : Nat
  FSPEC_ATTR_PEAK_SDU_BWITH_DURATION : Nat
  FSPEC_ATTR_UNDETECTED_BER : Nat
  FSPEC_ATTR_MAX : Nat
  IAFRM_ATTR_SOURCE_APP : Nat
  IAFRM_ATTR_DEST_APP : Nat
  IAFRM_ATTR_FLOW_SPEC : Nat
  IAFRM_ATTR_DIF_NAME : Nat
  IAFRM_ATTR_PORT_ID : Nat
  IAFRM_ATTR_APP_PORT : Nat
  IAFRM_ATTR_MAX : Nat
  AAFRA_ATTR_SOURCE_APP_NAME : Nat
  AAFRA_ATTR_DEST_APP_NAME : Nat
  AAFRA_ATTR_FLOW_SPEC : Nat
  AAFRA_ATTR_PORT_ID : Nat
  AAFRA_ATTR_DIF_NAME : Nat
  AAFRA_ATTR_MAX : Nat
  AAFRE_ATTR_DIF_NAME : Nat
  AAFRE_ATTR_ACCEPT : Nat
  AAFRE_ATTR_DENY_REASON : Nat
  AAFRE_ATTR_NOTIFY_SOURCE : Nat
  AAFRE_ATTR_MAX : Nat
  ADFRT_ATTR_PORT_ID : Nat
  ADFRT_ATTR_DIF_NAME : Nat
  ADFRT_ATTR_APP_NAME : Nat
  ADFRT_ATTR_MAX : Nat
  ADFRE_ATTR_RESULT : Nat
  ADFRE_ATTR_ERROR_DESCRIPTION : Nat
  ADFRE_ATTR_APP_NAME : Nat
  ADFRE_ATTR_MAX : Nat

/-- Kernel netlink primitives called by `netlink-utils.c`.  They belong to the
kernel, not to this repository, and are parameters of the embedding. -/
structure Netlink where
  /-- The attribute numbers in use. -/
  ids : AttrIds
  /-- The value of `sizeof(struct genlmsghdr) + sizeof(struct rina_msg_hdr)`. -/
  hdrlen : Nat
  /-- The value of `sizeof(struct nlattr *)`. -/
  sizeof_nlattr_ptr : Nat
  /-- The call `nlmsg_parse(nlh, hdrlen, tb, maxtype, policy)`: the error code and the
  table `tb` as the call leaves it. -/
  nlmsg_parse : nlmsghdr → Nat → attr_table → Nat → nla_policy → Int × attr_table
  /-- The call `nla_parse_nested(tb, maxtype, nla, policy)`: the error code and the
  table `tb` as the call leaves it. -/
  nla_parse_nested : Nat → Option nlattr → nla_policy → Int × attr_table
  /-- The call `nla_get_u32(nla)`. -/
  nla_get_u32 : nlattr → Nat
  /-- The call `nla_get_flag(nla)`. -/
  nla_get_flag : nlattr → Nat
  /-- The call `nla_strlcpy(dst, nla, dstsize)`: the content of the buffer `dst` points
  to after the call, given its content before. -/
  nla_strlcpy : Option String → nlattr → Nat → Option String

/-- The cast `(port_id_t) v` of an unsigned 32-bit value to `int`. -/
def port_id_of_u32 (v : Nat) : Int :=
  if v % 2 ^ 32 < 2 ^ 31 then (v % 2 ^ 32 : Nat) else ((v % 2 ^ 32 : Nat) : Int) - 2 ^ 32

/-- What a parser returns: its return value, the message structure and the
`genl_info` as it leaves them, and the error records it logged. -/
structure Parsed (α : Type) where
  ret : Int
  msg : α
  info : genl_info
  log : List String

/-- The function `rnl_parse_msg`. -/
def rnl_parse_msg (k : Netlink) (info : genl_info) (max_attr : Nat)
    (attr_policy : nla_policy) : Int × genl_info :=
  let r := k.nlmsg_parse info.nlhdr k.hdrlen info.attrs max_attr attr_policy
  let err := r.1
  let info := { info with attrs := r.2 }
  if err < 0 then (-1, info) else (0, info)

/-- The function `parse_flow_spec`.  After the call of `nla_parse_nested` comes an
unconditional `goto fail;`: the statements between it and the label (lines
289 to 338 of the source) are reached by no path. -/
def parse_flow_spec (k : Netlink) (fspec_attr : Option nlattr) (fspec_struct : flow_spec) :
    Int × flow_spec :=
  let attr_policy : nla_policy :=
    [(k.ids.FSPEC_ATTR_AVG_BWITH, nla_kind.NLA_U32),
     (k.ids.FSPEC_ATTR_AVG_SDU_BWITH, nla_kind.NLA_U32),
     (k.ids.FSPEC_ATTR_DELAY, nla_kind.NLA_U32),
     (k.ids.FSPEC_ATTR_JITTER, nla_kind.NLA_U32),
     (k.ids.FSPEC_ATTR_MAX_GAP, nla_kind.NLA_U32),
     (k.ids.FSPEC_ATTR_MAX_SDU_SIZE, nla_kind.NLA_U32),
     (k.ids.FSPEC_ATTR_IN_ORD_DELIVERY, nla_kind.NLA_FLAG),
     (k.ids.FSPEC_ATTR_PART_DELIVERY, nla_kind.NLA_FLAG),
     (k.ids.FSPEC_ATTR_PEAK_BWITH_DURATION, nla_kind.NLA_U32),
     (k.ids.FSPEC_ATTR_PEAK_SDU_BWITH_DURATION, nla_kind.NLA_U32),
     (k.ids.FSPEC_ATTR_UNDETECTED_BER, nla_kind.NLA_U32)]
  let _err := (k.nla_parse_nested k.ids.FSPEC_ATTR_MAX fspec_attr attr_policy).1
  -- goto fail;
  (-1, fspec_struct)

/-- The function `parse_app_name_info`. -/
def parse_app_name_info (k : Netlink) (name_attr : Option nlattr) (name_struct : name) :
    Int × name :=
  let attr_policy : nla_policy :=
    [(k.ids.APNI_ATTR_PROCESS_NAME, nla_kind.NLA_STRING),
     (k.ids.APNI_ATTR_PROCESS_INSTANCE, nla_kind.NLA_STRING),
     (k.ids.APNI_ATTR_ENTITY_NAME, nla_kind.NLA_STRING),
     (k.ids.APNI_ATTR_ENTITY_INSTANCE, nla_kind.NLA_STRING)]
  let r := k.nla_parse_nested k.ids.APNI_ATTR_MAX name_attr attr_policy
  let err := r.1
  let attrs := r.2
  if err < 0 then (-1, name_struct)
  else
    let name_struct :=
      match attrs k.ids.APNI_ATTR_PROCESS_NAME with
      | some a =>
        { name_struct with
          process_name := k.nla_strlcpy name_struct.process_name a k.sizeof_nlattr_ptr }
      | none => name_struct
    let name_struct :=
      match attrs k.ids.APNI_ATTR_PROCESS_INSTANCE with
      | some a =>
        { name_struct with
          process_instance := k.nla_strlcpy name_struct.process_instance a k.sizeof_nlattr_ptr }
      | none => name_struct
    let name_struct :=
      match attrs k.ids.APNI_ATTR_ENTITY_NAME with
      | some a =>
        { name_struct with
          entity_name := k.nla_strlcpy name_struct.entity_name a k.sizeof_nlattr_ptr }
      | none => name_struct
    let name_struct :=
      match attrs k.ids.APNI_ATTR_ENTITY_INSTANCE with
      | some a =>
        { name_struct with
          entity_instance := k.nla_strlcpy name_struct.entity_instance a k.sizeof_nlattr_ptr }
      | none => name_struct
    (0, name_struct)

/-- The text `BUILD_ERR_STRING_BY_MSG_TYPE(X)`. -/
def BUILD_ERR_STRING_BY_MSG_TYPE (X : String) : String :=
  "Could not parse Netlink message of type " ++ X

/-- The function `rnl_parse_ipcm_alloc_flow_req`.  The test of the result of
`parse_flow_spec` is `if (...) ;` with an empty statement, so the `goto fail;`
on the next line is taken whatever the result; the statements that follow it
(lines 407 to 415 of the source) are reached by no path. -/
def rnl_parse_ipcm_alloc_flow_req (k : Netlink) (info : genl_info)
    (msg_attrs : rnl_ipcm_alloc_flow_req_msg) : Parsed rnl_ipcm_alloc_flow_req_msg :=
  let attr_policy : nla_policy :=
    [(k.ids.IAFRM_ATTR_SOURCE_APP, nla_kind.NLA_NESTED),
     (k.ids.IAFRM_ATTR_DEST_APP, nla_kind.NLA_NESTED),
     (k.ids.IAFRM_ATTR_FLOW_SPEC, nla_kind.NLA_NESTED),
     (k.ids.IAFRM_ATTR_DIF_NAME, nla_kind.NLA_NESTED),
     (k.ids.IAFRM_ATTR_PORT_ID, nla_kind.NLA_U32),
     (k.ids.IAFRM_ATTR_APP_PORT, nla_kind.NLA_U32)]
  let fail (info : genl_info) (msg_attrs : rnl_ipcm_alloc_flow_req_msg) :
      Parsed rnl_ipcm_alloc_flow_req_msg :=
    { ret := -1, msg := msg_attrs, info := info,
      log := [BUILD_ERR_STRING_BY_MSG_TYPE "RINA_C_IPCM_ALLOCATE_FLOW_REQUEST"] }
  let r := rnl_parse_msg k info k.ids.IAFRM_ATTR_MAX attr_policy
  let info := r.2
  if r.1 < 0 then fail info msg_attrs
  else
    let s := parse_app_name_info k (info.attrs k.ids.IAFRM_ATTR_SOURCE_APP) msg_attrs.source
    let msg_attrs := { msg_attrs with source := s.2 }
    if s.1 < 0 then fail info msg_attrs
    else
      let d := parse_app_name_info k (info.attrs k.ids.IAFRM_ATTR_DEST_APP) msg_attrs.dest
      let msg_attrs := { msg_attrs with dest := d.2 }
      if d.1 < 0 then fail info msg_attrs
      else
        let f := parse_flow_spec k (info.attrs k.ids.IAFRM_ATTR_FLOW_SPEC) msg_attrs.fspec
        let msg_attrs := { msg_attrs with fspec := f.2 }
        -- if (f.1 < 0) ;
        -- goto fail;
        fail info msg_attrs

/-- The function `rnl_parse_alloc_flow_resp`.  The bound handed to `rnl_parse_msg` is
`AAFRA_ATTR_MAX`, as in the source. -/
def rnl_parse_alloc_flow_resp (k : Netlink) (info : genl_info)
    (msg_attrs : rnl_alloc_flow_resp_msg) : Parsed rnl_alloc_flow_resp_msg :=
  let attr_policy : nla_policy :=
    [(k.ids.AAFRE_ATTR_DIF_NAME, nla_kind.NLA_NESTED),
     (k.ids.AAFRE_ATTR_ACCEPT, nla_kind.NLA_FLAG),
     (k.ids.AAFRE_ATTR_DENY_REASON, nla_kind.NLA_STRING),
     (k.ids.AAFRE_ATTR_NOTIFY_SOURCE, nla_kind.NLA_FLAG)]
  let fail (info : genl_info) (msg_attrs : rnl_alloc_flow_resp_msg) :
      Parsed rnl_alloc_flow_resp_msg :=
    { ret := -1, msg := msg_attrs, info := info,
      log := [BUILD_ERR_STRING_BY_MSG_TYPE "RINA_C_APP_ALLOCATE_FLOW_RESPONSE"] }
  let r := rnl_parse_msg k info k.ids.AAFRA_ATTR_MAX attr_policy
  let info := r.2
  if r.1 < 0 then fail info msg_attrs
  else
    let d := parse_app_name_info k (info.attrs k.ids.AAFRE_ATTR_DIF_NAME) msg_attrs.dif_name
    let msg_attrs := { msg_attrs with dif_name := d.2 }
    if d.1 < 0 then fail info msg_attrs
    else
      let msg_attrs :=
        match info.attrs k.ids.AAFRE_ATTR_ACCEPT with
        | some a => { msg_attrs with accept := k.nla_get_flag a }
        | none => msg_attrs
      let msg_attrs :=
        match info.attrs k.ids.AAFRE_ATTR_DENY_REASON with
        | some a =>
          { msg_attrs with
            deny_reason := k.nla_strlcpy msg_attrs.deny_reason a k.sizeof_nlattr_ptr }
        | none => msg_attrs
      let msg_attrs :=
        match info.attrs k.ids.AAFRE_ATTR_NOTIFY_SOURCE with
        | some a => { msg_attrs with notify_src := k.nla_get_flag a }
        | none => msg_attrs
      { ret := 0, msg := msg_attrs, info := info, log := [] }

/-- The function `rnl_parse_app_dealloc_flow_req`. -/
def rnl_parse_app_dealloc_flow_req (k : Netlink) (info : genl_info)
    (msg_attrs : rnl_dealloc_flow_req_msg) : Parsed rnl_dealloc_flow_req_msg :=
  let attr_policy : nla_policy :=
    [(k.ids.ADFRT_ATTR_PORT_ID, nla_kind.NLA_U32),
     (k.ids.ADFRT_ATTR_DIF_NAME, nla_kind.NLA_NESTED),
     (k.ids.ADFRT_ATTR_APP_NAME, nla_kind.NLA_NESTED)]
  let fail (info : genl_info) (msg_attrs : rnl_dealloc_flow_req_msg) :
      Parsed rnl_dealloc_flow_req_msg :=
    { ret := -1, msg := msg_attrs, info := info,
      log := [BUILD_ERR_STRING_BY_MSG_TYPE "RINA_C_APP_DEALLOCATE_FLOW_REQUEST"] }
  let r := rnl_parse_msg k info k.ids.ADFRT_ATTR_MAX attr_policy
  let info := r.2
  if r.1 < 0 then fail info msg_attrs
  else
    let msg_attrs :=
      match info.attrs k.ids.ADFRT_ATTR_PORT_ID with
      | some a => { msg_attrs with id := port_id_of_u32 (k.nla_get_u32 a) }
      | none => msg_attrs
    let d := parse_app_name_info k (info.attrs k.ids.ADFRT_ATTR_DIF_NAME) msg_attrs.dif_name
    let msg_attrs := { msg_attrs with dif_name := d.2 }
    if d.1 < 0 then fail info msg_attrs
    else
      let a := parse_app_name_info k (info.attrs k.ids.ADFRT_ATTR_APP_NAME) msg_attrs.app_name
      let msg_attrs := { msg_attrs with app_name := a.2 }
      if a.1 < 0 then fail info msg_attrs
      else { ret := 0, msg := msg_attrs, info := info, log := [] }

/-- The function `rnl_parse_app_dealloc_flow_resp`. -/
def rnl_parse_app_dealloc_flow_resp (k : Netlink) (info : genl_info)
    (msg_attrs : rnl_dealloc_flow_resp_msg) : Parsed rnl_dealloc_flow_resp_msg :=
  let attr_policy : nla_policy :=
    [(k.ids.ADFRE_ATTR_RESULT, nla_kind.NLA_U32),
     (k.ids.ADFRE_ATTR_ERROR_DESCRIPTION, nla_kind.NLA_STRING),
     (k.ids.ADFRE_ATTR_APP_NAME, nla_kind.NLA_NESTED)]
  let fail (info : genl_info) (msg_attrs : rnl_dealloc_flow_resp_msg) :
      Parsed rnl_dealloc_flow_resp_msg :=
    { ret := -1, msg := msg_attrs, info := info,
      log := [BUILD_ERR_STRING_BY_MSG_TYPE "RINA_C_APP_DEALLOCATE_FLOW_RESPONSE"] }
  let r := rnl_parse_msg k info k.ids.ADFRE_ATTR_MAX attr_policy
  let info := r.2
  if r.1 < 0 then fail info msg_attrs
  else
    let msg_attrs :=
      match info.attrs k.ids.ADFRE_ATTR_RESULT with
      | some a => { msg_attrs with result := port_id_of_u32 (k.nla_get_u32 a) }
      | none => msg_attrs
    let msg_attrs :=
      match info.attrs k.ids.ADFRE_ATTR_ERROR_DESCRIPTION with
      | some a =>
        { msg_attrs with err_desc := k.nla_strlcpy msg_attrs.err_desc a k.sizeof_nlattr_ptr }
      | none => msg_attrs
    let a := parse_app_name_info k (info.attrs k.ids.ADFRE_ATTR_APP_NAME) msg_attrs.app_name
    let msg_attrs := { msg_attrs with app_name := a.2 }
    if a.1 < 0 then fail info msg_attrs
    else { ret := 0, msg := msg_attrs, info := info, log := [] }

/-- The function `rnl_src_ipcid_from_msg`. -/
def rnl_src_ipcid_from_msg (info : genl_info) : Nat :=
  let usr_hdr := info.userhdr
  usr_hdr.src_ipc_id

/-- The function `rnl_dst_ipcid_from_msg`; it reads `src_ipc_id`, as in the source. -/
def rnl_dst_ipcid_from_msg (info : genl_info) : Nat :=
  let usr_hdr := info.userhdr
  usr_hdr.src_ipc_id

end linux_rina

namespace linux_rina

/-- Attribute numbers in the manner of the kernel enumerations: each family counts
from 1 and its `_MAX` is the last number in use. -/
def sample_ids : AttrIds where
  APNI_ATTR_PROCESS_NAME := 1
  APNI_ATTR_PROCESS_INSTANCE := 2
  APNI_ATTR_ENTITY_NAME := 3
  APNI_ATTR_ENTITY_INSTANCE := 4
  APNI_ATTR_MAX := 4
  FSPEC_ATTR_AVG_BWITH := 1
  FSPEC_ATTR_AVG_SDU_BWITH := 2
  FSPEC_ATTR_DELAY := 3
  FSPEC_ATTR_JITTER := 4
  FSPEC_ATTR_MAX_GAP := 5
  FSPEC_ATTR_MAX_SDU_SIZE := 6
  FSPEC_ATTR_IN_ORD_DELIVERY := 7
  FSPEC_ATTR_PART_DELIVERY := 8
  FSPEC_ATTR_PEAK_BWITH_DURATION := 9
  FSPEC_ATTR_PEAK_SDU_BWITH_DURATION := 10
  FSPEC_ATTR_UNDETECTED_BER := 11
  FSPEC_ATTR_MAX := 11
  IAFRM_ATTR_SOURCE_APP := 1
  IAFRM_ATTR_DEST_APP := 2
  IAFRM_ATTR_FLOW_SPEC := 3
  IAFRM_ATTR_DIF_NAME := 4
  IAFRM_ATTR_PORT_ID := 5
  IAFRM_ATTR_APP_PORT := 6
  IAFRM_ATTR_MAX := 6
  AAFRA_ATTR_SOURCE_APP_NAME := 1
  AAFRA_ATTR_DEST_APP_NAME := 2
  AAFRA_ATTR_FLOW_SPEC := 3
  AAFRA_ATTR_PORT_ID := 4
  AAFRA_ATTR_DIF_NAME := 5
  AAFRA_ATTR_MAX := 5
  AAFRE_ATTR_DIF_NAME := 1
  AAFRE_ATTR_ACCEPT := 2
  AAFRE_ATTR_DENY_REASON := 3
  AAFRE_ATTR_NOTIFY_SOURCE := 4
  AAFRE_ATTR_MAX := 4
  ADFRT_ATTR_PORT_ID := 1
  ADFRT_ATTR_DIF_NAME := 2
  ADFRT_ATTR_APP_NAME := 3
  ADFRT_ATTR_MAX := 3
  ADFRE_ATTR_RESULT := 1
  ADFRE_ATTR_ERROR_DESCRIPTION := 2
  ADFRE_ATTR_APP_NAME := 3
  ADFRE_ATTR_MAX := 3

/-- A stand-in for the kernel primitives, used to run the parsers on concrete
messages.  `nlmsg_parse` rejects a message without attributes with -22 and
otherwise files each attribute of the message under its type, up to the
bound; `nla_parse_nested` rejects a missing nest or one with an empty payload
with -34 and otherwise files the payload of the nest under every type up to
the bound; an unsigned value is read from the first payload byte; a string
copy keeps `dstsize - 1` characters of the payload. -/
def sample_netlink : Netlink where
  ids := sample_ids
  hdrlen := 8
  sizeof_nlattr_ptr := 8
  nlmsg_parse := fun nlh _ tb maxtype _ =>
    if nlh.body.isEmpty then (-22, tb)
    else
      (0, fun i =>
        if i = 0 then none
        else if i ≤ maxtype then nlh.body.find? (fun a => a.nla_type == i)
        else tb i)
  nla_parse_nested := fun maxtype nla _ =>
    match nla with
    | none => (-34, fun _ => none)
    | some a =>
      if a.data.isEmpty then (-34, fun _ => none)
      else (0, fun i => if i = 0 then none else if i ≤ maxtype then some ⟨i, a.data⟩ else none)
  nla_get_u32 := fun a => a.data.headD 0
  nla_get_flag := fun _ => 1
  nla_strlcpy := fun dst a dstsize =>
    match dst with
    | none => none
    | some _ => some (String.mk ((a.data.take (dstsize - 1)).map Char.ofNat))

/-- An application name with four empty buffers. -/
def sample_name : name :=
  { process_name := some "", process_instance := some "", entity_name := some "",
    entity_instance := some "" }

/-- A flow specification with its four ranges allocated and every value zero. -/
def sample_flow_spec : flow_spec :=
  { average_bandwidth := some ⟨0, 0⟩, average_sdu_bandwidth := some ⟨0, 0⟩,
    peak_bandwidth_duration := some ⟨0, 0⟩, peak_sdu_bandwidth_duration := some ⟨0, 0⟩,
    undetected_bit_error_rate := 0, ordered_delivery := 0, partial_delivery := 0,
    max_allowable_gap := 0, delay := 0, jitter := 0, max_sdu_size := 0 }

/-- A deallocate-flow request carrying port id 9 and a DIF-name nest with an empty
payload, and no application name. -/
def sample_dealloc_info : genl_info :=
  { nlhdr := { body := [⟨1, [9]⟩, ⟨2, []⟩] }, userhdr := ⟨1, 2⟩, attrs := fun _ => none }

/-- The structure a caller hands to `rnl_parse_app_dealloc_flow_req`: port id 0 and
two names with empty buffers. -/
def sample_dealloc_msg : rnl_dealloc_flow_req_msg :=
  { id := 0, dif_name := sample_name, app_name := sample_name }

/-- A message without any attribute. -/
def sample_empty_info : genl_info :=
  { nlhdr := { body := [] }, userhdr := ⟨1, 2⟩, attrs := fun _ => none }

/-- An allocate-flow request with source, destination, flow specification, DIF
name and port id all present and well formed. -/
def sample_alloc_info : genl_info :=
  { nlhdr := { body := [⟨1, [97]⟩, ⟨2, [98]⟩, ⟨3, [1]⟩, ⟨4, [99]⟩, ⟨5, [9]⟩] },
    userhdr := ⟨1, 2⟩, attrs := fun _ => none }

/-- The structure a caller hands to `rnl_parse_ipcm_alloc_flow_req`. -/
def sample_alloc_msg : rnl_ipcm_alloc_flow_req_msg :=
  { source := sample_name, dest := sample_name, fspec := sample_flow_spec, id := 0,
    dif_name := sample_name }

end linux_rina

namespace linux_rina

/-! ### Data transfer (`dtp.h`)

`dtp.h` declares the entry points of the data transfer protocol; their bodies
are not among the sources at hand.  The definitions below follow the
specification of the transfer core.  Timers (A-timer, inactivity timers) and
the lock of the instance are not represented. -/

/-- Modelled from the spec: the lifecycle of a connection, for the DTP instance
whose declaration is missing. -/
inductive dtp_state where
  | UNINITIALIZED
  | ACTIVE
  | TERMINATING
  | DESTROYED
  deriving DecidableEq, Repr

/-- Modelled from the spec: a Transfer PDU (`struct pdu`, declared in `du.h`): its
sequence number, the data-run flag and the payload. -/
structure pdu where
  seq : Nat
  drf : Bool
  payload : List Nat
  deriving DecidableEq, Repr

/-- Modelled from the spec: the sequence state of the receiving direction of
`struct dtp`.  The window is the half-open range
from `left_window_edge`, the next sequence number owed to the application, up
to `right_window_edge`. -/
structure rcv_state where
  left_window_edge : Nat
  right_window_edge : Nat
  /-- Out-of-order PDUs held back until the gap before them fills, by sequence number. -/
  gap_set : List pdu
  /-- Whether a PDU signalling DRF was accepted since the last inactivity timeout. -/
  drf_seen : Bool
  /-- PDUs handed to the application, oldest first. -/
  delivered : List pdu
  /-- Count of PDUs discarded silently. -/
  dropped : Nat
  deriving DecidableEq, Repr

/-- Modelled from the spec: the sequence state of the sending direction of
`struct dtp`. -/
structure snd_state where
  next_to_send : Nat
  max_seq_nr_sent : Option Nat
  right_window_edge : Nat
  /-- Whether the next PDU is the first since (re)instantiation. -/
  drf_pending : Bool
  closed_window_queue : List pdu
  /-- PDUs handed to RMT, oldest first. -/
  rmt : List pdu
  deriving DecidableEq, Repr

/-- Modelled from the spec: the parameters of `struct connection` and its policies
that the transfer core reads. -/
structure connection where
  /-- The sequence number `initialseqnumpolicy` produces for a data run. -/
  initialseqnum : Nat
  initialcredit : Nat
  maxclosedwindowqueuelength : Nat
  datarxmsnmax : Nat
  deriving DecidableEq, Repr

/-- Modelled from the spec: a DTP instance (`struct dtp`). -/
structure dtp where
  state : dtp_state
  conn : connection
  rexmsn_ctrl : Bool
  window_based : Bool
  rate_based : Bool
  a : Nat
  snd : snd_state
  rcv : rcv_state
  deriving DecidableEq, Repr

/-- Modelled from the spec: the pluggable policies and the collaborators the core
calls at its decision points; the caller supplies their behaviour. -/
structure Policies where
  /-- The right window edge the receiver grants after a Transfer PDU was accepted. -/
  rcvrflowcontrolpolicy : rcv_state → Nat
  /-- Whether the rate-based state forbids sending now. -/
  rate_limited : snd_state → Bool
  /-- The arbiter when window and rate control disagree: true means proceed. -/
  reconcileflowcontrolpolicy : snd_state → Bool
  /-- Disposal of a PDU that does not fit on the closed-window queue: the sending
  state afterwards and the value `write` returns. -/
  closedwindowpolicy : snd_state → pdu → snd_state × Int
  /-- Whether RMT accepts a PDU handed to it. -/
  rmt_send : pdu → Bool

/-- Modelled from the spec: `dtp_create`, declared in `dtp.h`, builds the instance
bound to a connection; the instance is not yet active. -/
def dtp_create (c : connection) : dtp :=
  { state := dtp_state.UNINITIALIZED, conn := c,
    rexmsn_ctrl := false, window_based := false, rate_based := false, a := 0,
    snd := { next_to_send := c.initialseqnum, max_seq_nr_sent := none,
             right_window_edge := c.initialseqnum + c.initialcredit,
             drf_pending := true, closed_window_queue := [], rmt := [] },
    rcv := { left_window_edge := 0, right_window_edge := c.initialcredit, gap_set := [],
             drf_seen := false, delivered := [], dropped := 0 } }

/-- Modelled from the spec: `dtp_sv_init`, declared in `dtp.h`, supplies the
state-vector flags and the A-timer bound; the instance is active afterwards.
It returns -1 on a null instance. -/
def dtp_sv_init (inst : Option dtp) (rexmsn_ctrl window_based rate_based : Bool) (a : Nat) :
    Option dtp × Int :=
  match inst with
  | none => (none, -1)
  | some d =>
    (some { d with state := dtp_state.ACTIVE, rexmsn_ctrl := rexmsn_ctrl,
                   window_based := window_based, rate_based := rate_based, a := a }, 0)

/-- Modelled from the spec: an out-of-order PDU is buffered; the gap set is kept in
sequence order. -/
def gap_insert (p : pdu) : List pdu → List pdu
  | [] => [p]
  | q :: qs => if p.seq < q.seq then p :: q :: qs else q :: gap_insert p qs

/-- Modelled from the spec: buffered PDUs are delivered in sequence order once the
gap fills.  Takes from the head of the gap set the PDUs that are now in order,
starting at sequence number `lwe`: the PDUs to deliver, the gap set that remains,
and the left window edge after them. -/
def gap_drain (lwe : Nat) : List pdu → List pdu × List pdu × Nat
  | [] => ([], [], lwe)
  | q :: qs =>
    if q.seq = lwe then
      let r := gap_drain (lwe + 1) qs
      (q :: r.1, r.2.1, r.2.2)
    else ([], q :: qs, lwe)

/-- Modelled from the spec: the receiver discards a PDU silently and counts it. -/
def rcv_drop (r : rcv_state) : rcv_state :=
  { r with dropped := r.dropped + 1 }

/-- Modelled from the spec: the receiver delivers the in-order PDU `p` (its sequence
number is the left window edge), then whatever the gap set holds in order
behind it, and lets the flow-control policy set the right window edge. -/
def rcv_deliver (pol : Policies) (r : rcv_state) (p : pdu) : rcv_state :=
  let g := gap_drain (p.seq + 1) r.gap_set
  let r := { r with delivered := r.delivered ++ p :: g.1, gap_set := g.2.1,
                    left_window_edge := g.2.2 }
  { r with right_window_edge := pol.rcvrflowcontrolpolicy r }

/-- Modelled from the spec: the receive path of DTP on the sequence state of the
receiving direction.  The sequence number is validated against the window
first: a PDU below the left window edge, or beyond the right one when window
based flow control is on, is dropped and counted.  A PDU signalling DRF resets
the sequence state to its own sequence number and is delivered, unless a DRF
was already accepted (a duplicate DRF is discarded).  A PDU already in the gap
set is a duplicate and is dropped.  An in-order PDU is delivered at once,
followed by the buffered PDUs it makes in order; any other PDU in the window
is buffered. -/
def rcv_pdu (pol : Policies) (window_based : Bool) (r : rcv_state) (p : pdu) : rcv_state :=
  if p.seq < r.left_window_edge then rcv_drop r
  else if window_based && decide (r.right_window_edge ≤ p.seq) then rcv_drop r
  else if p.drf then
    if r.drf_seen then rcv_drop r
    else
      rcv_deliver pol { r with left_window_edge := p.seq, gap_set := [], drf_seen := true } p
  else if r.gap_set.any (fun q => q.seq == p.seq) then rcv_drop r
  else if p.seq = r.left_window_edge then rcv_deliver pol r p
  else
    let r := { r with gap_set := gap_insert p r.gap_set }
    { r with right_window_edge := pol.rcvrflowcontrolpolicy r }

/-- Modelled from the spec: `dtp_receive`, declared in `dtp.h`.  A null instance or
a null PDU is rejected with -1; otherwise the PDU goes through the receive
path and the call returns 0, also when the PDU is dropped. -/
def dtp_receive (pol : Policies) (inst : Option dtp) (p : Option pdu) : Option dtp × Int :=
  match inst, p with
  | none, _ => (none, -1)
  | some d, none => (some d, -1)
  | some d, some p => (some { d with rcv := rcv_pdu pol d.window_based d.rcv p }, 0)

/-- Receive a run of PDUs in their order of arrival: `dtp_receive` once per PDU. -/
def dtp_receive_all (pol : Policies) (inst : Option dtp) (ps : List pdu) : Option dtp :=
  ps.foldl (fun i p => (dtp_receive pol i (some p)).1) inst

/-- The sequence numbers of a list of PDUs. -/
def seqs (ps : List pdu) : List Nat :=
  ps.map (fun p => p.seq)

/-- A stretch of deliveries: sequence numbers strictly increasing, all of them at
or above `lo` and below `hi`. -/
def RisingIn (lo hi : Nat) (xs : List pdu) : Prop :=
  List.Pairwise (fun a b => a < b) (seqs xs) ∧ ∀ x ∈ xs, lo ≤ x.seq ∧ x.seq < hi

/-- A receiver whose left window edge is at 1, with room up to sequence number 10,
that has delivered and buffered nothing. -/
def sample_receiver : dtp :=
  { state := dtp_state.ACTIVE,
    conn := { initialseqnum := 1, initialcredit := 10, maxclosedwindowqueuelength := 5,
              datarxmsnmax := 3 },
    rexmsn_ctrl := false, window_based := true, rate_based := false, a := 0,
    snd := { next_to_send := 1, max_seq_nr_sent := none, right_window_edge := 11,
             drf_pending := true, closed_window_queue := [], rmt := [] },
    rcv := { left_window_edge := 1, right_window_edge := 11, gap_set := [], drf_seen := false,
             delivered := [], dropped := 0 } }

/-- Policies for running the transfer core on concrete inputs: the receiver keeps
its right window edge, there is no rate limit, a PDU that does not fit on the
closed-window queue is dropped and the write fails, and RMT accepts every PDU. -/
def sample_policies : Policies where
  rcvrflowcontrolpolicy := fun r => r.right_window_edge
  rate_limited := fun _ => false
  reconcileflowcontrolpolicy := fun _ => true
  closedwindowpolicy := fun s _ => (s, -1)
  rmt_send := fun _ => true

end linux_rina

namespace linux_rina

/-- A receiver that has delivered PDUs 1, 2 and 3 and waits for PDU 4. -/
def sample_receiver_at_4 : dtp :=
  { sample_receiver with
    rcv := { left_window_edge := 4, right_window_edge := 11, gap_set := [], drf_seen := false,
             delivered := [⟨1, false, []⟩, ⟨2, false, []⟩, ⟨3, false, []⟩], dropped := 0 } }

/-- Modelled from the spec: the window-based closed-window condition for sequence
number `seq`: the window admits the sequence numbers below the right window edge. -/
def window_closed (s : snd_state) (seq : Nat) : Bool :=
  decide (s.right_window_edge ≤ seq)

/-- Modelled from the spec: the outgoing flow-control check of `write`.  Without
flow control sending is unconditional; with one kind of control that kind
decides; when window and rate control are both active and disagree,
`reconcileflowcontrolpolicy` is the sole arbiter (true means proceed). -/
def flow_closed (pol : Policies) (d : dtp) (s : snd_state) (seq : Nat) : Bool :=
  match d.window_based, d.rate_based with
  | false, false => false
  | true, false => window_closed s seq
  | false, true => pol.rate_limited s
  | true, true =>
    if window_closed s seq = pol.rate_limited s then window_closed s seq
    else !pol.reconcileflowcontrolpolicy s

/-- Modelled from the spec: `dtp_write`, declared in `dtp.h`.  A null instance or a
null SDU is rejected with -1, and so is a write on a connection that is not
active.  Otherwise the SDU gets the next sequence number (and the DRF flag
when it is the first PDU since instantiation) and goes through the
flow-control check: when the window is closed the PDU is put on the
closed-window queue, or handed to `closedwindowpolicy` when the queue already
holds `maxclosedwindowqueuelength` PDUs; when it is open the PDU is handed to
RMT, and a refusal by RMT is returned as a write failure. -/
def dtp_write (pol : Policies) (inst : Option dtp) (s : Option sdu) : Option dtp × Int :=
  match inst, s with
  | none, _ => (none, -1)
  | some d, none => (some d, -1)
  | some d, some u =>
    if d.state ≠ dtp_state.ACTIVE then (some d, -1)
    else
      let p : pdu := { seq := d.snd.next_to_send, drf := d.snd.drf_pending, payload := u.buffer }
      let st := { d.snd with next_to_send := d.snd.next_to_send + 1, drf_pending := false }
      if flow_closed pol d st p.seq then
        if st.closed_window_queue.length < d.conn.maxclosedwindowqueuelength then
          (some { d with snd := { st with closed_window_queue := st.closed_window_queue ++ [p] } },
            0)
        else
          let r := pol.closedwindowpolicy st p
          (some { d with snd := r.1 }, r.2)
      else
        let st := { st with rmt := st.rmt ++ [p], max_seq_nr_sent := some p.seq }
        (some { d with snd := st }, if pol.rmt_send p then 0 else -1)

/-- Write a run of SDUs, one `dtp_write` per SDU, with nothing else in between. -/
def dtp_write_all (pol : Policies) (inst : Option dtp) (us : List sdu) : Option dtp :=
  us.foldl (fun i u => (dtp_write pol i (some u)).1) inst

/-- Modelled from the spec: the release of the closed-window queue.  Takes from the
head of the queue the PDUs that `passes` lets through: those released, in queue
order, and the queue that remains. -/
def cwq_release (passes : pdu → Bool) : List pdu → List pdu × List pdu
  | [] => ([], [])
  | q :: qs =>
    if passes q then
      let r := cwq_release passes qs
      (q :: r.1, r.2)
    else ([], q :: qs)

/-- Modelled from the spec: an acknowledgment moves the right window edge of the
sending direction to `edge` (the edge never moves back), and the PDUs waiting
on the closed-window queue are released to RMT from the head of the queue for
as long as the flow-control check lets them through. -/
def dtp_right_window_edge_advanced (pol : Policies) (d : dtp) (edge : Nat) : dtp :=
  let st := { d.snd with right_window_edge := max d.snd.right_window_edge edge }
  let r := cwq_release (fun q => !flow_closed pol d st q.seq) st.closed_window_queue
  let st := { st with rmt := st.rmt ++ r.1, closed_window_queue := r.2,
                      max_seq_nr_sent :=
                        match r.1.getLast? with
                        | some q => some q.seq
                        | none => st.max_seq_nr_sent }
  { d with snd := st }

/-- A run of acknowledgments, each moving the right window edge. -/
def dtp_acks (pol : Policies) (d : dtp) (edges : List Nat) : dtp :=
  edges.foldl (fun d e => dtp_right_window_edge_advanced pol d e) d

/-- An active instance under window-based flow control alone. -/
def WindowOnly (d : dtp) : Prop :=
  d.state = dtp_state.ACTIVE ∧ d.window_based = true ∧ d.rate_based = false

/-- The PDUs numbered from `s0` on, `n` of them, are split in sequence order between
RMT and the closed-window queue of a window-only instance exactly at the
right window edge. -/
def Staged (s0 n : Nat) (d : dtp) : Prop :=
  WindowOnly d
  ∧ seqs d.snd.rmt ++ seqs d.snd.closed_window_queue = List.range' s0 n
  ∧ (∀ p ∈ d.snd.rmt, p.seq < d.snd.right_window_edge)
  ∧ (∀ q ∈ d.snd.closed_window_queue, d.snd.right_window_edge ≤ q.seq)

/-- A connection with initial sequence number 0, initial credit 10 and room for
only 3 PDUs on the closed-window queue. -/
def sample_short_queue_connection : connection :=
  { initialseqnum := 0, initialcredit := 10, maxclosedwindowqueuelength := 3, datarxmsnmax := 3 }

/-- A connection with initial sequence number 0, initial credit 10 and room for
5 PDUs on the closed-window queue. -/
def sample_connection : connection :=
  { initialseqnum := 0, initialcredit := 10, maxclosedwindowqueuelength := 5, datarxmsnmax := 3 }

/-- Fifteen SDUs of one byte each. -/
def sample_sdus : List sdu :=
  List.replicate 15 { buffer := [0] }

end linux_rina

namespace linux_rina

/-! ### Retransmission control (DTCP)

The sources at hand hold the configuration of retransmission control
(`DTCPRtxControlConfig` in `librina-ipc-process.h`) but not the procedure that
uses it.  The definitions below follow the specification of DTCP. -/

/-- Modelled from the spec: an entry of the retransmission queue: a PDU sent and
not yet acknowledged, and the number of times it has been retransmitted. -/
structure rtxq_entry where
  p : pdu
  retries : Nat
  deriving DecidableEq, Repr

/-- Modelled from the spec: the retransmission state of a DTCP instance. -/
structure dtcp where
  state : dtp_state
  conn : connection
  max_seq_nr_sent : Option Nat
  /-- The retransmission queue, keyed by sequence number. -/
  rtxq : List rtxq_entry
  /-- PDUs handed to RMT again, oldest first. -/
  retransmitted : List pdu
  /-- Whether a fatal condition was reported upward. -/
  reported : Bool
  deriving DecidableEq, Repr

/-- Modelled from the spec: the policies of retransmission control; the caller
supplies their behaviour. -/
structure RtxPolicies where
  /-- Whether, on expiry of the retransmission timer of the PDU with the given
  sequence number, all PDUs up to that number are to be retransmitted. -/
  rtxtimerexpirypolicy : dtcp → Nat → Bool
  /-- Whether an acknowledgment of the given sequence number authorizes the discard
  of an entry it does not cover. -/
  senderackpolicy : Nat → rtxq_entry → Bool

/-- Modelled from the spec: the events that reach retransmission control. -/
inductive dtcp_event where
  /-- A Transfer PDU was handed to RMT for the first time. -/
  | sent (p : pdu)
  /-- An acknowledgment of every PDU up to `seq` arrived. -/
  | ack (seq : Nat)
  /-- The retransmission timer of the PDU numbered `seq` expired. -/
  | rtx_timer_expired (seq : Nat)
  deriving DecidableEq, Repr

/-- Modelled from the spec: a DTCP instance with retransmission control for a new
connection; nothing is in flight. -/
def dtcp_create (c : connection) : dtcp :=
  { state := dtp_state.ACTIVE, conn := c, max_seq_nr_sent := none, rtxq := [],
    retransmitted := [], reported := false }

/-- Modelled from the spec: sequence numbers only grow; whether a sequence number
is above everything sent so far. -/
def is_new (d : dtcp) (seq : Nat) : Bool :=
  match d.max_seq_nr_sent with
  | none => true
  | some m => decide (m < seq)

/-- Modelled from the spec: the retransmission queue holds the PDUs sent, keyed by
sequence number.  Sequence numbers only grow, so a PDU that is not newer than
the last one sent is not entered again. -/
def dtcp_pdu_sent (d : dtcp) (p : pdu) : dtcp :=
  if d.state = dtp_state.ACTIVE ∧ is_new d p.seq = true then
    { d with rtxq := d.rtxq ++ [{ p := p, retries := 0 }], max_seq_nr_sent := some p.seq }
  else d

/-- Modelled from the spec: a PDU stays on the retransmission queue until it is
acknowledged or until `senderackpolicy` authorizes its discard. -/
def dtcp_ack_received (pol : RtxPolicies) (d : dtcp) (seq : Nat) : dtcp :=
  let keep := fun (e : rtxq_entry) => !(decide (e.p.seq ≤ seq) || pol.senderackpolicy seq e)
  { d with rtxq := d.rtxq.filter keep }

/-- Modelled from the spec: expiry of the retransmission timer of the PDU numbered
`seq`.  Retransmission attempts are bounded by `datarxmsnmax`: when a PDU that
would be retransmitted has already been retransmitted that many times, the
condition is fatal, it is reported upward and the connection is torn down.
Otherwise `rtxtimerexpirypolicy` decides: when it returns true, all PDUs with
a sequence number up to `seq` are retransmitted; the alternate action belongs
to the policy and is not part of the core. -/
def dtcp_rtx_timer_expired (pol : RtxPolicies) (d : dtcp) (seq : Nat) : dtcp :=
  if d.state ≠ dtp_state.ACTIVE then d
  else if d.rtxq.any (fun e => decide (e.p.seq ≤ seq) && decide (d.conn.datarxmsnmax ≤ e.retries))
  then { d with state := dtp_state.TERMINATING, reported := true }
  else if pol.rtxtimerexpirypolicy d seq then
    let due := d.rtxq.filter (fun e => decide (e.p.seq ≤ seq))
    let again := fun (e : rtxq_entry) =>
      if e.p.seq ≤ seq then { e with retries := e.retries + 1 } else e
    { d with rtxq := d.rtxq.map again,
             retransmitted := d.retransmitted ++ due.map (fun e => e.p) }
  else d

/-- One event on the retransmission state. -/
def dtcp_step (pol : RtxPolicies) (d : dtcp) (ev : dtcp_event) : dtcp :=
  match ev with
  | dtcp_event.sent p => dtcp_pdu_sent d p
  | dtcp_event.ack seq => dtcp_ack_received pol d seq
  | dtcp_event.rtx_timer_expired seq => dtcp_rtx_timer_expired pol d seq

/-- An execution: a run of events from a given state. -/
def dtcp_run (pol : RtxPolicies) (d : dtcp) (evs : List dtcp_event) : dtcp :=
  evs.foldl (dtcp_step pol) d

/-- The number of times the PDU numbered `seq` was retransmitted. -/
def retransmissions (d : dtcp) (seq : Nat) : Nat :=
  (seqs d.retransmitted).count seq

/-- What the proof of the retransmission bound keeps true along an execution. -/
def RtxInv (d : dtcp) : Prop :=
  (d.rtxq.map (fun e => e.p.seq)).Nodup
  ∧ (∀ e ∈ d.rtxq, retransmissions d e.p.seq ≤ e.retries ∧ e.retries ≤ d.conn.datarxmsnmax
      ∧ is_new d e.p.seq = false)
  ∧ (∀ seq, retransmissions d seq ≤ d.conn.datarxmsnmax)
  ∧ (∀ x ∈ d.retransmitted, is_new d x.seq = false)

/-- An execution in which PDU 0 is sent and its retransmission timer expires three
times. -/
def sample_rtx_events : List dtcp_event :=
  [dtcp_event.sent ⟨0, true, []⟩, dtcp_event.rtx_timer_expired 0,
   dtcp_event.rtx_timer_expired 0, dtcp_event.rtx_timer_expired 0]

/-- Retransmission policies for running DTCP on concrete inputs: the timer policy
asks for the default action and no discard is authorized beyond what is
acknowledged. -/
def sample_rtx_policies : RtxPolicies where
  rtxtimerexpirypolicy := fun _ _ => true
  senderackpolicy := fun _ _ => false

end linux_rina

namespace linux_rina

/-- Follow the lock through a trace of operations: `held` tells whether the caller
holds the lock.  The result is `none` when the lock is taken while held or
released while not held, and otherwise tells whether it is held at the end. -/
def lock_walk : Bool → List Op → Option Bool
  | held, [] => some held
  | held, Op.spin_lock :: ops => if held then none else lock_walk true ops
  | held, Op.spin_unlock :: ops => if held then lock_walk false ops else none
  | held, Op.LOG_ERR _ :: ops => lock_walk held ops
  | held, Op.LOG_MISSING :: ops => lock_walk held ops
  | held, Op.fidm_destroy _ :: ops => lock_walk held ops
  | held, Op.rkfree :: ops => lock_walk held ops

/-- The lock discipline of one call, given whether its argument checks pass: the
call ends without holding the lock, takes it at most once, and takes it
exactly when the checks pass; when they fail it does nothing but log one
error and leaves the instance as it was, and when they pass the trace is the
critical section alone and the lock of the instance is free at the end. -/
def Disciplined {α : Type} (before : Option kfa) (r : Run α) (checks : Bool) : Prop :=
  lock_walk false r.ops = some false
  ∧ r.ops.count Op.spin_lock ≤ 1
  ∧ r.ops.count Op.spin_unlock = r.ops.count Op.spin_lock
  ∧ (Op.spin_lock ∈ r.ops ↔ checks = true)
  ∧ (checks = false → (∃ msg, r.ops = [Op.LOG_ERR msg]) ∧ r.inst = before)
  ∧ (checks = true → r.ops = [Op.spin_lock, Op.LOG_MISSING, Op.spin_unlock]
      ∧ r.inst.map (fun i => i.lock) = some false)

end linux_rina

namespace rinad

/-- The supporting IPC process with id 8. -/
def sample_slave_ipcp : IPCMIPCProcess :=
  { id := 8, type := IPCProcessType.SHIM_IPC_PROCESS, name := "s", dif_name_ := "n", state_ := 0 }

/-- A manager with IPC processes 7 and 8 and one pending transaction, number 1,
for the registration of 7 at 8. -/
def sample_reg_mgr : IPCManager_ :=
  { ipcps := [sample_ipcp, sample_slave_ipcp],
    pend_transactions := [{ tid := 1, ipcp_id := 7, slave_ipcp_id := 8 }],
    pend_sys_trans := [], trace := [] }

end rinad

namespace rinad

/-- The manager `m1` was reached from `m` by effects none of which completes a
transaction. -/
def NoCompletionSince (m m1 : IPCManager_) : Prop :=
  ∃ mid, m1.trace = m.trace ++ mid ∧ completes_any mid = false

end rinad

namespace linux_rina

/-- The policy table `parse_app_name_info` fills in before it parses. -/
def apni_policy (k : Netlink) : nla_policy :=
  [(k.ids.APNI_ATTR_PROCESS_NAME, nla_kind.NLA_STRING),
   (k.ids.APNI_ATTR_PROCESS_INSTANCE, nla_kind.NLA_STRING),
   (k.ids.APNI_ATTR_ENTITY_NAME, nla_kind.NLA_STRING),
   (k.ids.APNI_ATTR_ENTITY_INSTANCE, nla_kind.NLA_STRING)]

/-- The policy table `rnl_parse_alloc_flow_resp` fills in; it is declared with
`AAFRE_ATTR_MAX + 1` entries. -/
def aafre_policy (k : Netlink) : nla_policy :=
  [(k.ids.AAFRE_ATTR_DIF_NAME, nla_kind.NLA_NESTED),
   (k.ids.AAFRE_ATTR_ACCEPT, nla_kind.NLA_FLAG),
   (k.ids.AAFRE_ATTR_DENY_REASON, nla_kind.NLA_STRING),
   (k.ids.AAFRE_ATTR_NOTIFY_SOURCE, nla_kind.NLA_FLAG)]

/-- The policy table `rnl_parse_ipcm_alloc_flow_req` fills in; it is declared with
`IAFRM_ATTR_MAX + 1` entries. -/
def iafrm_policy (k : Netlink) : nla_policy :=
  [(k.ids.IAFRM_ATTR_SOURCE_APP, nla_kind.NLA_NESTED),
   (k.ids.IAFRM_ATTR_DEST_APP, nla_kind.NLA_NESTED),
   (k.ids.IAFRM_ATTR_FLOW_SPEC, nla_kind.NLA_NESTED),
   (k.ids.IAFRM_ATTR_DIF_NAME, nla_kind.NLA_NESTED),
   (k.ids.IAFRM_ATTR_PORT_ID, nla_kind.NLA_U32),
   (k.ids.IAFRM_ATTR_APP_PORT, nla_kind.NLA_U32)]

/-- The policy table `rnl_parse_app_dealloc_flow_req` fills in; it is declared with
`ADFRT_ATTR_MAX + 1` entries. -/
def adfrt_policy (k : Netlink) : nla_policy :=
  [(k.ids.ADFRT_ATTR_PORT_ID, nla_kind.NLA_U32),
   (k.ids.ADFRT_ATTR_DIF_NAME, nla_kind.NLA_NESTED),
   (k.ids.ADFRT_ATTR_APP_NAME, nla_kind.NLA_NESTED)]

/-- The policy table `rnl_parse_app_dealloc_flow_resp` fills in; it is declared with
`ADFRE_ATTR_MAX + 1` entries. -/
def adfre_policy (k : Netlink) : nla_policy :=
  [(k.ids.ADFRE_ATTR_RESULT, nla_kind.NLA_U32),
   (k.ids.ADFRE_ATTR_ERROR_DESCRIPTION, nla_kind.NLA_STRING),
   (k.ids.ADFRE_ATTR_APP_NAME, nla_kind.NLA_NESTED)]

/-- An allocate-flow response that carries, besides its DIF name, an attribute
numbered 5, one more than the response family has. -/
def sample_resp_info : genl_info :=
  { nlhdr := { body := [⟨1, [100]⟩, ⟨5, [7]⟩] }, userhdr := ⟨1, 2⟩, attrs := fun _ => none }

/-- The structure a caller hands to `rnl_parse_alloc_flow_resp`. -/
def sample_resp_msg : rnl_alloc_flow_resp_msg :=
  { dif_name := sample_name, accept := 0, deny_reason := some "", notify_src := 0 }

/-- A nested application name whose payload is the ten characters `abcdefghij`. -/
def sample_long_name_attr : nlattr :=
  { nla_type := 1, data := [97, 98, 99, 100, 101, 102, 103, 104, 105, 106] }

end linux_rina

namespace linux_rina

/-! ### Netlink message construction (`netlink-utils.c`) -/

/-- The part of `struct sk_buff` that matters when a message is built: the
attributes appended so far and the room that is left. -/
structure sk_buff where
  attrs : List nlattr
  tailroom : Nat
  deriving DecidableEq, Repr

/-- The calls by which `netlink-utils.c` builds a message, and its error log.
`nla_nest_end` is listed although no function of the file calls it. -/
inductive PutOp where
  /-- The call `nla_put_string(msg, attrtype, str)`. -/
  | nla_put_string (attrtype : Nat) (str : String)
  /-- The call `nla_put_u32(msg, attrtype, value)`. -/
  | nla_put_u32 (attrtype : Nat) (value : Nat)
  /-- The call `nla_nest_start(msg, attrtype)`. -/
  | nla_nest_start (attrtype : Nat)
  /-- The call `nla_nest_cancel(msg, start)`. -/
  | nla_nest_cancel (start : Option nlattr)
  /-- The call `nla_nest_end(msg, start)`. -/
  | nla_nest_end (start : Option nlattr)
  /-- The macro call `LOG_ERR(text)`. -/
  | LOG_ERR (text : String)
  deriving DecidableEq, Repr

/-- Kernel primitives that extend a netlink message.  They belong to the kernel,
not to this repository, and are parameters of the embedding. -/
structure NetlinkPut where
  /-- The attribute numbers in use. -/
  ids : AttrIds
  /-- The call `nla_put_string(msg, attrtype, str)`: its result (0 on success) and the
  message afterwards. -/
  nla_put_string : sk_buff → Nat → String → Int × sk_buff
  /-- The call `nla_put_u32(msg, attrtype, value)`: its result (0 on success) and the
  message afterwards. -/
  nla_put_u32 : sk_buff → Nat → Nat → Int × sk_buff
  /-- The call `nla_nest_start(msg, attrtype)`: the nest attribute, or `none` for a null
  pointer, and the message afterwards. -/
  nla_nest_start : sk_buff → Nat → Option nlattr × sk_buff
  /-- The call `nla_nest_cancel(msg, start)`: the message afterwards. -/
  nla_nest_cancel : sk_buff → Option nlattr → sk_buff

/-- What a message builder returns: its return value, the message as it leaves it
(`none` when the pointer was null), and the calls it made, in program order. -/
structure Crafted where
  ret : Int
  msg : Option sk_buff
  ops : List PutOp
  deriving DecidableEq, Repr

/-- The statement `if (str) if (nla_put_string(msg, attrtype, str)) return -1;`
followed by the rest of the function, `next`. -/
def put_string_if_present (k : NetlinkPut) (msg : sk_buff) (ops : List PutOp) (attrtype : Nat)
    (str : Option String) (next : sk_buff → List PutOp → Crafted) : Crafted :=
  match str with
  | some s =>
    let r := k.nla_put_string msg attrtype s
    if r.1 ≠ 0 then
      { ret := -1, msg := some r.2, ops := ops ++ [PutOp.nla_put_string attrtype s] }
    else next r.2 (ops ++ [PutOp.nla_put_string attrtype s])
  | none => next msg ops

/-- The function `craft_app_name_info`. -/
def craft_app_name_info (k : NetlinkPut) (msg : Option sk_buff) (n : name) : Crafted :=
  match msg with
  | none =>
    { ret := -1, msg := none, ops := [PutOp.LOG_ERR "Bogus input parameter(s), bailing out"] }
  | some m =>
    put_string_if_present k m [] k.ids.APNI_ATTR_PROCESS_NAME n.process_name
      fun m ops =>
    put_string_if_present k m ops k.ids.APNI_ATTR_PROCESS_INSTANCE n.process_instance
      fun m ops =>
    put_string_if_present k m ops k.ids.APNI_ATTR_ENTITY_NAME n.entity_name
      fun m ops =>
    put_string_if_present k m ops k.ids.APNI_ATTR_ENTITY_INSTANCE n.entity_instance
      fun m ops =>
    { ret := 0, msg := some m, ops := ops }

/-- The statement `if (value > 0) if (nla_put_u32(msg, attrtype, value)) return -1;`
followed by the rest of the function, `next`.  The result is `none` when the
rest of the function reads through a null pointer. -/
def put_u32_if_positive (k : NetlinkPut) (msg : sk_buff) (ops : List PutOp) (attrtype : Nat)
    (value : Nat) (next : sk_buff → List PutOp → Option Crafted) : Option Crafted :=
  if 0 < value then
    let r := k.nla_put_u32 msg attrtype value
    if r.1 ≠ 0 then
      some { ret := -1, msg := some r.2, ops := ops ++ [PutOp.nla_put_u32 attrtype value] }
    else next r.2 (ops ++ [PutOp.nla_put_u32 attrtype value])
  else next msg ops

/-- The read `range->max` through a range pointer, followed by the rest of the
function; `none` when the pointer is null. -/
def read_max (range : Option uint_range) (next : Nat → Option Crafted) : Option Crafted :=
  match range with
  | none => none
  | some r => next r.max

/-- The function `craft_flow_spec`.  The result is `none` when a null range pointer
is dereferenced. -/
def craft_flow_spec (k : NetlinkPut) (msg : Option sk_buff) (fspec : flow_spec) :
    Option Crafted :=
  match msg with
  | none =>
    some { ret := -1, msg := none,
           ops := [PutOp.LOG_ERR "Bogus input parameter(s), bailing out"] }
  | some m =>
    read_max fspec.average_bandwidth fun v =>
    put_u32_if_positive k m [] k.ids.FSPEC_ATTR_AVG_BWITH v fun m ops =>
    read_max fspec.average_sdu_bandwidth fun v =>
    put_u32_if_positive k m ops k.ids.FSPEC_ATTR_AVG_SDU_BWITH v fun m ops =>
    put_u32_if_positive k m ops k.ids.FSPEC_ATTR_DELAY fspec.delay fun m ops =>
    put_u32_if_positive k m ops k.ids.FSPEC_ATTR_JITTER fspec.jitter fun m ops =>
    put_u32_if_positive k m ops k.ids.FSPEC_ATTR_MAX_GAP fspec.max_allowable_gap.toNat
      fun m ops =>
    put_u32_if_positive k m ops k.ids.FSPEC_ATTR_MAX_SDU_SIZE fspec.max_sdu_size fun m ops =>
    put_u32_if_positive k m ops k.ids.FSPEC_ATTR_IN_ORD_DELIVERY fspec.ordered_delivery
      fun m ops =>
    put_u32_if_positive k m ops k.ids.FSPEC_ATTR_PART_DELIVERY fspec.partial_delivery
      fun m ops =>
    read_max fspec.peak_bandwidth_duration fun v =>
    put_u32_if_positive k m ops k.ids.FSPEC_ATTR_PEAK_BWITH_DURATION v fun m ops =>
    read_max fspec.peak_sdu_bandwidth_duration fun v =>
    put_u32_if_positive k m ops k.ids.FSPEC_ATTR_PEAK_SDU_BWITH_DURATION v fun m ops =>
    put_u32_if_positive k m ops k.ids.FSPEC_ATTR_UNDETECTED_BER fspec.undetected_bit_error_rate
      fun m ops =>
    some { ret := 0, msg := some m, ops := ops }

end linux_rina

namespace linux_rina

/-- The text `BUILD_ERR_STRING(X)`. -/
def BUILD_ERR_STRING (X : String) : String :=
  "Netlink message does not contain " ++ X ++ ", bailing out"

/-- The conversion of a `port_id_t` to the `u32` argument of `nla_put_u32`. -/
def u32_of_port_id (id : Int) : Nat :=
  (id % 2 ^ 32).toNat

/-- The statement
`if (!(nest = nla_nest_start(msg, attrtype))) { nla_nest_cancel(msg, nest); LOG_ERR(BUILD_ERR_STRING(what)); return -1; }`
followed by the rest of the function, `next`. -/
def nest_start_or_bail (k : NetlinkPut) (msg : sk_buff) (ops : List PutOp) (attrtype : Nat)
    (what : String) (next : sk_buff → List PutOp → Option Crafted) : Option Crafted :=
  let r := k.nla_nest_start msg attrtype
  match r.1 with
  | none =>
    let m := k.nla_nest_cancel r.2 none
    some { ret := -1, msg := some m,
           ops := ops ++ [PutOp.nla_nest_start attrtype, PutOp.nla_nest_cancel none,
                          PutOp.LOG_ERR (BUILD_ERR_STRING what)] }
  | some _ => next r.2 (ops ++ [PutOp.nla_nest_start attrtype])

/-- The function `rnl_format_app_alloc_flow_req_arrived`.  `msg` is one pointer
throughout; after the null check each callee receives it again, with the
content the callee before it left.  The result is `none` when `craft_flow_spec`
dereferences a null range pointer. -/
def rnl_format_app_alloc_flow_req_arrived (k : NetlinkPut) (msg : Option sk_buff)
    (source dest : name) (fspec : flow_spec) (id : Int) (dif_name : name) : Option Crafted :=
  match msg with
  | none =>
    some { ret := -1, msg := none,
           ops := [PutOp.LOG_ERR "Bogus input parameter(s), bailing out"] }
  | some m =>
    nest_start_or_bail k m [] k.ids.AAFRA_ATTR_SOURCE_APP_NAME
      "source application name attribute" fun m ops =>
    nest_start_or_bail k m ops k.ids.AAFRA_ATTR_DEST_APP_NAME
      "destination app name attribute" fun m ops =>
    nest_start_or_bail k m ops k.ids.AAFRA_ATTR_DIF_NAME
      "DIF name attribute" fun m ops =>
    nest_start_or_bail k m ops k.ids.AAFRA_ATTR_FLOW_SPEC
      "flow spec attribute" fun m ops =>
    -- the condition `a || b || c || d || e` with Boolean short-circuiting
    let bail (c : Crafted) (ops : List PutOp) : Option Crafted :=
      some { ret := -1, msg := c.msg,
             ops := ops ++ [PutOp.LOG_ERR
               "Could not craft _app_alloc_flow_req_arrived_msg message correctly"] }
    let c1 := craft_app_name_info k (some m) source
    let ops := ops ++ c1.ops
    if c1.ret ≠ 0 then bail c1 ops
    else
      let c2 := craft_app_name_info k c1.msg dest
      let ops := ops ++ c2.ops
      if c2.ret ≠ 0 then bail c2 ops
      else
        match craft_flow_spec k c2.msg fspec with
        | none => none
        | some c3 =>
          let ops := ops ++ c3.ops
          if c3.ret ≠ 0 then bail c3 ops
          else
            let r := k.nla_put_u32 (c3.msg.getD m) k.ids.AAFRA_ATTR_PORT_ID (u32_of_port_id id)
            let c4 : Crafted := { ret := r.1, msg := some r.2, ops := [] }
            let ops := ops ++ [PutOp.nla_put_u32 k.ids.AAFRA_ATTR_PORT_ID (u32_of_port_id id)]
            if r.1 ≠ 0 then bail c4 ops
            else
              let c5 := craft_app_name_info k c4.msg dif_name
              let ops := ops ++ c5.ops
              if c5.ret ≠ 0 then bail c5 ops
              else some { ret := 0, msg := c5.msg, ops := ops }

/-- The effect of one request on a message: the result of the kernel call and the
message afterwards.  Requests that are not puts leave the message alone. -/
def put_one (k : NetlinkPut) (m : sk_buff) : PutOp → Int × sk_buff
  | PutOp.nla_put_string t s => k.nla_put_string m t s
  | PutOp.nla_put_u32 t v => k.nla_put_u32 m t v
  | _ => (0, m)

/-- Make a list of put requests in order and stop at the first one that fails: the
result is 0 when all succeeded and -1 otherwise, and the calls made are the
requests up to and including the first failing one. -/
def put_all (k : NetlinkPut) (m : sk_buff) : List PutOp → Crafted
  | [] => { ret := 0, msg := some m, ops := [] }
  | op :: rest =>
    if (put_one k m op).1 ≠ 0 then { ret := -1, msg := some (put_one k m op).2, ops := [op] }
    else
      { ret := (put_all k (put_one k m op).2 rest).ret,
        msg := (put_all k (put_one k m op).2 rest).msg,
        ops := op :: (put_all k (put_one k m op).2 rest).ops }

/-- The put requests for the components of a name that are not null, in the order
process name, process instance, entity name, entity instance. -/
def name_puts (ids : AttrIds) (n : name) : List PutOp :=
  [(ids.APNI_ATTR_PROCESS_NAME, n.process_name),
   (ids.APNI_ATTR_PROCESS_INSTANCE, n.process_instance),
   (ids.APNI_ATTR_ENTITY_NAME, n.entity_name),
   (ids.APNI_ATTR_ENTITY_INSTANCE, n.entity_instance)].filterMap
    (fun c => c.2.map (fun s => PutOp.nla_put_string c.1 s))

/-- The upper bound of a range, read through its pointer (0 for a null pointer). -/
def range_max (r : Option uint_range) : Nat :=
  match r with
  | some x => x.max
  | none => 0

/-- The eleven fields of a flow specification with their attribute numbers, in the
order in which `craft_flow_spec` looks at them; of a range its upper bound. -/
def flow_spec_fields (ids : AttrIds) (f : flow_spec) : List (Nat × Nat) :=
  [(ids.FSPEC_ATTR_AVG_BWITH, range_max f.average_bandwidth),
   (ids.FSPEC_ATTR_AVG_SDU_BWITH, range_max f.average_sdu_bandwidth),
   (ids.FSPEC_ATTR_DELAY, f.delay),
   (ids.FSPEC_ATTR_JITTER, f.jitter),
   (ids.FSPEC_ATTR_MAX_GAP, f.max_allowable_gap.toNat),
   (ids.FSPEC_ATTR_MAX_SDU_SIZE, f.max_sdu_size),
   (ids.FSPEC_ATTR_IN_ORD_DELIVERY, f.ordered_delivery),
   (ids.FSPEC_ATTR_PART_DELIVERY, f.partial_delivery),
   (ids.FSPEC_ATTR_PEAK_BWITH_DURATION, range_max f.peak_bandwidth_duration),
   (ids.FSPEC_ATTR_PEAK_SDU_BWITH_DURATION, range_max f.peak_sdu_bandwidth_duration),
   (ids.FSPEC_ATTR_UNDETECTED_BER, f.undetected_bit_error_rate)]

/-- The put requests for the fields of a flow specification whose value is
strictly positive, each as a `u32`, in field order. -/
def flow_spec_puts (ids : AttrIds) (f : flow_spec) : List PutOp :=
  ((flow_spec_fields ids f).filter (fun c => decide (0 < c.2))).map
    (fun c => PutOp.nla_put_u32 c.1 c.2)

/-- Whether the four range pointers of a flow specification are not null. -/
def ranges_present (f : flow_spec) : Bool :=
  f.average_bandwidth.isSome && f.average_sdu_bandwidth.isSome
    && f.peak_bandwidth_duration.isSome && f.peak_sdu_bandwidth_duration.isSome

/-- Make a list of put requests after the calls `ops`, stop with -1 at the first one
that fails, and go on with `next` when all succeeded; `inj` wraps the early
result. -/
def seq_put {β : Type} (inj : Crafted → β) (k : NetlinkPut) (m : sk_buff) (ops : List PutOp) :
    List PutOp → (sk_buff → List PutOp → β) → β
  | [], next => next m ops
  | op :: rest, next =>
    if (put_one k m op).1 ≠ 0 then
      inj { ret := -1, msg := some (put_one k m op).2, ops := ops ++ [op] }
    else seq_put inj k (put_one k m op).2 (ops ++ [op]) rest next

/-- A stand-in for the kernel primitives that extend a message: a put or a nest
start succeeds while there is room, appends one attribute and uses up one
unit of room; without room a put returns -90 and a nest start returns null. -/
def sample_put : NetlinkPut where
  ids := sample_ids
  nla_put_string := fun m t s =>
    if m.tailroom = 0 then (-90, m)
    else (0, { attrs := m.attrs ++ [⟨t, s.toList.map Char.toNat⟩], tailroom := m.tailroom - 1 })
  nla_put_u32 := fun m t v =>
    if m.tailroom = 0 then (-90, m)
    else (0, { attrs := m.attrs ++ [⟨t, [v]⟩], tailroom := m.tailroom - 1 })
  nla_nest_start := fun m t =>
    if m.tailroom = 0 then (none, m)
    else (some ⟨t, []⟩, { attrs := m.attrs ++ [⟨t, []⟩], tailroom := m.tailroom - 1 })
  nla_nest_cancel := fun m _ => m

/-- An empty message with room for 100 attributes. -/
def sample_skb : sk_buff :=
  { attrs := [], tailroom := 100 }

/-- An empty message with room for one attribute. -/
def sample_tight_skb : sk_buff :=
  { attrs := [], tailroom := 1 }

/-- A name with a process name and an entity name and no instances. -/
def sample_app_name : name :=
  { process_name := some "app", process_instance := none, entity_name := some "ae",
    entity_instance := none }

/-- A flow specification with ranges from 1 to 5, delay 3 and jitter 2, and every
other value zero. -/
def sample_flow_spec_pos : flow_spec :=
  { average_bandwidth := some ⟨1, 5⟩, average_sdu_bandwidth := some ⟨0, 0⟩,
    peak_bandwidth_duration := some ⟨0, 0⟩, peak_sdu_bandwidth_duration := some ⟨0, 0⟩,
    undetected_bit_error_rate := 0, ordered_delivery := 0, partial_delivery := 0,
    max_allowable_gap := 0, delay := 3, jitter := 2, max_sdu_size := 0 }

/-- A flow specification whose first range pointer is null. -/
def sample_flow_spec_null : flow_spec :=
  { sample_flow_spec with average_bandwidth := none }

end linux_rina

namespace linux_rina

/-- The message after a list of put requests made in order up to the first one that
fails. -/
def put_all_msg (k : NetlinkPut) (m : sk_buff) : List PutOp → sk_buff
  | [] => m
  | op :: rest =>
    if (put_one k m op).1 ≠ 0 then (put_one k m op).2
    else put_all_msg k (put_one k m op).2 rest

/-- Whether a request is a call of `nla_put_string`. -/
def is_put_string : PutOp → Bool
  | PutOp.nla_put_string _ _ => true
  | _ => false

/-- Whether a request is a call of `nla_put_u32`. -/
def is_put_u32 : PutOp → Bool
  | PutOp.nla_put_u32 _ _ => true
  | _ => false

/-- Whether a request is a call of `nla_nest_end`. -/
def is_nest_end : PutOp → Bool
  | PutOp.nla_nest_end _ => true
  | _ => false

/-- The name whose four components are null. -/
def null_name : name :=
  { process_name := none, process_instance := none, entity_name := none,
    entity_instance := none }

end linux_rina

namespace linux_rina

/-- A flow specification with the lower bounds of its four ranges replaced. -/
def with_mins (f : flow_spec) (a b c d : Nat) : flow_spec :=
  { f with
    average_bandwidth := f.average_bandwidth.map (fun r => { r with min := a }),
    average_sdu_bandwidth := f.average_sdu_bandwidth.map (fun r => { r with min := b }),
    peak_bandwidth_duration := f.peak_bandwidth_duration.map (fun r => { r with min := c }),
    peak_sdu_bandwidth_duration :=
      f.peak_sdu_bandwidth_duration.map (fun r => { r with min := d }) }

/-- Open a list of nests in order, each given by its attribute number and the
words used for it in the error text.  At the first nest that cannot be opened:
cancel with the null nest pointer, log, and give -1; 0 when all are open. -/
def open_nests (k : NetlinkPut) (m : sk_buff) : List (Nat × String) → Crafted
  | [] => { ret := 0, msg := some m, ops := [] }
  | c :: rest =>
    match (k.nla_nest_start m c.1).1 with
    | none =>
      { ret := -1, msg := some (k.nla_nest_cancel (k.nla_nest_start m c.1).2 none),
        ops := [PutOp.nla_nest_start c.1, PutOp.nla_nest_cancel none,
                PutOp.LOG_ERR (BUILD_ERR_STRING c.2)] }
    | some _ =>
      { ret := (open_nests k (k.nla_nest_start m c.1).2 rest).ret,
        msg := (open_nests k (k.nla_nest_start m c.1).2 rest).msg,
        ops := PutOp.nla_nest_start c.1 :: (open_nests k (k.nla_nest_start m c.1).2 rest).ops }

/-- The message after a list of nests was opened in order, up to the first one that
cannot be opened. -/
def open_nests_msg (k : NetlinkPut) (m : sk_buff) : List (Nat × String) → sk_buff
  | [] => m
  | c :: rest =>
    match (k.nla_nest_start m c.1).1 with
    | none => k.nla_nest_cancel (k.nla_nest_start m c.1).2 none
    | some _ => open_nests_msg k (k.nla_nest_start m c.1).2 rest

/-- The four nests of an `app_alloc_flow_req_arrived` message, in the order in which
they are opened. -/
def format_nests (ids : AttrIds) : List (Nat × String) :=
  [(ids.AAFRA_ATTR_SOURCE_APP_NAME, "source application name attribute"),
   (ids.AAFRA_ATTR_DEST_APP_NAME, "destination app name attribute"),
   (ids.AAFRA_ATTR_DIF_NAME, "DIF name attribute"),
   (ids.AAFRA_ATTR_FLOW_SPEC, "flow spec attribute")]

/-- The put requests of an `app_alloc_flow_req_arrived` message: source name,
destination name, flow specification, port-id, DIF name. -/
def format_puts (ids : AttrIds) (source dest : name) (fspec : flow_spec) (id : Int)
    (dif_name : name) : List PutOp :=
  name_puts ids source ++ (name_puts ids dest ++ (flow_spec_puts ids fspec
    ++ (PutOp.nla_put_u32 ids.AAFRA_ATTR_PORT_ID (u32_of_port_id id) :: name_puts ids dif_name)))

/-- The operation sequence of `rnl_format_app_alloc_flow_req_arrived` on a non-null
message, as the specification describes it: open the four nests; then make the
put requests in order; -1 at the first step that fails (with the error logged),
0 when all succeeded. -/
def format_spec (k : NetlinkPut) (m : sk_buff) (source dest : name) (fspec : flow_spec)
    (id : Int) (dif_name : name) : Crafted :=
  let n := open_nests k m (format_nests k.ids)
  if n.ret ≠ 0 then n
  else
    let c := put_all k (open_nests_msg k m (format_nests k.ids))
      (format_puts k.ids source dest fspec id dif_name)
    if c.ret ≠ 0 then
      { ret := -1, msg := c.msg,
        ops := n.ops ++ c.ops ++ [PutOp.LOG_ERR
          "Could not craft _app_alloc_flow_req_arrived_msg message correctly"] }
    else { ret := 0, msg := c.msg, ops := n.ops ++ c.ops }

/-- A message with room for five attributes and none so far. -/
def sample_five_skb : sk_buff :=
  { attrs := [], tailroom := 5 }

end linux_rina

namespace linux_rina

/-- Whether a request is a put, of a string or of a `u32`. -/
def is_put (op : PutOp) : Bool :=
  is_put_string op || is_put_u32 op

/-- The four `nla_nest_start` calls of an `app_alloc_flow_req_arrived` message. -/
def nest_starts (ids : AttrIds) : List PutOp :=
  (format_nests ids).map (fun c => PutOp.nla_nest_start c.1)

end linux_rina

namespace rinad

/-- A manager with IPC process 7 and a pending system-call transaction for it. -/
def sample_sys_mgr : IPCManager_ :=
  { ipcps := [sample_ipcp], pend_transactions := [], pend_sys_trans := [{ tid := 7 }],
    trace := [] }

/-- A manager with a pending system-call transaction for IPC process 7 and no IPC
process at all. -/
def sample_sys_orphan_mgr : IPCManager_ :=
  { ipcps := [], pend_transactions := [], pend_sys_trans := [{ tid := 7 }], trace := [] }

end rinad

/-! ## Properties of the IPC Manager handlers -/

namespace rinad

/-- A transaction returned by the lookup carries the id it was looked up by. -/
theorem get_transaction_state_tid {m : IPCManager_} {seq : Nat} {tx : TransState}
    (h : get_transaction_state m seq = some tx) : tx.tid = seq := by
  unfold get_transaction_state at h
  have hp := List.find?_some h
  simpa using hp

/-- Once removed, a transaction id is no longer found in the table. -/
theorem get_transaction_state_remove (m : IPCManager_) (tid : Nat) :
    get_transaction_state (remove_transaction_state m tid) tid = none := by
  unfold get_transaction_state remove_transaction_state
  simp [List.find?_eq_none]

/-- Removal leaves every other entry of the table where it was. -/
theorem get_transaction_state_remove_ne (m : IPCManager_) (tid other : Nat) (h : other ≠ tid) :
    get_transaction_state (remove_transaction_state m tid) other =
      get_transaction_state m other := by
  unfold get_transaction_state remove_transaction_state
  simp only
  induction m.pend_transactions with
  | nil => rfl
  | cons a l ih =>
    by_cases ha : a.tid = tid
    · have hne : ¬ tid = other := fun hh => h hh.symm
      simp [List.filter_cons, List.find?_cons, ha, hne, ih]
    · by_cases hb : a.tid = other
      · simp [List.filter_cons, List.find?_cons, hb, h]
      · simp [List.filter_cons, List.find?_cons, ha, hb, ih]

/-- C1: when the sequence number of the event has no pending transaction, each of the
assign-to-DIF, update-DIF-configuration and enroll-to-DIF response handlers returns
normally, the only thing it does is flush one warning (so no transaction is
completed), and the transaction tables and the IPC processes are as before. -/
theorem unknown_response_only_warns (x : Callees) (m : IPCManager_) (seq : Nat) (result : Int)
    (h : get_transaction_state m seq = none) :
    (assign_to_dif_response_event_handler x m { sequenceNumber := seq, result := result }
        = (FLUSH_LOG LogLevel.WARN m, Outcome.returned ())
      ∧ update_dif_config_response_event_handler m { sequenceNumber := seq, result := result }
        = (FLUSH_LOG LogLevel.WARN m, Outcome.returned ())
      ∧ enroll_to_dif_response_event_handler m { sequenceNumber := seq, result := result }
        = (FLUSH_LOG LogLevel.WARN m, Outcome.returned ()))
    ∧ (FLUSH_LOG LogLevel.WARN m).trace = m.trace ++ [Effect.FLUSH_LOG LogLevel.WARN]
    ∧ completes_any [Effect.FLUSH_LOG LogLevel.WARN] = false
    ∧ (FLUSH_LOG LogLevel.WARN m).pend_transactions = m.pend_transactions
    ∧ (FLUSH_LOG LogLevel.WARN m).pend_sys_trans = m.pend_sys_trans
    ∧ (FLUSH_LOG LogLevel.WARN m).ipcps = m.ipcps := by
  refine ⟨⟨?_, ?_, ?_⟩, rfl, rfl, rfl, rfl, rfl⟩
  · simp [assign_to_dif_response_event_handler, h]
  · simp [update_dif_config_response_event_handler, h]
  · simp [enroll_to_dif_response_event_handler, h]

/-- The statement of C1 at a manager with nothing pending and event number 3. -/
theorem unknown_response_only_warns_witness :
    get_transaction_state sample_idle_mgr 3 = none
    ∧ enroll_to_dif_response_event_handler sample_idle_mgr ⟨3, 0⟩
      = (FLUSH_LOG LogLevel.WARN sample_idle_mgr, Outcome.returned ()) :=
  ⟨rfl, (unknown_response_only_warns sample_callees sample_idle_mgr 3 0 rfl).1.2.2⟩

/-- When the system-call table has no entry for `id`, the retry loop makes every
lookup it has left and finds nothing. -/
theorem daemon_init_lookup_none (m : IPCManager_) (id : Nat)
    (h : get_syscall_transaction_state m id = none) (retries calls : Nat) :
    daemon_init_lookup m id retries calls = (none, calls + retries) := by
  induction retries generalizing calls with
  | zero => rfl
  | succ n ih =>
    simp only [daemon_init_lookup, h]
    rw [ih]
    congr 1
    omega

/-- When the system-call table has an entry for `id`, the retry loop stops at its
first lookup. -/
theorem daemon_init_lookup_some (m : IPCManager_) (id : Nat) (tx : SyscallTransState)
    (h : get_syscall_transaction_state m id = some tx) (n calls : Nat) :
    daemon_init_lookup m id (n + 1) calls = (some tx, calls + 1) := by
  simp [daemon_init_lookup, h]

/-- C2, as stated, fails: in a build with assertions, a registration response whose
sequence number (3) has no pending transaction makes `ipcm_register_response_ipcp`
stop at the failing `assert(0)`; it does not return -1. -/
theorem register_unknown_response_hits_assert :
    get_transaction_state sample_idle_mgr 3 = none
    ∧ ipcm_register_response_ipcp sample_callees false sample_idle_mgr ⟨3, 0⟩
        = (sample_idle_mgr, Outcome.assert_failed)
    ∧ (ipcm_register_response_ipcp sample_callees false sample_idle_mgr ⟨3, 0⟩).2
        ≠ Outcome.returned (-1) := by
  refine ⟨rfl, rfl, ?_⟩
  decide

/-- C2, amended: when no pending transaction matches the event, the register and
unregister response handlers and the daemon-initialized handler reach `assert(0)`
with the manager untouched (nothing logged, nothing completed).  With assertions
compiled in they stop there; with assertions compiled out they return, the
register and unregister handlers with -1. -/
theorem unknown_transaction_asserts_or_returns (x : Callees) (NDEBUG : Bool) (m : IPCManager_)
    (seq : Nat) (result : Int) (id : Nat)
    (h : get_transaction_state m seq = none)
    (hs : get_syscall_transaction_state m id = none) :
    ipcm_register_response_ipcp x NDEBUG m { sequenceNumber := seq, result := result }
        = (m, if NDEBUG then Outcome.returned (-1) else Outcome.assert_failed)
    ∧ ipcm_unregister_response_ipcp x NDEBUG m { sequenceNumber := seq, result := result }
        = (m, if NDEBUG then Outcome.returned (-1) else Outcome.assert_failed)
    ∧ ipc_process_daemon_initialized_event_handler x NDEBUG m { ipcProcessId := id }
        = (m, if NDEBUG then Outcome.returned () else Outcome.assert_failed) := by
  refine ⟨?_, ?_, ?_⟩
  · cases NDEBUG <;> simp [ipcm_register_response_ipcp, h]
  · cases NDEBUG <;> simp [ipcm_unregister_response_ipcp, h]
  · cases NDEBUG <;>
      simp [ipc_process_daemon_initialized_event_handler, daemon_init_lookup_none m id hs]

/-- The amended C2 at a manager with nothing pending, in a build without assertions. -/
theorem unknown_transaction_asserts_or_returns_witness :
    get_transaction_state sample_idle_mgr 3 = none
    ∧ get_syscall_transaction_state sample_idle_mgr 7 = none
    ∧ ipcm_unregister_response_ipcp sample_callees true sample_idle_mgr ⟨3, 0⟩
        = (sample_idle_mgr, Outcome.returned (-1)) :=
  ⟨rfl, rfl, (unknown_transaction_asserts_or_returns sample_callees true sample_idle_mgr
      3 0 7 rfl rfl).2.1⟩

/-- C3 fails on the code: with transaction 1 pending, a response numbered 1 makes the
register and unregister handlers return -1 without completing or removing the
transaction, both when the registering IPC process (7) is missing and when only
the supporting IPC process (8) is missing.  The manager is returned as it was:
the transaction stays in the table and the trace gains no completion. -/
theorem register_response_missing_ipcp_leaks (x : Callees) (NDEBUG : Bool) (result : Int) :
    (ipcm_register_response_ipcp x NDEBUG sample_orphan_mgr ⟨1, result⟩
        = (sample_orphan_mgr, Outcome.returned (-1))
      ∧ ipcm_unregister_response_ipcp x NDEBUG sample_orphan_mgr ⟨1, result⟩
        = (sample_orphan_mgr, Outcome.returned (-1))
      ∧ ipcm_register_response_ipcp x NDEBUG sample_mgr ⟨1, result⟩
        = (sample_mgr, Outcome.returned (-1))
      ∧ ipcm_unregister_response_ipcp x NDEBUG sample_mgr ⟨1, result⟩
        = (sample_mgr, Outcome.returned (-1)))
    ∧ get_transaction_state sample_orphan_mgr 1 = some ⟨1, 7, 8⟩
    ∧ get_transaction_state sample_mgr 1 = some ⟨1, 7, 8⟩
    ∧ completions sample_orphan_mgr.trace 1 = []
    ∧ completions sample_mgr.trace 1 = [] := by
  refine ⟨⟨?_, ?_, ?_, ?_⟩, rfl, rfl, rfl, rfl⟩ <;> rfl

/-- C4: for an event whose sequence number matches a pending transaction, the
enroll-to-DIF response handler returns after flushing one log record and
completing that transaction exactly once; the transaction is then no longer in
the table (and only it was removed); the completion value is `IPCM_SUCCESS` when
the IPC process of the transaction exists and the event result is 0, and
`IPCM_FAILURE` otherwise. -/
theorem enroll_response_completes_once (m : IPCManager_) (e : EnrollToDIFResponseEvent)
    (tx : TransState) (h : get_transaction_state m e.sequenceNumber = some tx) :
    tx.tid = e.sequenceNumber
    ∧ (enroll_to_dif_response_event_handler m e).2 = Outcome.returned ()
    ∧ (∃ level, (enroll_to_dif_response_event_handler m e).1.trace
        = m.trace ++ [Effect.FLUSH_LOG level,
            Effect.completed e.sequenceNumber
              (if (lookup_ipcp_by_id m tx.ipcp_id).isSome ∧ e.result = 0
               then ipcm_res_t.IPCM_SUCCESS else ipcm_res_t.IPCM_FAILURE)])
    ∧ get_transaction_state (enroll_to_dif_response_event_handler m e).1 e.sequenceNumber = none
    ∧ (enroll_to_dif_response_event_handler m e).1.pend_transactions
        = m.pend_transactions.filter (fun t => t.tid != e.sequenceNumber)
    ∧ (enroll_to_dif_response_event_handler m e).1.ipcps = m.ipcps := by
  have htid := get_transaction_state_tid h
  refine ⟨htid, ?_⟩
  unfold enroll_to_dif_response_event_handler
  simp only [h]
  cases hl : lookup_ipcp_by_id m tx.ipcp_id with
  | none =>
    refine ⟨trivial, ⟨LogLevel.WARN, ?_⟩, ?_, ?_, rfl⟩
    · simp [remove_transaction_state, completed, emit, FLUSH_LOG, htid]
    · simp only [htid]
      exact get_transaction_state_remove _ _
    · simp [remove_transaction_state, completed, emit, FLUSH_LOG, htid]
  | some p =>
    by_cases hr : e.result = 0
    · refine ⟨trivial, ⟨LogLevel.INFO, ?_⟩, ?_, ?_, ?_⟩
      · simp [remove_transaction_state, completed, emit, FLUSH_LOG, htid, hr]
      · simp only [htid]
        exact get_transaction_state_remove _ _
      · simp [remove_transaction_state, completed, emit, FLUSH_LOG, htid, hr]
      · simp [remove_transaction_state, completed, emit, FLUSH_LOG, hr]
    · refine ⟨trivial, ⟨LogLevel.ERR, ?_⟩, ?_, ?_, ?_⟩
      · simp [remove_transaction_state, completed, emit, FLUSH_LOG, htid, hr]
      · simp only [htid]
        exact get_transaction_state_remove _ _
      · simp [remove_transaction_state, completed, emit, FLUSH_LOG, htid, hr]
      · simp [remove_transaction_state, completed, emit, FLUSH_LOG, hr]

/-- C4 at a manager with IPC process 7 and transaction 1 pending for it, event result 0. -/
theorem enroll_response_completes_once_witness :
    get_transaction_state sample_mgr 1 = some ⟨1, 7, 8⟩
    ∧ (enroll_to_dif_response_event_handler sample_mgr ⟨1, 0⟩).2 = Outcome.returned () :=
  ⟨rfl, (enroll_response_completes_once sample_mgr ⟨1, 0⟩ ⟨1, 7, 8⟩ rfl).2.1⟩

/-- C5: for an event whose sequence number matches a pending transaction whose IPC
process exists, and when `assignToDIFResult` does not raise, the assign-to-DIF
response handler calls `assignToDIFResult` on that IPC process with
`e->result == 0`, flushes the information record, completes the transaction
exactly once, with `IPCM_SUCCESS` when the result is 0 and `IPCM_FAILURE`
otherwise, removes it from the table and returns. -/
theorem assign_response_completes_once (x : Callees) (m : IPCManager_)
    (e : AssignToDIFResponseEvent) (tx : TransState) (p : IPCMIPCProcess)
    (h : get_transaction_state m e.sequenceNumber = some tx)
    (hp : lookup_ipcp_by_id m tx.ipcp_id = some p)
    (hx : (x.assignToDIFResult p (e.result == 0)).threw = false) :
    tx.tid = e.sequenceNumber
    ∧ p.id = tx.ipcp_id
    ∧ (assign_to_dif_response_event_handler x m e).2 = Outcome.returned ()
    ∧ (assign_to_dif_response_event_handler x m e).1.trace
        = m.trace ++ [Effect.assignToDIFResult tx.ipcp_id (e.result == 0),
            Effect.FLUSH_LOG LogLevel.INFO,
            Effect.completed e.sequenceNumber
              (if e.result = 0 then ipcm_res_t.IPCM_SUCCESS else ipcm_res_t.IPCM_FAILURE)]
    ∧ get_transaction_state (assign_to_dif_response_event_handler x m e).1 e.sequenceNumber = none
    ∧ (assign_to_dif_response_event_handler x m e).1.pend_transactions
        = m.pend_transactions.filter (fun t => t.tid != e.sequenceNumber) := by
  have htid := get_transaction_state_tid h
  have hid : p.id = tx.ipcp_id := by
    unfold lookup_ipcp_by_id at hp
    simpa using List.find?_some hp
  refine ⟨htid, hid, ?_⟩
  unfold assign_to_dif_response_event_handler
  simp only [h, hp, hx]
  refine ⟨by simp, ?_, ?_, ?_⟩
  · by_cases hr : e.result = 0 <;>
      simp [remove_transaction_state, completed, emit, FLUSH_LOG, set_ipcp_state, htid, hid, hr]
  · simp only [htid]
    exact get_transaction_state_remove _ _
  · simp [remove_transaction_state, completed, emit, FLUSH_LOG, set_ipcp_state, htid]

/-- C5 at a manager with IPC process 7 and transaction 1 pending for it, event result 4. -/
theorem assign_response_completes_once_witness :
    get_transaction_state sample_mgr 1 = some ⟨1, 7, 8⟩
    ∧ lookup_ipcp_by_id sample_mgr 7 = some sample_ipcp
    ∧ (sample_callees.assignToDIFResult sample_ipcp ((4 : Int) == 0)).threw = false
    ∧ (assign_to_dif_response_event_handler sample_callees sample_mgr ⟨1, 4⟩).1.trace
        = [Effect.assignToDIFResult 7 false, Effect.FLUSH_LOG LogLevel.INFO,
            Effect.completed 1 ipcm_res_t.IPCM_FAILURE] :=
  ⟨rfl, rfl, rfl,
    (assign_response_completes_once sample_callees sample_mgr ⟨1, 4⟩ ⟨1, 7, 8⟩ sample_ipcp
      rfl rfl rfl).2.2.2.1⟩

/-- C6 fails on the code: with transaction 1 pending for IPC process 7 and no such IPC
process, the assign-to-DIF and update-DIF-configuration response handlers flush
the warning, raise, and the `catch` block then reads `ipcp->get_name()` through
the null pointer; the transaction is neither completed nor removed. -/
theorem missing_ipcp_error_path_derefs_null (x : Callees) (result : Int) :
    lookup_ipcp_by_id sample_orphan_mgr 7 = none
    ∧ assign_to_dif_response_event_handler x sample_orphan_mgr ⟨1, result⟩
        = (FLUSH_LOG LogLevel.WARN sample_orphan_mgr, Outcome.null_deref)
    ∧ update_dif_config_response_event_handler sample_orphan_mgr ⟨1, result⟩
        = (FLUSH_LOG LogLevel.WARN sample_orphan_mgr, Outcome.null_deref)
    ∧ get_transaction_state (FLUSH_LOG LogLevel.WARN sample_orphan_mgr) 1 = some ⟨1, 7, 8⟩
    ∧ completions (FLUSH_LOG LogLevel.WARN sample_orphan_mgr).trace 1 = [] := by
  refine ⟨rfl, ?_, ?_, rfl, rfl⟩ <;> rfl

/-- C7 fails on the code: with transaction 1 pending for the existing IPC process 7,
the update-DIF-configuration response handler completes the transaction with
`IPCM_SUCCESS` whatever result the event reports, for instance for result 5. -/
theorem update_response_ignores_result (result : Int) :
    (update_dif_config_response_event_handler sample_mgr ⟨1, result⟩).1.trace
        = [Effect.FLUSH_LOG LogLevel.INFO, Effect.completed 1 ipcm_res_t.IPCM_SUCCESS]
    ∧ (update_dif_config_response_event_handler sample_mgr ⟨1, 5⟩).1.trace
        = [Effect.FLUSH_LOG LogLevel.INFO, Effect.completed 1 ipcm_res_t.IPCM_SUCCESS]
    ∧ (assign_to_dif_response_event_handler sample_callees sample_mgr ⟨1, 5⟩).1.trace
        = [Effect.assignToDIFResult 7 false, Effect.FLUSH_LOG LogLevel.INFO,
            Effect.completed 1 ipcm_res_t.IPCM_FAILURE] := by
  refine ⟨rfl, rfl, ?_⟩
  decide

/-- C8, as stated, fails: with transaction 1 pending, an event numbered 1 given to
`ipc_process_create_connection_response_handler` leaves the transaction pending
and completes nothing. -/
theorem connection_response_completes_nothing :
    get_transaction_state sample_mgr 1 = some ⟨1, 7, 8⟩
    ∧ get_transaction_state
        (ipc_process_create_connection_response_handler sample_mgr ⟨1⟩).1 1 = some ⟨1, 7, 8⟩
    ∧ completions (ipc_process_create_connection_response_handler sample_mgr ⟨1⟩).1.trace 1 = []
    ∧ completes_any (ipc_process_create_connection_response_handler sample_mgr ⟨1⟩).1.trace
        = false := by
  refine ⟨rfl, rfl, rfl, rfl⟩

/-- C8, amended: the four connection handlers of the IPC Manager are empty: whatever
the event and whatever is pending, each returns at once and leaves the manager,
its transaction tables and its trace as they were, so none of them completes a
transaction. -/
theorem connection_handlers_are_stubs (m : IPCManager_) (event : IPCEvent) :
    ipc_process_create_connection_response_handler m event = (m, Outcome.returned ())
    ∧ ipc_process_update_connection_response_handler m event = (m, Outcome.returned ())
    ∧ ipc_process_create_connection_result_handler m event = (m, Outcome.returned ())
    ∧ ipc_process_destroy_connection_result_handler m event = (m, Outcome.returned ()) :=
  ⟨rfl, rfl, rfl, rfl⟩

end rinad

/-! ## Properties of the kernel flow allocator -/

namespace linux_rina

/-- C9: when the instance is null, or the port id fails `is_port_id_ok`, or the SDU
fails `is_sdu_ok`, `kfa_flow_sdu_write` returns -1, does nothing but log one
error (so the lock is neither taken nor released), and leaves the instance as
it was. -/
theorem kfa_flow_sdu_write_rejects (h : Helpers) (inst : Option kfa) (id : Int)
    (s : Option sdu)
    (bad : inst = none ∨ h.is_port_id_ok id = false ∨ h.is_sdu_ok s = false) :
    (kfa_flow_sdu_write h inst id s).ret = -1
    ∧ (kfa_flow_sdu_write h inst id s).inst = inst
    ∧ (∃ msg, (kfa_flow_sdu_write h inst id s).ops = [Op.LOG_ERR msg])
    ∧ Op.spin_lock ∉ (kfa_flow_sdu_write h inst id s).ops := by
  cases inst with
  | none => exact ⟨rfl, rfl, ⟨_, rfl⟩, by simp [kfa_flow_sdu_write]⟩
  | some i =>
    by_cases hp : h.is_port_id_ok id = true
    · have hs : h.is_sdu_ok s = false := by
        rcases bad with hb | hb | hb
        · cases hb
        · rw [hp] at hb; cases hb
        · exact hb
      simp [kfa_flow_sdu_write, hp, hs]
    · simp [kfa_flow_sdu_write, hp]

/-- C9 on a free instance, a valid port id and a null SDU. -/
theorem kfa_flow_sdu_write_rejects_witness :
    sample_helpers.is_sdu_ok none = false
    ∧ (kfa_flow_sdu_write sample_helpers (some ⟨false, 0⟩) 4 none).inst = some ⟨false, 0⟩ :=
  ⟨rfl, (kfa_flow_sdu_write_rejects sample_helpers (some ⟨false, 0⟩) 4 none
      (Or.inr (Or.inr rfl))).2.1⟩

/-- C10 fails on the code: the port-id check of `kfa_flow_bind` is applied to the flow
id.  Whenever `fid` passes both `is_flow_id_ok` and `is_port_id_ok`, a bogus
`pid` is not rejected: the call takes the lock, runs the critical section,
releases the lock and returns -1 from the final `return`, without logging
the bogus port-id error. -/
theorem kfa_flow_bind_checks_fid_not_pid (h : Helpers) (i : kfa) (fid pid : Int)
    (hf : h.is_flow_id_ok fid = true) (hfp : h.is_port_id_ok fid = true)
    (_hpid : h.is_port_id_ok pid = false) :
    (kfa_flow_bind h (some i) fid pid).ops = [Op.spin_lock, Op.LOG_MISSING, Op.spin_unlock]
    ∧ (kfa_flow_bind h (some i) fid pid).ret = -1
    ∧ Op.spin_lock ∈ (kfa_flow_bind h (some i) fid pid).ops
    ∧ Op.LOG_ERR "Bogus port-id, bailing out" ∉ (kfa_flow_bind h (some i) fid pid).ops := by
  simp [kfa_flow_bind, hf, hfp, locked_missing]

/-- The failing input of C10: flow id 1 and the bogus port id -1 on a free instance. -/
theorem kfa_flow_bind_checks_fid_not_pid_witness :
    sample_helpers.is_port_id_ok (-1) = false
    ∧ (kfa_flow_bind sample_helpers (some ⟨false, 0⟩) 1 (-1)).ops
        = [Op.spin_lock, Op.LOG_MISSING, Op.spin_unlock] :=
  ⟨by decide, (kfa_flow_bind_checks_fid_not_pid sample_helpers ⟨false, 0⟩ 1 (-1)
      (by decide) (by decide) (by decide)).1⟩

end linux_rina

namespace linux_rina

/-- C11: called with a null instance, `kfa_destroy`, `kfa_flow_create`,
`kfa_flow_bind`, `kfa_flow_unbind`, `kfa_flow_destroy` and `kfa_flow_sdu_write`
return -1 and `kfa_flow_sdu_read` returns `NULL`; each only logs the
bogus-instance error, so no lock is taken and there is no instance afterwards
either; and `kfa_destroy` returns 0 for every non-null instance. -/
theorem kfa_null_instance_rejected (h : Helpers) (fid pid id : Int) (s : Option sdu) (i : kfa) :
    kfa_destroy none
        = { inst := none, ret := -1, ops := [Op.LOG_ERR "Bogus instance passed, bailing out"] }
    ∧ kfa_flow_create h none
        = { inst := none, ret := -1, ops := [Op.LOG_ERR "Bogus instance passed, bailing out"] }
    ∧ kfa_flow_bind h none fid pid
        = { inst := none, ret := -1, ops := [Op.LOG_ERR "Bogus instance passed, bailing out"] }
    ∧ kfa_flow_unbind h none id
        = { inst := none, ret := -1, ops := [Op.LOG_ERR "Bogus instance passed, bailing out"] }
    ∧ kfa_flow_destroy h none id
        = { inst := none, ret := -1, ops := [Op.LOG_ERR "Bogus instance passed, bailing out"] }
    ∧ kfa_flow_sdu_write h none id s
        = { inst := none, ret := -1, ops := [Op.LOG_ERR "Bogus instance passed, bailing out"] }
    ∧ kfa_flow_sdu_read h none id
        = { inst := none, ret := none,
            ops := [Op.LOG_ERR "Bogus instance passed, bailing out"] }
    ∧ Op.spin_lock ∉ [Op.LOG_ERR "Bogus instance passed, bailing out"]
    ∧ (kfa_destroy (some i)).ret = 0 := by
  refine ⟨rfl, rfl, rfl, rfl, rfl, rfl, rfl, ?_, rfl⟩
  simp

/-- C12: whatever the attribute, the structure and the result of `nla_parse_nested`,
`parse_flow_spec` returns -1 and hands the flow specification back as it
received it. -/
theorem parse_flow_spec_always_fails (k : Netlink) (fspec_attr : Option nlattr)
    (fspec_struct : flow_spec) :
    parse_flow_spec k fspec_attr fspec_struct = (-1, fspec_struct) := by
  rfl

/-- C19: for every input `rnl_parse_ipcm_alloc_flow_req` returns -1 after logging the
parse error of its message type, and the fields `id` and `dif_name` of the
message structure are as they were before the call. -/
theorem rnl_parse_ipcm_alloc_flow_req_always_fails (k : Netlink) (info : genl_info)
    (msg_attrs : rnl_ipcm_alloc_flow_req_msg) :
    (rnl_parse_ipcm_alloc_flow_req k info msg_attrs).ret = -1
    ∧ (rnl_parse_ipcm_alloc_flow_req k info msg_attrs).ret ≠ 0
    ∧ (rnl_parse_ipcm_alloc_flow_req k info msg_attrs).log
        = [BUILD_ERR_STRING_BY_MSG_TYPE "RINA_C_IPCM_ALLOCATE_FLOW_REQUEST"]
    ∧ (rnl_parse_ipcm_alloc_flow_req k info msg_attrs).msg.id = msg_attrs.id
    ∧ (rnl_parse_ipcm_alloc_flow_req k info msg_attrs).msg.dif_name = msg_attrs.dif_name := by
  unfold rnl_parse_ipcm_alloc_flow_req
  simp only
  split
  · simp
  · split
    · simp
    · split <;> simp

end linux_rina

namespace linux_rina

/-- A request that is well formed in every part is rejected like any other: the
source and destination names are parsed and stored, and the call still
returns -1 with `id` and `dif_name` untouched. -/
theorem rnl_parse_ipcm_alloc_flow_req_rejects_well_formed :
    (rnl_parse_ipcm_alloc_flow_req sample_netlink sample_alloc_info sample_alloc_msg).ret = -1
    ∧ (rnl_parse_ipcm_alloc_flow_req sample_netlink sample_alloc_info sample_alloc_msg).msg.source
        ≠ sample_alloc_msg.source
    ∧ (rnl_parse_ipcm_alloc_flow_req sample_netlink sample_alloc_info sample_alloc_msg).msg.id
        = 0 := by
  refine ⟨rfl, ?_, rfl⟩
  decide

/-- The parser of an application name either fails with -1 before it writes
anything, or returns 0. -/
theorem parse_app_name_info_cases (k : Netlink) (name_attr : Option nlattr) (name_struct : name) :
    ((parse_app_name_info k name_attr name_struct).1 = -1
        ∧ (parse_app_name_info k name_attr name_struct).2 = name_struct)
    ∨ (parse_app_name_info k name_attr name_struct).1 = 0 := by
  unfold parse_app_name_info
  simp only
  split
  · exact Or.inl ⟨rfl, rfl⟩
  · exact Or.inr rfl

/-- C20, as stated, fails: for a deallocate-flow request that carries port id 9 and a
DIF-name nest the kernel rejects, `rnl_parse_app_dealloc_flow_req` returns -1
after it has stored 9 in `msg_attrs->id`, which was 0 before the call. -/
theorem dealloc_flow_req_failure_overwrites_id :
    (rnl_parse_app_dealloc_flow_req sample_netlink sample_dealloc_info sample_dealloc_msg).ret
        = -1
    ∧ (rnl_parse_app_dealloc_flow_req sample_netlink sample_dealloc_info sample_dealloc_msg).msg.id
        = 9
    ∧ sample_dealloc_msg.id = 0
    ∧ (rnl_parse_app_dealloc_flow_req sample_netlink sample_dealloc_info sample_dealloc_msg).msg
        ≠ sample_dealloc_msg := by
  refine ⟨rfl, rfl, rfl, ?_⟩
  decide

/-- C20, amended: whenever `rnl_parse_app_dealloc_flow_req` returns -1, `app_name` is
as it was before the call; the whole structure is as it was when the failure
is that of `rnl_parse_msg`; otherwise `id` holds the value of the port-id
attribute when that attribute is present (and its old value when it is not),
and `dif_name` is as it was when the failure is that of its own parse. -/
theorem dealloc_flow_req_failure_keeps_app_name (k : Netlink) (info : genl_info)
    (msg_attrs : rnl_dealloc_flow_req_msg)
    (h : (rnl_parse_app_dealloc_flow_req k info msg_attrs).ret = -1) :
    (rnl_parse_app_dealloc_flow_req k info msg_attrs).msg.app_name = msg_attrs.app_name
    ∧ ((rnl_parse_msg k info k.ids.ADFRT_ATTR_MAX
          [(k.ids.ADFRT_ATTR_PORT_ID, nla_kind.NLA_U32),
           (k.ids.ADFRT_ATTR_DIF_NAME, nla_kind.NLA_NESTED),
           (k.ids.ADFRT_ATTR_APP_NAME, nla_kind.NLA_NESTED)]).1 < 0 →
        (rnl_parse_app_dealloc_flow_req k info msg_attrs).msg = msg_attrs)
    ∧ (¬ (rnl_parse_msg k info k.ids.ADFRT_ATTR_MAX
          [(k.ids.ADFRT_ATTR_PORT_ID, nla_kind.NLA_U32),
           (k.ids.ADFRT_ATTR_DIF_NAME, nla_kind.NLA_NESTED),
           (k.ids.ADFRT_ATTR_APP_NAME, nla_kind.NLA_NESTED)]).1 < 0 →
        (rnl_parse_app_dealloc_flow_req k info msg_attrs).msg.id
          = (match (rnl_parse_app_dealloc_flow_req k info msg_attrs).info.attrs
                k.ids.ADFRT_ATTR_PORT_ID with
             | some a => port_id_of_u32 (k.nla_get_u32 a)
             | none => msg_attrs.id)
        ∧ ((parse_app_name_info k
              ((rnl_parse_app_dealloc_flow_req k info msg_attrs).info.attrs
                k.ids.ADFRT_ATTR_DIF_NAME) msg_attrs.dif_name).1 < 0 →
            (rnl_parse_app_dealloc_flow_req k info msg_attrs).msg.dif_name
              = msg_attrs.dif_name)) := by
  unfold rnl_parse_app_dealloc_flow_req at h ⊢
  simp only at h ⊢
  generalize rnl_parse_msg k info k.ids.ADFRT_ATTR_MAX
    [(k.ids.ADFRT_ATTR_PORT_ID, nla_kind.NLA_U32),
     (k.ids.ADFRT_ATTR_DIF_NAME, nla_kind.NLA_NESTED),
     (k.ids.ADFRT_ATTR_APP_NAME, nla_kind.NLA_NESTED)] = r at h ⊢
  by_cases h1 : r.1 < 0
  · simp [h1]
  · simp only [h1, if_false] at h ⊢
    cases hport : r.2.attrs k.ids.ADFRT_ATTR_PORT_ID with
    | none =>
      simp only [hport] at h ⊢
      rcases parse_app_name_info_cases k (r.2.attrs k.ids.ADFRT_ATTR_DIF_NAME)
          msg_attrs.dif_name with hd | hd
      · have hlt : (parse_app_name_info k (r.2.attrs k.ids.ADFRT_ATTR_DIF_NAME)
            msg_attrs.dif_name).1 < 0 := by rw [hd.1]; decide
        simp [hlt, hd.2, hport]
      · have hlt : ¬ (parse_app_name_info k (r.2.attrs k.ids.ADFRT_ATTR_DIF_NAME)
            msg_attrs.dif_name).1 < 0 := by rw [hd]; decide
        simp only [hlt, if_false] at h ⊢
        rcases parse_app_name_info_cases k (r.2.attrs k.ids.ADFRT_ATTR_APP_NAME)
            msg_attrs.app_name with ha | ha
        · have halt : (parse_app_name_info k (r.2.attrs k.ids.ADFRT_ATTR_APP_NAME)
              msg_attrs.app_name).1 < 0 := by rw [ha.1]; decide
          simp [halt, ha.2, hlt, hport]
        · have halt : ¬ (parse_app_name_info k (r.2.attrs k.ids.ADFRT_ATTR_APP_NAME)
              msg_attrs.app_name).1 < 0 := by rw [ha]; decide
          simp [halt] at h
    | some a =>
      simp only [hport] at h ⊢
      rcases parse_app_name_info_cases k (r.2.attrs k.ids.ADFRT_ATTR_DIF_NAME)
          msg_attrs.dif_name with hd | hd
      · have hlt : (parse_app_name_info k (r.2.attrs k.ids.ADFRT_ATTR_DIF_NAME)
            msg_attrs.dif_name).1 < 0 := by rw [hd.1]; decide
        simp [hlt, hd.2, hport]
      · have hlt : ¬ (parse_app_name_info k (r.2.attrs k.ids.ADFRT_ATTR_DIF_NAME)
            msg_attrs.dif_name).1 < 0 := by rw [hd]; decide
        simp only [hlt, if_false] at h ⊢
        rcases parse_app_name_info_cases k (r.2.attrs k.ids.ADFRT_ATTR_APP_NAME)
            msg_attrs.app_name with ha | ha
        · have halt : (parse_app_name_info k (r.2.attrs k.ids.ADFRT_ATTR_APP_NAME)
              msg_attrs.app_name).1 < 0 := by rw [ha.1]; decide
          simp [halt, ha.2, hlt, hport]
        · have halt : ¬ (parse_app_name_info k (r.2.attrs k.ids.ADFRT_ATTR_APP_NAME)
              msg_attrs.app_name).1 < 0 := by rw [ha]; decide
          simp [halt] at h

end linux_rina

namespace linux_rina

/-- The amended C20 on the deallocate-flow request whose DIF-name nest is rejected. -/
theorem dealloc_flow_req_failure_keeps_app_name_witness :
    (rnl_parse_app_dealloc_flow_req sample_netlink sample_dealloc_info sample_dealloc_msg).ret
        = -1
    ∧ (rnl_parse_app_dealloc_flow_req sample_netlink sample_dealloc_info
        sample_dealloc_msg).msg.app_name = sample_dealloc_msg.app_name :=
  ⟨rfl, (dealloc_flow_req_failure_keeps_app_name sample_netlink sample_dealloc_info
      sample_dealloc_msg rfl).1⟩

end linux_rina

/-! ## Properties of the data transfer core -/

namespace linux_rina

theorem RisingIn.nil (lo hi : Nat) : RisingIn lo hi [] := by
  simp [RisingIn, seqs]

theorem RisingIn.append {a b c : Nat} {xs ys : List pdu} (hx : RisingIn a b xs)
    (hy : RisingIn b c ys) (hab : a ≤ b) (hbc : b ≤ c) : RisingIn a c (xs ++ ys) := by
  constructor
  · simp only [seqs, List.map_append, List.pairwise_append]
    refine ⟨hx.1, hy.1, ?_⟩
    intro u hu v hv
    simp only [List.mem_map] at hu hv
    obtain ⟨x, hxm, rfl⟩ := hu
    obtain ⟨y, hym, rfl⟩ := hv
    have h1 := (hx.2 x hxm).2
    have h2 := (hy.2 y hym).1
    omega
  · intro x hxm
    rcases List.mem_append.mp hxm with h | h
    · have := hx.2 x h
      omega
    · have := hy.2 x h
      omega

/-- What `gap_drain` takes out are consecutive sequence numbers from `lwe` on. -/
theorem gap_drain_rising (qs : List pdu) (lwe : Nat) :
    RisingIn lwe (gap_drain lwe qs).2.2 (gap_drain lwe qs).1 ∧ lwe ≤ (gap_drain lwe qs).2.2 := by
  induction qs generalizing lwe with
  | nil => exact ⟨RisingIn.nil _ _, Nat.le_refl _⟩
  | cons q qs ih =>
    unfold gap_drain
    by_cases hq : q.seq = lwe
    · simp only [hq, if_true]
      obtain ⟨hr, hle⟩ := ih (lwe + 1)
      refine ⟨⟨?_, ?_⟩, by omega⟩
      · simp only [seqs, List.map_cons, List.pairwise_cons]
        refine ⟨?_, hr.1⟩
        intro v hv
        simp only [List.mem_map] at hv
        obtain ⟨y, hym, rfl⟩ := hv
        have := (hr.2 y hym).1
        omega
      · intro x hxm
        rcases List.mem_cons.mp hxm with h | h
        · subst h
          omega
        · have := hr.2 x h
          omega
    · simp only [hq, if_false]
      exact ⟨RisingIn.nil _ _, Nat.le_refl _⟩

/-- An in-order delivery appends a rising stretch that starts at the PDU delivered. -/
theorem rcv_deliver_rising (pol : Policies) (r : rcv_state) (p : pdu) :
    ∃ fresh, (rcv_deliver pol r p).delivered = r.delivered ++ fresh
      ∧ RisingIn p.seq (rcv_deliver pol r p).left_window_edge fresh
      ∧ p.seq ≤ (rcv_deliver pol r p).left_window_edge := by
  obtain ⟨hr, hle⟩ := gap_drain_rising r.gap_set (p.seq + 1)
  refine ⟨p :: (gap_drain (p.seq + 1) r.gap_set).1, rfl, ⟨?_, ?_⟩, ?_⟩
  · simp only [seqs, List.map_cons, List.pairwise_cons]
    refine ⟨?_, hr.1⟩
    intro v hv
    simp only [List.mem_map] at hv
    obtain ⟨y, hym, rfl⟩ := hv
    have := (hr.2 y hym).1
    omega
  · intro x hxm
    simp only [rcv_deliver]
    rcases List.mem_cons.mp hxm with h | h
    · subst h
      omega
    · have := hr.2 x h
      omega
  · simp only [rcv_deliver]
    omega

/-- One PDU through the receive path appends a rising stretch of deliveries that
lies between the left window edge before and after, and the edge never moves
back. -/
theorem rcv_pdu_rising (pol : Policies) (wb : Bool) (r : rcv_state) (p : pdu) :
    ∃ fresh, (rcv_pdu pol wb r p).delivered = r.delivered ++ fresh
      ∧ RisingIn r.left_window_edge (rcv_pdu pol wb r p).left_window_edge fresh
      ∧ r.left_window_edge ≤ (rcv_pdu pol wb r p).left_window_edge := by
  have hstay : ∀ r' : rcv_state, r'.delivered = r.delivered →
      r'.left_window_edge = r.left_window_edge →
      ∃ fresh, r'.delivered = r.delivered ++ fresh
        ∧ RisingIn r.left_window_edge r'.left_window_edge fresh
        ∧ r.left_window_edge ≤ r'.left_window_edge := by
    intro r' hd hl
    exact ⟨[], by simp [hd], RisingIn.nil _ _, by omega⟩
  unfold rcv_pdu
  split
  · exact hstay _ rfl rfl
  · rename_i hlow
    split
    · exact hstay _ rfl rfl
    · split
      · split
        · exact hstay _ rfl rfl
        · obtain ⟨fresh, hd, hr, hle⟩ := rcv_deliver_rising pol
            { r with left_window_edge := p.seq, gap_set := [], drf_seen := true } p
          refine ⟨fresh, hd, ⟨hr.1, ?_⟩, by omega⟩
          intro x hxm
          have := hr.2 x hxm
          omega
      · split
        · exact hstay _ rfl rfl
        · split
          · rename_i heq
            obtain ⟨fresh, hd, hr, hle⟩ := rcv_deliver_rising pol r p
            refine ⟨fresh, hd, ⟨hr.1, ?_⟩, by omega⟩
            intro x hxm
            have := hr.2 x hxm
            omega
          · exact hstay _ rfl rfl

end linux_rina

namespace linux_rina

/-- On a non-null instance a run of PDUs leaves a non-null instance whose
deliveries are the old ones followed by a rising stretch. -/
theorem dtp_receive_all_rising (pol : Policies) (ps : List pdu) (d : dtp) :
    ∃ d' fresh, dtp_receive_all pol (some d) ps = some d'
      ∧ d'.rcv.delivered = d.rcv.delivered ++ fresh
      ∧ RisingIn d.rcv.left_window_edge d'.rcv.left_window_edge fresh
      ∧ d.rcv.left_window_edge ≤ d'.rcv.left_window_edge := by
  induction ps generalizing d with
  | nil => exact ⟨d, [], rfl, by simp, RisingIn.nil _ _, Nat.le_refl _⟩
  | cons p ps ih =>
    obtain ⟨f1, hd1, hr1, hle1⟩ := rcv_pdu_rising pol d.window_based d.rcv p
    obtain ⟨d', f2, hrun, hd2, hr2, hle2⟩ :=
      ih { d with rcv := rcv_pdu pol d.window_based d.rcv p }
    refine ⟨d', f1 ++ f2, ?_, ?_, ?_, ?_⟩
    · simpa [dtp_receive_all, dtp_receive] using hrun
    · rw [hd2]
      simp only [hd1, List.append_assoc]
    · exact RisingIn.append hr1 hr2 hle1 hle2
    · exact Nat.le_trans hle1 hle2

/-- C14: whatever Transfer PDUs arrive and in whatever order, what `dtp_receive`
hands to the application during the run is strictly increasing in sequence
number and starts at or above the left window edge the run began with; on a
new instance the whole delivered sequence is strictly increasing; and with
the left window edge at 1 and the three of them inside the window, PDUs 3, 1,
2 arriving in that order are delivered as 1, 2, 3. -/
theorem dtp_receive_in_order (pol : Policies) (d : dtp) (ps : List pdu) (c : connection) :
    (∃ d' fresh, dtp_receive_all pol (some d) ps = some d'
      ∧ d'.rcv.delivered = d.rcv.delivered ++ fresh
      ∧ List.Pairwise (fun a b => a < b) (seqs fresh)
      ∧ ∀ x ∈ fresh, d.rcv.left_window_edge ≤ x.seq)
    ∧ (∃ d', dtp_receive_all pol (some (dtp_create c)) ps = some d'
      ∧ List.Pairwise (fun a b => a < b) (seqs d'.rcv.delivered))
    ∧ (dtp_receive_all sample_policies (some sample_receiver)
          [⟨3, false, []⟩, ⟨1, false, []⟩, ⟨2, false, []⟩]).map (fun d' => seqs d'.rcv.delivered)
        = some [1, 2, 3] := by
  refine ⟨?_, ?_, ?_⟩
  · obtain ⟨d', fresh, hrun, hd, hr, _⟩ := dtp_receive_all_rising pol ps d
    exact ⟨d', fresh, hrun, hd, hr.1, fun x hx => (hr.2 x hx).1⟩
  · obtain ⟨d', fresh, hrun, hd, hr, _⟩ := dtp_receive_all_rising pol ps (dtp_create c)
    refine ⟨d', hrun, ?_⟩
    have : d'.rcv.delivered = fresh := by simpa [dtp_create] using hd
    rw [this]
    exact hr.1
  · simp [dtp_receive_all, dtp_receive, rcv_pdu, sample_receiver, rcv_deliver, gap_drain,
      gap_insert, seqs, sample_policies]

/-- C15: in every receiver state, a PDU whose sequence number is below the left
window edge is dropped by `dtp_receive`: the call returns 0, the drop is
counted, and the delivered sequence, the gap set and both window edges are as
before. -/
theorem dtp_receive_drops_stale (pol : Policies) (d : dtp) (p : pdu)
    (h : p.seq < d.rcv.left_window_edge) :
    dtp_receive pol (some d) (some p)
        = (some { d with rcv := { d.rcv with dropped := d.rcv.dropped + 1 } }, 0)
    ∧ ∀ d', (dtp_receive pol (some d) (some p)).1 = some d' →
        d'.rcv.delivered = d.rcv.delivered
        ∧ d'.rcv.gap_set = d.rcv.gap_set
        ∧ d'.rcv.left_window_edge = d.rcv.left_window_edge
        ∧ d'.rcv.right_window_edge = d.rcv.right_window_edge
        ∧ d'.rcv.dropped = d.rcv.dropped + 1 := by
  have hstep : dtp_receive pol (some d) (some p)
      = (some { d with rcv := { d.rcv with dropped := d.rcv.dropped + 1 } }, 0) := by
    simp [dtp_receive, rcv_pdu, h, rcv_drop]
  refine ⟨hstep, ?_⟩
  intro d' hd'
  rw [hstep] at hd'
  cases hd'
  exact ⟨rfl, rfl, rfl, rfl, rfl⟩

/-- C15 on a receiver that has delivered PDUs 1, 2, 3 and has its left window edge
at 4: a late copy of PDU 2 is dropped and the delivered sequence stays as it is. -/
theorem dtp_receive_drops_stale_witness :
    (2 : Nat) < sample_receiver_at_4.rcv.left_window_edge
    ∧ dtp_receive sample_policies (some sample_receiver_at_4) (some ⟨2, false, []⟩)
        = (some { sample_receiver_at_4 with
                  rcv := { sample_receiver_at_4.rcv with dropped := 1 } }, 0) :=
  ⟨by decide, (dtp_receive_drops_stale sample_policies sample_receiver_at_4 ⟨2, false, []⟩
      (by decide)).1⟩

end linux_rina

namespace linux_rina

/-- A write on a window-only instance whose window is open hands the PDU to RMT. -/
theorem dtp_write_open (pol : Policies) (d : dtp) (u : sdu) (hw : WindowOnly d)
    (hopen : d.snd.next_to_send < d.snd.right_window_edge) :
    ∃ d', (dtp_write pol (some d) (some u)).1 = some d'
      ∧ WindowOnly d' ∧ d'.conn = d.conn
      ∧ d'.snd.right_window_edge = d.snd.right_window_edge
      ∧ d'.snd.next_to_send = d.snd.next_to_send + 1
      ∧ seqs d'.snd.rmt = seqs d.snd.rmt ++ [d.snd.next_to_send]
      ∧ d'.snd.closed_window_queue = d.snd.closed_window_queue := by
  obtain ⟨h1, h2, h3⟩ := hw
  have hnc : ¬ d.snd.right_window_edge ≤ d.snd.next_to_send := by omega
  have hstep : (dtp_write pol (some d) (some u)).1
      = some { d with snd := { d.snd with
                next_to_send := d.snd.next_to_send + 1, drf_pending := false,
                rmt := d.snd.rmt ++ [⟨d.snd.next_to_send, d.snd.drf_pending, u.buffer⟩],
                max_seq_nr_sent := some d.snd.next_to_send } } := by
    simp [dtp_write, h1, flow_closed, h2, h3, window_closed, hnc]
  rw [hstep]
  exact ⟨_, rfl, ⟨h1, h2, h3⟩, rfl, rfl, rfl, by simp [seqs], rfl⟩

/-- A write on a window-only instance whose window is closed and whose queue has
room puts the PDU on the closed-window queue. -/
theorem dtp_write_closed (pol : Policies) (d : dtp) (u : sdu) (hw : WindowOnly d)
    (hclosed : d.snd.right_window_edge ≤ d.snd.next_to_send)
    (hroom : d.snd.closed_window_queue.length < d.conn.maxclosedwindowqueuelength) :
    ∃ d', (dtp_write pol (some d) (some u)).1 = some d'
      ∧ WindowOnly d' ∧ d'.conn = d.conn
      ∧ d'.snd.right_window_edge = d.snd.right_window_edge
      ∧ d'.snd.next_to_send = d.snd.next_to_send + 1
      ∧ d'.snd.rmt = d.snd.rmt
      ∧ seqs d'.snd.closed_window_queue
          = seqs d.snd.closed_window_queue ++ [d.snd.next_to_send] := by
  obtain ⟨h1, h2, h3⟩ := hw
  have hstep : (dtp_write pol (some d) (some u)).1
      = some { d with snd := { d.snd with
                next_to_send := d.snd.next_to_send + 1, drf_pending := false,
                closed_window_queue := d.snd.closed_window_queue
                  ++ [⟨d.snd.next_to_send, d.snd.drf_pending, u.buffer⟩] } } := by
    simp [dtp_write, h1, flow_closed, h2, h3, window_closed, hclosed, hroom]
  rw [hstep]
  exact ⟨_, rfl, ⟨h1, h2, h3⟩, rfl, rfl, rfl, rfl, by simp [seqs]⟩

/-- Writes while the window stays open all go to RMT, in order. -/
theorem dtp_write_all_open (pol : Policies) (us : List sdu) (d : dtp) (hw : WindowOnly d)
    (hopen : d.snd.next_to_send + us.length ≤ d.snd.right_window_edge) :
    ∃ d', dtp_write_all pol (some d) us = some d'
      ∧ WindowOnly d' ∧ d'.conn = d.conn
      ∧ d'.snd.right_window_edge = d.snd.right_window_edge
      ∧ d'.snd.next_to_send = d.snd.next_to_send + us.length
      ∧ seqs d'.snd.rmt = seqs d.snd.rmt ++ List.range' d.snd.next_to_send us.length
      ∧ d'.snd.closed_window_queue = d.snd.closed_window_queue := by
  induction us generalizing d with
  | nil => exact ⟨d, rfl, hw, rfl, rfl, rfl, by simp, rfl⟩
  | cons u us ih =>
    simp only [List.length_cons] at hopen
    obtain ⟨d1, hs, hw1, hc1, hr1, hn1, hm1, hq1⟩ := dtp_write_open pol d u hw (by omega)
    obtain ⟨d2, hs2, hw2, hc2, hr2, hn2, hm2, hq2⟩ := ih d1 hw1 (by omega)
    refine ⟨d2, ?_, hw2, by rw [hc2, hc1], by rw [hr2, hr1], ?_, ?_, by rw [hq2, hq1]⟩
    · simp only [dtp_write_all, List.foldl_cons, hs]
      exact hs2
    · rw [hn2, hn1, List.length_cons]
      omega
    · rw [hm2, hm1, hn1, List.length_cons, List.range'_succ]
      simp

/-- Writes while the window stays closed and the queue has room all go to the
closed-window queue, in order. -/
theorem dtp_write_all_closed (pol : Policies) (us : List sdu) (d : dtp) (hw : WindowOnly d)
    (hclosed : d.snd.right_window_edge ≤ d.snd.next_to_send)
    (hroom : d.snd.closed_window_queue.length + us.length ≤ d.conn.maxclosedwindowqueuelength) :
    ∃ d', dtp_write_all pol (some d) us = some d'
      ∧ WindowOnly d' ∧ d'.conn = d.conn
      ∧ d'.snd.right_window_edge = d.snd.right_window_edge
      ∧ d'.snd.next_to_send = d.snd.next_to_send + us.length
      ∧ d'.snd.rmt = d.snd.rmt
      ∧ seqs d'.snd.closed_window_queue
          = seqs d.snd.closed_window_queue ++ List.range' d.snd.next_to_send us.length := by
  induction us generalizing d with
  | nil => exact ⟨d, rfl, hw, rfl, rfl, rfl, rfl, by simp⟩
  | cons u us ih =>
    simp only [List.length_cons] at hroom
    obtain ⟨d1, hs, hw1, hc1, hr1, hn1, hm1, hq1⟩ :=
      dtp_write_closed pol d u hw hclosed (by omega)
    have hlen : d1.snd.closed_window_queue.length = d.snd.closed_window_queue.length + 1 := by
      have := congrArg List.length hq1
      simpa [seqs] using this
    obtain ⟨d2, hs2, hw2, hc2, hr2, hn2, hm2, hq2⟩ :=
      ih d1 hw1 (by omega) (by rw [hc1]; omega)
    refine ⟨d2, ?_, hw2, by rw [hc2, hc1], by rw [hr2, hr1], ?_, by rw [hm2, hm1], ?_⟩
    · simp only [dtp_write_all, List.foldl_cons, hs]
      exact hs2
    · rw [hn2, hn1, List.length_cons]
      omega
    · rw [hq2, hq1, hn1, List.length_cons, List.range'_succ]
      simp

end linux_rina

namespace linux_rina

/-- Releasing from the head of a queue in sequence order under a bound on the
sequence number splits the queue at the bound. -/
theorem cwq_release_split (edge : Nat) (qs : List pdu)
    (hs : List.Pairwise (fun a b => a < b) (seqs qs)) :
    (cwq_release (fun q => decide (q.seq < edge)) qs).1
        ++ (cwq_release (fun q => decide (q.seq < edge)) qs).2 = qs
    ∧ (∀ x ∈ (cwq_release (fun q => decide (q.seq < edge)) qs).1, x.seq < edge)
    ∧ (∀ x ∈ (cwq_release (fun q => decide (q.seq < edge)) qs).2, edge ≤ x.seq) := by
  induction qs with
  | nil => simp [cwq_release]
  | cons q qs ih =>
    simp only [seqs, List.map_cons, List.pairwise_cons] at hs
    obtain ⟨hq, hrest⟩ := hs
    obtain ⟨h1, h2, h3⟩ := ih hrest
    unfold cwq_release
    by_cases hadm : q.seq < edge
    · simp only [hadm, decide_True, if_true]
      refine ⟨by simp [h1], ?_, h3⟩
      intro x hx
      rcases List.mem_cons.mp hx with h | h
      · subst h
        exact hadm
      · exact h2 x h
    · simp only [hadm, decide_False, Bool.false_eq_true, if_false]
      refine ⟨by simp, by simp, ?_⟩
      intro x hx
      rcases List.mem_cons.mp hx with h | h
      · subst h
        omega
      · have := hq x.seq (List.mem_map.mpr ⟨x, h, rfl⟩)
        omega

/-- An acknowledgment keeps the split of the PDUs between RMT and the closed-window
queue at the right window edge, which it moves to the larger of its old value
and the acknowledged edge. -/
theorem advance_staged (pol : Policies) (s0 n : Nat) (d : dtp) (edge : Nat)
    (h : Staged s0 n d) :
    Staged s0 n (dtp_right_window_edge_advanced pol d edge)
    ∧ (dtp_right_window_edge_advanced pol d edge).snd.right_window_edge
        = max d.snd.right_window_edge edge := by
  obtain ⟨⟨h1, h2, h3⟩, hsplit, hlow, hhigh⟩ := h
  have hsorted : List.Pairwise (fun a b => a < b) (seqs d.snd.closed_window_queue) := by
    have hp := List.pairwise_lt_range' s0 n
    rw [← hsplit] at hp
    exact (List.pairwise_append.mp hp).2.1
  have hadm : (fun q : pdu => !flow_closed pol d
        { d.snd with right_window_edge := max d.snd.right_window_edge edge } q.seq)
      = (fun q : pdu => decide (q.seq < max d.snd.right_window_edge edge)) := by
    funext q
    simp only [flow_closed, h2, h3, window_closed]
    by_cases hq : max d.snd.right_window_edge edge ≤ q.seq
    · have hn : ¬ q.seq < max d.snd.right_window_edge edge := by omega
      simp only [hq, hn, decide_True, decide_False, Bool.not_true]
    · have hn : q.seq < max d.snd.right_window_edge edge := by omega
      simp only [hq, hn, decide_True, decide_False, Bool.not_false]
  obtain ⟨r1, r2, r3⟩ :=
    cwq_release_split (max d.snd.right_window_edge edge) d.snd.closed_window_queue hsorted
  refine ⟨⟨⟨h1, h2, h3⟩, ?_, ?_, ?_⟩, rfl⟩
  · simp only [dtp_right_window_edge_advanced, hadm]
    rw [← hsplit]
    conv_rhs => rw [← r1]
    simp [seqs]
  · simp only [dtp_right_window_edge_advanced, hadm]
    intro p hp
    rcases List.mem_append.mp hp with hm | hm
    · have := hlow p hm
      omega
    · exact r2 p hm
  · simp only [dtp_right_window_edge_advanced, hadm]
    exact r3

/-- A run of acknowledgments keeps the split and leaves the right window edge at
the largest edge seen. -/
theorem acks_staged (pol : Policies) (s0 n : Nat) (edges : List Nat) (d : dtp)
    (h : Staged s0 n d) :
    Staged s0 n (dtp_acks pol d edges)
    ∧ (dtp_acks pol d edges).snd.right_window_edge = edges.foldl max d.snd.right_window_edge := by
  induction edges generalizing d with
  | nil => exact ⟨h, rfl⟩
  | cons e es ih =>
    obtain ⟨hs, hr⟩ := advance_staged pol s0 n d e h
    obtain ⟨hs2, hr2⟩ := ih (dtp_right_window_edge_advanced pol d e) hs
    refine ⟨hs2, ?_⟩
    simp only [dtp_acks, List.foldl_cons] at hr2 ⊢
    rw [hr2, hr]

end linux_rina

namespace linux_rina

/-- C18, as stated, fails: with initial credit 10 but room for only 3 PDUs on the
closed-window queue, fifteen writes hand the first 10 PDUs to RMT and queue 3,
not 5; the last two go to `closedwindowpolicy`. -/
theorem dtp_write_short_queue :
    sample_short_queue_connection.initialcredit = 10
    ∧ (dtp_write_all sample_policies
          (dtp_sv_init (some (dtp_create sample_short_queue_connection)) false true false 0).1
          sample_sdus).map (fun d => (seqs d.snd.rmt, seqs d.snd.closed_window_queue))
        = some ([0, 1, 2, 3, 4, 5, 6, 7, 8, 9], [10, 11, 12]) := by
  refine ⟨rfl, ?_⟩
  decide

/-- C18, amended: on a new connection with initial credit 10, window-based flow
control, no rate control and room for at least 5 PDUs on the closed-window
queue, fifteen writes with nothing in between hand the first ten PDUs to RMT
and leave the other five on the closed-window queue, both in sequence order.
Whatever acknowledgments then move the right window edge, RMT followed by the
queue still holds the fifteen PDUs in sequence order, RMT holding exactly
those below the right window edge, which is the largest edge acknowledged. -/
theorem dtp_write_closed_window_queueing (pol : Policies) (c : connection) (rex : Bool)
    (a : Nat) (us : List sdu) (edges : List Nat)
    (hc : c.initialcredit = 10) (hq : 5 ≤ c.maxclosedwindowqueuelength)
    (hl : us.length = 15) :
    ∃ d, dtp_write_all pol (dtp_sv_init (some (dtp_create c)) rex true false a).1 us = some d
      ∧ seqs d.snd.rmt = List.range' c.initialseqnum 10
      ∧ seqs d.snd.closed_window_queue = List.range' (c.initialseqnum + 10) 5
      ∧ seqs (dtp_acks pol d edges).snd.rmt ++ seqs (dtp_acks pol d edges).snd.closed_window_queue
          = List.range' c.initialseqnum 15
      ∧ (dtp_acks pol d edges).snd.right_window_edge
          = edges.foldl max (c.initialseqnum + 10)
      ∧ (∀ p ∈ (dtp_acks pol d edges).snd.rmt,
          p.seq < (dtp_acks pol d edges).snd.right_window_edge)
      ∧ (∀ q ∈ (dtp_acks pol d edges).snd.closed_window_queue,
          (dtp_acks pol d edges).snd.right_window_edge ≤ q.seq) := by
  have hsplit : us = us.take 10 ++ us.drop 10 := (List.take_append_drop 10 us).symm
  have ht : (us.take 10).length = 10 := by simp [hl]
  have hd : (us.drop 10).length = 5 := by simp [hl]
  -- the instance after `dtp_create` and `dtp_sv_init`
  obtain ⟨d0, hd0, hw0, hn0, hr0, hm0, hq0, hc0⟩ :
      ∃ d0, (dtp_sv_init (some (dtp_create c)) rex true false a).1 = some d0
        ∧ WindowOnly d0 ∧ d0.snd.next_to_send = c.initialseqnum
        ∧ d0.snd.right_window_edge = c.initialseqnum + 10
        ∧ d0.snd.rmt = [] ∧ d0.snd.closed_window_queue = [] ∧ d0.conn = c :=
    ⟨_, rfl, ⟨rfl, rfl, rfl⟩, rfl, by simp [dtp_create, hc], rfl, rfl, rfl⟩
  obtain ⟨d1, hs1, hw1, hc1, hr1, hn1, hm1, hq1⟩ :=
    dtp_write_all_open pol (us.take 10) d0 hw0 (by rw [ht, hn0, hr0])
  obtain ⟨d2, hs2, hw2, hc2, hr2, hn2, hm2, hq2⟩ :=
    dtp_write_all_closed pol (us.drop 10) d1 hw1 (by rw [hr1, hn1, hr0, hn0, ht])
      (by rw [hq1, hq0, hc1, hc0, hd]; simpa using hq)
  have hrmt : seqs d2.snd.rmt = List.range' c.initialseqnum 10 := by
    rw [hm2, hm1, hm0, hn0, ht]
    simp [seqs]
  have hcwq : seqs d2.snd.closed_window_queue = List.range' (c.initialseqnum + 10) 5 := by
    rw [hq2, hq1, hq0, hn1, hn0, ht, hd]
    simp [seqs]
  have hrwe : d2.snd.right_window_edge = c.initialseqnum + 10 := by rw [hr2, hr1, hr0]
  have hstaged : Staged c.initialseqnum 15 d2 := by
    refine ⟨hw2, ?_, ?_, ?_⟩
    · rw [hrmt, hcwq, List.range'_append_1]
    · intro p hp
      have : p.seq ∈ seqs d2.snd.rmt := List.mem_map.mpr ⟨p, hp, rfl⟩
      rw [hrmt, List.mem_range'_1] at this
      omega
    · intro q hqm
      have : q.seq ∈ seqs d2.snd.closed_window_queue := List.mem_map.mpr ⟨q, hqm, rfl⟩
      rw [hcwq, List.mem_range'_1] at this
      omega
  obtain ⟨⟨_, ha1, ha2, ha3⟩, ha4⟩ := acks_staged pol c.initialseqnum 15 edges d2 hstaged
  refine ⟨d2, ?_, hrmt, hcwq, ha1, by rw [ha4, hrwe], ha2, ha3⟩
  rw [hd0, hsplit]
  simp only [dtp_write_all, List.foldl_append] at hs1 hs2 ⊢
  rw [hs1]
  exact hs2

/-- The amended C18 on the connection with initial sequence number 0 and room for 5
queued PDUs and fifteen one-byte SDUs: PDUs 0 to 9 are handed to RMT and PDUs
10 to 14 are queued. -/
theorem dtp_write_closed_window_queueing_witness :
    sample_connection.initialcredit = 10
    ∧ 5 ≤ sample_connection.maxclosedwindowqueuelength
    ∧ sample_sdus.length = 15
    ∧ (dtp_write_all sample_policies
          (dtp_sv_init (some (dtp_create sample_connection)) false true false 0).1
          sample_sdus).map (fun d => (seqs d.snd.rmt, seqs d.snd.closed_window_queue))
        = some (List.range' 0 10, List.range' 10 5) := by
  refine ⟨rfl, by decide, rfl, ?_⟩
  obtain ⟨d, hrun, hrmt, hcwq, _⟩ :=
    dtp_write_closed_window_queueing sample_policies sample_connection false 0 sample_sdus
      [12, 14] rfl (by decide) rfl
  rw [hrun, Option.map_some', hrmt, hcwq]
  rfl

end linux_rina

namespace linux_rina

/-- A sequence number that is not new lies below one that is. -/
theorem is_new_lt {d : dtcp} {a b : Nat} (ha : is_new d a = false) (hb : is_new d b = true) :
    a < b := by
  unfold is_new at ha hb
  cases hm : d.max_seq_nr_sent with
  | none => simp [hm] at ha
  | some m =>
    simp only [hm, decide_eq_false_iff_not, decide_eq_true_eq] at ha hb
    omega

theorem RtxInv_create (c : connection) : RtxInv (dtcp_create c) := by
  simp [RtxInv, dtcp_create, retransmissions, seqs]

theorem RtxInv_sent (d : dtcp) (p : pdu) (h : RtxInv d) :
    RtxInv (dtcp_pdu_sent d p) ∧ (dtcp_pdu_sent d p).conn = d.conn := by
  obtain ⟨hnd, hent, hall, hret⟩ := h
  unfold dtcp_pdu_sent
  split
  · rename_i hg
    obtain ⟨_, hnew⟩ := hg
    have hnew' : ∀ s, is_new
        { d with rtxq := d.rtxq ++ [{ p := p, retries := 0 }], max_seq_nr_sent := some p.seq } s
          = decide (p.seq < s) := fun s => rfl
    have hzero : retransmissions d p.seq = 0 := by
      unfold retransmissions seqs
      rw [List.count_eq_zero]
      intro hm
      obtain ⟨x, hx, hxe⟩ := List.mem_map.mp hm
      have := is_new_lt (hret x hx) hnew
      omega
    refine ⟨⟨?_, ?_, hall, ?_⟩, rfl⟩
    · simp only [List.map_append, List.map_cons, List.map_nil]
      rw [List.nodup_append]
      refine ⟨hnd, by simp, ?_⟩
      intro s hs hs'
      simp only [List.mem_singleton] at hs'
      subst hs'
      obtain ⟨e, he, hee⟩ := List.mem_map.mp hs
      have := is_new_lt (hent e he).2.2 hnew
      omega
    · intro e he
      rcases List.mem_append.mp he with h1 | h1
      · obtain ⟨a1, a2, a3⟩ := hent e h1
        refine ⟨a1, a2, ?_⟩
        rw [hnew']
        have := is_new_lt a3 hnew
        simp only [decide_eq_false_iff_not]
        omega
      · simp only [List.mem_singleton] at h1
        subst h1
        refine ⟨?_, Nat.zero_le _, ?_⟩
        · show retransmissions d p.seq ≤ 0
          omega
        · rw [hnew']
          simp
    · intro x hx
      rw [hnew']
      have := is_new_lt (hret x hx) hnew
      simp only [decide_eq_false_iff_not]
      omega
  · exact ⟨⟨hnd, hent, hall, hret⟩, rfl⟩

theorem RtxInv_ack (pol : RtxPolicies) (d : dtcp) (seq : Nat) (h : RtxInv d) :
    RtxInv (dtcp_ack_received pol d seq) ∧ (dtcp_ack_received pol d seq).conn = d.conn := by
  obtain ⟨hnd, hent, hall, hret⟩ := h
  refine ⟨⟨?_, ?_, hall, hret⟩, rfl⟩
  · exact hnd.sublist (List.Sublist.map _ (List.filter_sublist _))
  · intro e he
    exact hent e (List.mem_of_mem_filter he)

/-- Among the entries due for retransmission each sequence number occurs at most
once, and only sequence numbers up to the timed-out one occur. -/
theorem count_due (q : List rtxq_entry) (t s : Nat)
    (hnd : (q.map (fun e => e.p.seq)).Nodup) :
    (seqs ((q.filter (fun e => decide (e.p.seq ≤ t))).map (fun e => e.p))).count s ≤ 1
    ∧ (t < s → (seqs ((q.filter (fun e => decide (e.p.seq ≤ t))).map (fun e => e.p))).count s
        = 0) := by
  have hmap : seqs ((q.filter (fun e => decide (e.p.seq ≤ t))).map (fun e => e.p))
      = (q.filter (fun e => decide (e.p.seq ≤ t))).map (fun e => e.p.seq) := by
    simp [seqs]
  rw [hmap]
  constructor
  · have hsub : ((q.filter (fun e => decide (e.p.seq ≤ t))).map (fun e => e.p.seq)).Nodup :=
      hnd.sublist (List.Sublist.map _ (List.filter_sublist _))
    exact List.nodup_iff_count_le_one.mp hsub s
  · intro hts
    rw [List.count_eq_zero]
    intro hm
    obtain ⟨e, he, hee⟩ := List.mem_map.mp hm
    have := (List.mem_filter.mp he).2
    simp only [decide_eq_true_eq] at this
    omega

end linux_rina

namespace linux_rina

theorem RtxInv_timer (pol : RtxPolicies) (d : dtcp) (t : Nat) (h : RtxInv d) :
    RtxInv (dtcp_rtx_timer_expired pol d t)
    ∧ (dtcp_rtx_timer_expired pol d t).conn = d.conn := by
  unfold dtcp_rtx_timer_expired
  split
  · exact ⟨h, rfl⟩
  · split
    · exact ⟨h, rfl⟩
    · rename_i hfatal
      split
      · obtain ⟨hnd, hent, hall, hret⟩ := h
        have hlt : ∀ e ∈ d.rtxq, e.p.seq ≤ t → e.retries < d.conn.datarxmsnmax := by
          intro e he hle
          simp only [List.any_eq_true, Bool.and_eq_true, decide_eq_true_eq, not_exists, not_and]
            at hfatal
          have := hfatal e he hle
          omega
        have hcount : ∀ s, retransmissions
            { d with
              rtxq := d.rtxq.map
                (fun e => if e.p.seq ≤ t then { e with retries := e.retries + 1 } else e),
              retransmitted := d.retransmitted
                ++ (d.rtxq.filter (fun e => decide (e.p.seq ≤ t))).map (fun e => e.p) } s
            = retransmissions d s
              + (seqs ((d.rtxq.filter (fun e => decide (e.p.seq ≤ t))).map
                  (fun e => e.p))).count s := by
          intro s
          simp [retransmissions, seqs, List.count_append]
        refine ⟨⟨?_, ?_, ?_, ?_⟩, rfl⟩
        · have hsame : (d.rtxq.map
              (fun e => if e.p.seq ≤ t then { e with retries := e.retries + 1 } else e)).map
                (fun e => e.p.seq) = d.rtxq.map (fun e => e.p.seq) := by
            rw [List.map_map]
            apply List.map_congr_left
            intro e _
            by_cases hle : e.p.seq ≤ t <;> simp [hle]
          simp only
          rw [hsame]
          exact hnd
        · intro e' he'
          simp only at he'
          obtain ⟨e, he, hee⟩ := List.mem_map.mp he'
          obtain ⟨a1, a2, a3⟩ := hent e he
          obtain ⟨c1, c2⟩ := count_due d.rtxq t e.p.seq hnd
          by_cases hle : e.p.seq ≤ t
          · simp only [hle, if_true] at hee
            subst hee
            refine ⟨?_, ?_, a3⟩
            · rw [hcount]
              simp only
              omega
            · have := hlt e he hle
              simp only
              omega
          · simp only [hle, if_false] at hee
            subst hee
            refine ⟨?_, a2, a3⟩
            rw [hcount, c2 (by omega)]
            omega
        · intro s
          rw [hcount]
          obtain ⟨c1, _⟩ := count_due d.rtxq t s hnd
          by_cases hz : (seqs ((d.rtxq.filter (fun e => decide (e.p.seq ≤ t))).map
              (fun e => e.p))).count s = 0
          · rw [hz]
            exact hall s
          · have hpos : 0 < (seqs ((d.rtxq.filter (fun e => decide (e.p.seq ≤ t))).map
                (fun e => e.p))).count s := Nat.pos_of_ne_zero hz
            have hmem := List.count_pos_iff.mp hpos
            simp only [seqs, List.map_map, List.mem_map, List.mem_filter, decide_eq_true_eq,
              Function.comp] at hmem
            obtain ⟨e, ⟨he, hle⟩, hes⟩ := hmem
            obtain ⟨a1, _, _⟩ := hent e he
            have := hlt e he hle
            rw [hes] at a1
            show retransmissions d s + _ ≤ d.conn.datarxmsnmax
            omega
        · intro x hx
          simp only at hx
          rcases List.mem_append.mp hx with h1 | h1
          · exact hret x h1
          · obtain ⟨e, he, hee⟩ := List.mem_map.mp h1
            subst hee
            exact (hent e (List.mem_of_mem_filter he)).2.2
      · exact ⟨h, rfl⟩

theorem RtxInv_run (pol : RtxPolicies) (evs : List dtcp_event) (d : dtcp) (h : RtxInv d) :
    RtxInv (dtcp_run pol d evs) ∧ (dtcp_run pol d evs).conn = d.conn := by
  induction evs generalizing d with
  | nil => exact ⟨h, rfl⟩
  | cons ev evs ih =>
    have hstep : RtxInv (dtcp_step pol d ev) ∧ (dtcp_step pol d ev).conn = d.conn := by
      cases ev with
      | sent p => exact RtxInv_sent d p h
      | ack seq => exact RtxInv_ack pol d seq h
      | rtx_timer_expired seq => exact RtxInv_timer pol d seq h
    obtain ⟨h2, hc2⟩ := ih (dtcp_step pol d ev) hstep.1
    refine ⟨h2, ?_⟩
    rw [← hstep.2, ← hc2]
    rfl

end linux_rina

namespace linux_rina

/-- C17: in every execution that starts from a new DTCP instance, no PDU is
retransmitted more than `datarxmsnmax` times; and when the retransmission
timer expires on an active connection while a PDU it covers has already been
retransmitted `datarxmsnmax` times and is still on the retransmission queue,
the connection is torn down and the failure reported, and nothing is
retransmitted. -/
theorem retransmission_bound (pol : RtxPolicies) (c : connection) (evs : List dtcp_event)
    (seq : Nat) (d : dtcp) (e : rtxq_entry) (t : Nat)
    (hactive : d.state = dtp_state.ACTIVE) (hqueued : e ∈ d.rtxq)
    (hmax : d.conn.datarxmsnmax ≤ e.retries) (hdue : e.p.seq ≤ t) :
    retransmissions (dtcp_run pol (dtcp_create c) evs) seq ≤ c.datarxmsnmax
    ∧ (dtcp_rtx_timer_expired pol d t).state = dtp_state.TERMINATING
    ∧ (dtcp_rtx_timer_expired pol d t).reported = true
    ∧ (dtcp_rtx_timer_expired pol d t).retransmitted = d.retransmitted := by
  constructor
  · obtain ⟨⟨_, _, hall, _⟩, hc⟩ := RtxInv_run pol evs (dtcp_create c) (RtxInv_create c)
    have := hall seq
    rw [hc] at this
    exact this
  · have hany : d.rtxq.any
        (fun e => decide (e.p.seq ≤ t) && decide (d.conn.datarxmsnmax ≤ e.retries)) = true := by
      rw [List.any_eq_true]
      exact ⟨e, hqueued, by simp [hdue, hmax]⟩
    simp [dtcp_rtx_timer_expired, hactive, hany]

/-- C17 on the execution in which PDU 0 is sent and its timer expires three times,
with `datarxmsnmax` 3: the PDU has then been retransmitted three times, and
the fourth expiry tears the connection down without a fourth retransmission. -/
theorem retransmission_bound_witness :
    (dtcp_run sample_rtx_policies (dtcp_create sample_connection) sample_rtx_events).state
        = dtp_state.ACTIVE
    ∧ (⟨⟨0, true, []⟩, 3⟩ : rtxq_entry)
        ∈ (dtcp_run sample_rtx_policies (dtcp_create sample_connection) sample_rtx_events).rtxq
    ∧ retransmissions
        (dtcp_run sample_rtx_policies (dtcp_create sample_connection) sample_rtx_events) 0 = 3
    ∧ (dtcp_rtx_timer_expired sample_rtx_policies
        (dtcp_run sample_rtx_policies (dtcp_create sample_connection) sample_rtx_events) 0).state
        = dtp_state.TERMINATING :=
  ⟨by decide, by decide, by decide,
    (retransmission_bound sample_rtx_policies sample_connection sample_rtx_events 0
      (dtcp_run sample_rtx_policies (dtcp_create sample_connection) sample_rtx_events)
      ⟨⟨0, true, []⟩, 3⟩ 0 (by decide) (by decide) (by decide) (by decide)).2.1⟩

end linux_rina

/-! ## Lock discipline, identifiers and return values -/

namespace linux_rina

/-- A call that logs one error and leaves the instance alone is disciplined when
its checks fail. -/
theorem Disciplined_of_reject {α : Type} (before : Option kfa) (v : α) (msg : String) :
    Disciplined before { inst := before, ret := v, ops := [Op.LOG_ERR msg] } false := by
  refine ⟨rfl, by simp, by simp, by simp, fun _ => ⟨⟨msg, rfl⟩, rfl⟩, by simp⟩

/-- A call that runs the critical section is disciplined when its checks pass. -/
theorem Disciplined_of_critical {α : Type} (i : kfa) (v : α) :
    Disciplined (some i)
      { inst := some (locked_missing i).1, ret := v, ops := (locked_missing i).2 } true := by
  refine ⟨rfl, by simp [locked_missing], by simp [locked_missing], by simp [locked_missing],
    by simp, fun _ => ⟨rfl, rfl⟩⟩

/-- C21: each of the six flow operations of the KFA, on every input, ends without
holding the instance lock, takes the lock at most once and releases it as
often as it takes it, and takes it exactly when all the argument checks of
the operation pass (the instance is not null and every identifier or SDU test
the operation makes succeeds); a rejected call only logs one error. -/
theorem kfa_lock_discipline (h : Helpers) (inst : Option kfa) (fid pid id : Int)
    (s : Option sdu) :
    Disciplined inst (kfa_flow_create h inst) inst.isSome
    ∧ Disciplined inst (kfa_flow_bind h inst fid pid)
        (inst.isSome && h.is_flow_id_ok fid && h.is_port_id_ok fid)
    ∧ Disciplined inst (kfa_flow_unbind h inst id) (inst.isSome && h.is_port_id_ok id)
    ∧ Disciplined inst (kfa_flow_destroy h inst id) (inst.isSome && h.is_flow_id_ok id)
    ∧ Disciplined inst (kfa_flow_sdu_write h inst id s)
        (inst.isSome && h.is_port_id_ok id && h.is_sdu_ok s)
    ∧ Disciplined inst (kfa_flow_sdu_read h inst id) (inst.isSome && h.is_port_id_ok id) := by
  cases inst with
  | none =>
    refine ⟨?_, ?_, ?_, ?_, ?_, ?_⟩ <;> exact Disciplined_of_reject none _ _
  | some i =>
    refine ⟨?_, ?_, ?_, ?_, ?_, ?_⟩
    · exact Disciplined_of_critical i _
    · unfold kfa_flow_bind
      cases hf : h.is_flow_id_ok fid <;> cases hp : h.is_port_id_ok fid <;>
        simp only [Option.isSome_some, Bool.true_and, Bool.and_true, Bool.and_false,
          Bool.not_true, Bool.not_false, Bool.false_eq_true, if_true, if_false]
      · exact Disciplined_of_reject _ _ _
      · exact Disciplined_of_reject _ _ _
      · exact Disciplined_of_reject _ _ _
      · exact Disciplined_of_critical i _
    · unfold kfa_flow_unbind
      cases hp : h.is_port_id_ok id <;>
        simp only [Option.isSome_some, Bool.true_and, Bool.and_true, Bool.and_false,
          Bool.not_true, Bool.not_false, Bool.false_eq_true, if_true, if_false]
      · exact Disciplined_of_reject _ _ _
      · exact Disciplined_of_critical i _
    · unfold kfa_flow_destroy
      cases hf : h.is_flow_id_ok id <;>
        simp only [Option.isSome_some, Bool.true_and, Bool.and_true, Bool.and_false,
          Bool.not_true, Bool.not_false, Bool.false_eq_true, if_true, if_false]
      · exact Disciplined_of_reject _ _ _
      · exact Disciplined_of_critical i _
    · unfold kfa_flow_sdu_write
      cases hp : h.is_port_id_ok id <;> cases hs : h.is_sdu_ok s <;>
        simp only [Option.isSome_some, Bool.true_and, Bool.and_true, Bool.and_false,
          Bool.not_true, Bool.not_false, Bool.false_eq_true, if_true, if_false]
      · exact Disciplined_of_reject _ _ _
      · exact Disciplined_of_reject _ _ _
      · exact Disciplined_of_reject _ _ _
      · exact Disciplined_of_critical i _
    · unfold kfa_flow_sdu_read
      cases hp : h.is_port_id_ok id <;>
        simp only [Option.isSome_some, Bool.true_and, Bool.and_true, Bool.and_false,
          Bool.not_true, Bool.not_false, Bool.false_eq_true, if_true, if_false]
      · exact Disciplined_of_reject _ _ _
      · exact Disciplined_of_critical i _

/-- C22: `rnl_dst_ipcid_from_msg` and `rnl_src_ipcid_from_msg` return the same value on
every `genl_info`, the `src_ipc_id` field of the RINA user header; whatever
is put into the `dst_ipc_id` field, into the message header or into the
attribute table, the returned destination id stays the same. -/
theorem rnl_dst_ipcid_is_src_ipcid (info : genl_info) (dst : Nat) (nlh : nlmsghdr)
    (attrs : attr_table) :
    rnl_dst_ipcid_from_msg info = rnl_src_ipcid_from_msg info
    ∧ rnl_dst_ipcid_from_msg info = info.userhdr.src_ipc_id
    ∧ rnl_dst_ipcid_from_msg
        { nlhdr := nlh, userhdr := { info.userhdr with dst_ipc_id := dst }, attrs := attrs }
        = rnl_dst_ipcid_from_msg info
    ∧ rnl_dst_ipcid_from_msg sample_dealloc_info = 1
    ∧ sample_dealloc_info.userhdr.dst_ipc_id = 2 :=
  ⟨rfl, rfl, rfl, rfl, rfl⟩

end linux_rina

namespace rinad

theorem NoCompletionSince.refl (m : IPCManager_) : NoCompletionSince m m :=
  ⟨[], by simp, rfl⟩

theorem NoCompletionSince.emit {m m1 : IPCManager_} (h : NoCompletionSince m m1) (ef : Effect)
    (hef : completes_any [ef] = false) : NoCompletionSince m (emit m1 ef) := by
  obtain ⟨mid, ht, hc⟩ := h
  refine ⟨mid ++ [ef], by simp [rinad.emit, ht], ?_⟩
  simp only [completes_any, List.any_append, Bool.or_eq_false_iff] at hc hef ⊢
  exact ⟨hc, hef⟩

theorem NoCompletionSince.log {m m1 : IPCManager_} (h : NoCompletionSince m m1)
    (level : LogLevel) : NoCompletionSince m (FLUSH_LOG level m1) :=
  h.emit _ rfl

theorem NoCompletionSince.set {m m1 : IPCManager_} (h : NoCompletionSince m m1) (id st : Nat) :
    NoCompletionSince m (set_ipcp_state m1 id st) := h

/-- Completing and removing a transaction after effects that complete nothing
leaves a trace with exactly that one completion, at its end, and the return
value `-(ret == IPCM_SUCCESS)`. -/
theorem completed_once_shape {m m1 : IPCManager_} (h : NoCompletionSince m m1) (tx : TransState)
    (ret : ipcm_res_t) :
    ∃ ret' mid,
      (remove_transaction_state (completed m1 tx ret) tx.tid).trace
          = m.trace ++ mid ++ [Effect.completed tx.tid ret']
      ∧ completes_any mid = false
      ∧ (Outcome.returned (neg_is_success ret) : Outcome Int)
          = Outcome.returned (if ret' = ipcm_res_t.IPCM_SUCCESS then -1 else 0) := by
  obtain ⟨mid, ht, hc⟩ := h
  refine ⟨ret, mid, ?_, hc, ?_⟩
  · simp [remove_transaction_state, completed, rinad.emit, ht]
  · cases ret <;> rfl

/-- C23: when the transaction and both IPC processes are found, the register and
unregister response handlers complete the transaction exactly once, with
some result `ret`, and return `-(ret == IPCM_SUCCESS)`: -1 when the
transaction was completed with `IPCM_SUCCESS` and 0 when it was completed with
`IPCM_FAILURE`.  The early exits return -1 as well: that for a missing IPC
process always, that for a missing transaction when it returns at all (that
is, when assertions are compiled out). -/
theorem register_response_return_value (x : Callees) (NDEBUG : Bool) (m : IPCManager_)
    (seq : Nat) (result : Int) (tx : TransState) (p sp : IPCMIPCProcess)
    (h : get_transaction_state m seq = some tx)
    (hp : lookup_ipcp_by_id m tx.ipcp_id = some p)
    (hs : lookup_ipcp_by_id m tx.slave_ipcp_id = some sp) :
    (∃ ret mid,
      (ipcm_register_response_ipcp x NDEBUG m ⟨seq, result⟩).1.trace
          = m.trace ++ mid ++ [Effect.completed tx.tid ret]
      ∧ completes_any mid = false
      ∧ (ipcm_register_response_ipcp x NDEBUG m ⟨seq, result⟩).2
          = Outcome.returned (if ret = ipcm_res_t.IPCM_SUCCESS then -1 else 0))
    ∧ (∃ ret mid,
      (ipcm_unregister_response_ipcp x NDEBUG m ⟨seq, result⟩).1.trace
          = m.trace ++ mid ++ [Effect.completed tx.tid ret]
      ∧ completes_any mid = false
      ∧ (ipcm_unregister_response_ipcp x NDEBUG m ⟨seq, result⟩).2
          = Outcome.returned (if ret = ipcm_res_t.IPCM_SUCCESS then -1 else 0))
    ∧ (∀ m' : IPCManager_, get_transaction_state m' seq = none →
        ipcm_register_response_ipcp x true m' ⟨seq, result⟩ = (m', Outcome.returned (-1))
        ∧ ipcm_unregister_response_ipcp x true m' ⟨seq, result⟩ = (m', Outcome.returned (-1)))
    ∧ (∀ m' : IPCManager_, lookup_ipcp_by_id m' tx.ipcp_id = none →
        get_transaction_state m' seq = some tx →
        ipcm_register_response_ipcp x NDEBUG m' ⟨seq, result⟩ = (m', Outcome.returned (-1))
        ∧ ipcm_unregister_response_ipcp x NDEBUG m' ⟨seq, result⟩
            = (m', Outcome.returned (-1))) := by
  refine ⟨?_, ?_, ?_, ?_⟩
  · unfold ipcm_register_response_ipcp
    simp only [h, hp, hs]
    split
    · split
      · apply completed_once_shape
        refine NoCompletionSince.log (NoCompletionSince.set (NoCompletionSince.emit
          (NoCompletionSince.set (NoCompletionSince.emit (NoCompletionSince.refl m) _ ?_) _ _)
          _ ?_) _ _) _
        · rfl
        · rfl
      · apply completed_once_shape
        refine NoCompletionSince.log (NoCompletionSince.set (NoCompletionSince.emit
          (NoCompletionSince.set (NoCompletionSince.emit (NoCompletionSince.refl m) _ ?_) _ _)
          _ ?_) _ _) _
        · rfl
        · rfl
    · apply completed_once_shape
      refine NoCompletionSince.log (NoCompletionSince.set
        (NoCompletionSince.emit (NoCompletionSince.refl m) _ ?_) _ _) _
      rfl
  · unfold ipcm_unregister_response_ipcp
    simp only [h, hp, hs]
    split
    · split
      · apply completed_once_shape
        refine NoCompletionSince.log (NoCompletionSince.set (NoCompletionSince.emit
          (NoCompletionSince.set (NoCompletionSince.emit (NoCompletionSince.refl m) _ ?_) _ _)
          _ ?_) _ _) _
        · rfl
        · rfl
      · apply completed_once_shape
        refine NoCompletionSince.log (NoCompletionSince.set (NoCompletionSince.emit
          (NoCompletionSince.set (NoCompletionSince.emit (NoCompletionSince.refl m) _ ?_) _ _)
          _ ?_) _ _) _
        · rfl
        · rfl
    · apply completed_once_shape
      refine NoCompletionSince.log (NoCompletionSince.set
        (NoCompletionSince.emit (NoCompletionSince.refl m) _ ?_) _ _) _
      rfl
  · intro m' hm
    simp [ipcm_register_response_ipcp, ipcm_unregister_response_ipcp, hm]
  · intro m' hm ht
    simp [ipcm_register_response_ipcp, ipcm_unregister_response_ipcp, hm, ht]

end rinad

namespace rinad

/-- C23 on the manager with IPC processes 7 and 8 and transaction 1 pending: a
successful registration response completes the transaction with
`IPCM_SUCCESS` and returns -1, a failed one completes it with `IPCM_FAILURE`
and returns 0, and with nothing pending the handler built without
assertions returns -1. -/
theorem register_response_return_value_witness :
    get_transaction_state sample_reg_mgr 1 = some ⟨1, 7, 8⟩
    ∧ lookup_ipcp_by_id sample_reg_mgr 7 = some sample_ipcp
    ∧ lookup_ipcp_by_id sample_reg_mgr 8 = some sample_slave_ipcp
    ∧ (ipcm_register_response_ipcp sample_callees false sample_reg_mgr ⟨1, 0⟩).2
        = Outcome.returned (-1)
    ∧ completions (ipcm_register_response_ipcp sample_callees false sample_reg_mgr ⟨1, 0⟩).1.trace 1
        = [ipcm_res_t.IPCM_SUCCESS]
    ∧ (ipcm_register_response_ipcp sample_callees false sample_reg_mgr ⟨1, 3⟩).2
        = Outcome.returned 0
    ∧ completions (ipcm_register_response_ipcp sample_callees false sample_reg_mgr ⟨1, 3⟩).1.trace 1
        = [ipcm_res_t.IPCM_FAILURE]
    ∧ ipcm_register_response_ipcp sample_callees true sample_idle_mgr ⟨1, 0⟩
        = (sample_idle_mgr, Outcome.returned (-1)) :=
  ⟨rfl, rfl, rfl, by decide, by decide, by decide, by decide,
    ((register_response_return_value sample_callees false sample_reg_mgr 1 0 ⟨1, 7, 8⟩
      sample_ipcp sample_slave_ipcp rfl rfl rfl).2.2.1 sample_idle_mgr rfl).1⟩

end rinad

namespace linux_rina

/-- The attribute table `rnl_parse_msg` leaves behind is the one `nlmsg_parse` filled
for the bound and the policy it was given. -/
theorem rnl_parse_msg_attrs (k : Netlink) (info : genl_info) (max_attr : Nat)
    (attr_policy : nla_policy) :
    (rnl_parse_msg k info max_attr attr_policy).2.attrs
      = (k.nlmsg_parse info.nlhdr k.hdrlen info.attrs max_attr attr_policy).2 := by
  unfold rnl_parse_msg
  simp only
  split <;> rfl

/-- C24 fails on the code: `rnl_parse_alloc_flow_resp` hands `AAFRA_ATTR_MAX`, the
maximum of the flow-request-arrived family, to `rnl_parse_msg`, although its
policy table has `AAFRE_ATTR_MAX + 1` entries; the three other parsers hand
over the maximum of their own family.  With five attributes in the arrived
family and four in the response family, an attribute numbered 5 of a response
is parsed and filed, beyond the last policy entry of the table. -/
theorem rnl_parse_alloc_flow_resp_wrong_bound (k : Netlink) (info : genl_info)
    (resp : rnl_alloc_flow_resp_msg) (req : rnl_ipcm_alloc_flow_req_msg)
    (dreq : rnl_dealloc_flow_req_msg) (dresp : rnl_dealloc_flow_resp_msg) :
    (rnl_parse_alloc_flow_resp k info resp).info.attrs
        = (k.nlmsg_parse info.nlhdr k.hdrlen info.attrs k.ids.AAFRA_ATTR_MAX (aafre_policy k)).2
    ∧ (rnl_parse_ipcm_alloc_flow_req k info req).info.attrs
        = (k.nlmsg_parse info.nlhdr k.hdrlen info.attrs k.ids.IAFRM_ATTR_MAX (iafrm_policy k)).2
    ∧ (rnl_parse_app_dealloc_flow_req k info dreq).info.attrs
        = (k.nlmsg_parse info.nlhdr k.hdrlen info.attrs k.ids.ADFRT_ATTR_MAX (adfrt_policy k)).2
    ∧ (rnl_parse_app_dealloc_flow_resp k info dresp).info.attrs
        = (k.nlmsg_parse info.nlhdr k.hdrlen info.attrs k.ids.ADFRE_ATTR_MAX (adfre_policy k)).2
    ∧ sample_ids.AAFRA_ATTR_MAX = 5
    ∧ sample_ids.AAFRE_ATTR_MAX = 4
    ∧ (rnl_parse_alloc_flow_resp sample_netlink sample_resp_info sample_resp_msg).info.attrs 5
        = some ⟨5, [7]⟩ := by
  refine ⟨?_, ?_, ?_, ?_, rfl, rfl, rfl⟩
  · unfold rnl_parse_alloc_flow_resp
    simp only
    split
    · exact rnl_parse_msg_attrs k info _ _
    · split <;> exact rnl_parse_msg_attrs k info _ _
  · unfold rnl_parse_ipcm_alloc_flow_req
    simp only
    split
    · exact rnl_parse_msg_attrs k info _ _
    · split
      · exact rnl_parse_msg_attrs k info _ _
      · split <;> exact rnl_parse_msg_attrs k info _ _
  · unfold rnl_parse_app_dealloc_flow_req
    simp only
    split
    · exact rnl_parse_msg_attrs k info _ _
    · split
      · exact rnl_parse_msg_attrs k info _ _
      · split <;> exact rnl_parse_msg_attrs k info _ _
  · unfold rnl_parse_app_dealloc_flow_resp
    simp only
    split
    · exact rnl_parse_msg_attrs k info _ _
    · split <;> exact rnl_parse_msg_attrs k info _ _

end linux_rina

namespace linux_rina

/-- The stand-in string copy keeps fewer characters than the size it is given. -/
theorem sample_netlink_strlcpy_bound (dst : Option String) (a : nlattr) (size : Nat)
    (s : String) (h : sample_netlink.nla_strlcpy dst a size = some s) :
    s.length ≤ size - 1 := by
  cases dst with
  | none => simp [sample_netlink] at h
  | some d =>
    simp only [sample_netlink, Option.some.injEq] at h
    subst h
    simp [String.length]

/-- C25: `parse_app_name_info` returns -1 exactly when `nla_parse_nested` fails and 0
otherwise; when it returns 0, each component whose attribute is present is the
result of `nla_strlcpy` with the size `sizeof(struct nlattr *)`, and a
component whose attribute is absent is left alone.  As `nla_strlcpy` stores
fewer characters than the size it is given, a stored component has at most
`sizeof(struct nlattr *) - 1` characters and is never a name longer than
that. -/
theorem parse_app_name_info_copy_bound (k : Netlink) (name_attr : Option nlattr) (n : name)
    (long : String)
    (hk : ∀ dst a size s, k.nla_strlcpy dst a size = some s → s.length ≤ size - 1)
    (hlong : k.sizeof_nlattr_ptr - 1 < long.length) :
    ((parse_app_name_info k name_attr n).1 = -1
        ↔ (k.nla_parse_nested k.ids.APNI_ATTR_MAX name_attr (apni_policy k)).1 < 0)
    ∧ ((parse_app_name_info k name_attr n).1 = 0
        ↔ ¬ (k.nla_parse_nested k.ids.APNI_ATTR_MAX name_attr (apni_policy k)).1 < 0)
    ∧ (¬ (k.nla_parse_nested k.ids.APNI_ATTR_MAX name_attr (apni_policy k)).1 < 0 →
        (parse_app_name_info k name_attr n).2
          = { process_name :=
                match (k.nla_parse_nested k.ids.APNI_ATTR_MAX name_attr (apni_policy k)).2
                    k.ids.APNI_ATTR_PROCESS_NAME with
                | some a => k.nla_strlcpy n.process_name a k.sizeof_nlattr_ptr
                | none => n.process_name,
              process_instance :=
                match (k.nla_parse_nested k.ids.APNI_ATTR_MAX name_attr (apni_policy k)).2
                    k.ids.APNI_ATTR_PROCESS_INSTANCE with
                | some a => k.nla_strlcpy n.process_instance a k.sizeof_nlattr_ptr
                | none => n.process_instance,
              entity_name :=
                match (k.nla_parse_nested k.ids.APNI_ATTR_MAX name_attr (apni_policy k)).2
                    k.ids.APNI_ATTR_ENTITY_NAME with
                | some a => k.nla_strlcpy n.entity_name a k.sizeof_nlattr_ptr
                | none => n.entity_name,
              entity_instance :=
                match (k.nla_parse_nested k.ids.APNI_ATTR_MAX name_attr (apni_policy k)).2
                    k.ids.APNI_ATTR_ENTITY_INSTANCE with
                | some a => k.nla_strlcpy n.entity_instance a k.sizeof_nlattr_ptr
                | none => n.entity_instance })
    ∧ (∀ a, ¬ (k.nla_parse_nested k.ids.APNI_ATTR_MAX name_attr (apni_policy k)).1 < 0 →
        (k.nla_parse_nested k.ids.APNI_ATTR_MAX name_attr (apni_policy k)).2
            k.ids.APNI_ATTR_PROCESS_NAME = some a →
        (∀ s, (parse_app_name_info k name_attr n).2.process_name = some s →
            s.length ≤ k.sizeof_nlattr_ptr - 1)
        ∧ (parse_app_name_info k name_attr n).2.process_name ≠ some long)
    ∧ (∀ a, ¬ (k.nla_parse_nested k.ids.APNI_ATTR_MAX name_attr (apni_policy k)).1 < 0 →
        (k.nla_parse_nested k.ids.APNI_ATTR_MAX name_attr (apni_policy k)).2
            k.ids.APNI_ATTR_PROCESS_INSTANCE = some a →
        (∀ s, (parse_app_name_info k name_attr n).2.process_instance = some s →
            s.length ≤ k.sizeof_nlattr_ptr - 1)
        ∧ (parse_app_name_info k name_attr n).2.process_instance ≠ some long)
    ∧ (∀ a, ¬ (k.nla_parse_nested k.ids.APNI_ATTR_MAX name_attr (apni_policy k)).1 < 0 →
        (k.nla_parse_nested k.ids.APNI_ATTR_MAX name_attr (apni_policy k)).2
            k.ids.APNI_ATTR_ENTITY_NAME = some a →
        (∀ s, (parse_app_name_info k name_attr n).2.entity_name = some s →
            s.length ≤ k.sizeof_nlattr_ptr - 1)
        ∧ (parse_app_name_info k name_attr n).2.entity_name ≠ some long)
    ∧ (∀ a, ¬ (k.nla_parse_nested k.ids.APNI_ATTR_MAX name_attr (apni_policy k)).1 < 0 →
        (k.nla_parse_nested k.ids.APNI_ATTR_MAX name_attr (apni_policy k)).2
            k.ids.APNI_ATTR_ENTITY_INSTANCE = some a →
        (∀ s, (parse_app_name_info k name_attr n).2.entity_instance = some s →
            s.length ≤ k.sizeof_nlattr_ptr - 1)
        ∧ (parse_app_name_info k name_attr n).2.entity_instance ≠ some long) := by
  have hshape : ¬ (k.nla_parse_nested k.ids.APNI_ATTR_MAX name_attr (apni_policy k)).1 < 0 →
      (parse_app_name_info k name_attr n).2
        = { process_name :=
              match (k.nla_parse_nested k.ids.APNI_ATTR_MAX name_attr (apni_policy k)).2
                  k.ids.APNI_ATTR_PROCESS_NAME with
              | some a => k.nla_strlcpy n.process_name a k.sizeof_nlattr_ptr
              | none => n.process_name,
            process_instance :=
              match (k.nla_parse_nested k.ids.APNI_ATTR_MAX name_attr (apni_policy k)).2
                  k.ids.APNI_ATTR_PROCESS_INSTANCE with
              | some a => k.nla_strlcpy n.process_instance a k.sizeof_nlattr_ptr
              | none => n.process_instance,
            entity_name :=
              match (k.nla_parse_nested k.ids.APNI_ATTR_MAX name_attr (apni_policy k)).2
                  k.ids.APNI_ATTR_ENTITY_NAME with
              | some a => k.nla_strlcpy n.entity_name a k.sizeof_nlattr_ptr
              | none => n.entity_name,
            entity_instance :=
              match (k.nla_parse_nested k.ids.APNI_ATTR_MAX name_attr (apni_policy k)).2
                  k.ids.APNI_ATTR_ENTITY_INSTANCE with
              | some a => k.nla_strlcpy n.entity_instance a k.sizeof_nlattr_ptr
              | none => n.entity_instance } := by
    intro hok
    unfold parse_app_name_info
    simp only [apni_policy] at hok ⊢
    simp only [hok, if_false]
    generalize (k.nla_parse_nested k.ids.APNI_ATTR_MAX name_attr
        [(k.ids.APNI_ATTR_PROCESS_NAME, nla_kind.NLA_STRING),
         (k.ids.APNI_ATTR_PROCESS_INSTANCE, nla_kind.NLA_STRING),
         (k.ids.APNI_ATTR_ENTITY_NAME, nla_kind.NLA_STRING),
         (k.ids.APNI_ATTR_ENTITY_INSTANCE, nla_kind.NLA_STRING)]).2 = tbl
    cases tbl k.ids.APNI_ATTR_PROCESS_NAME <;> cases tbl k.ids.APNI_ATTR_PROCESS_INSTANCE <;>
      cases tbl k.ids.APNI_ATTR_ENTITY_NAME <;> cases tbl k.ids.APNI_ATTR_ENTITY_INSTANCE <;>
      rfl
  have hcomp : ∀ (dst : Option String) (a : nlattr),
      (∀ s, k.nla_strlcpy dst a k.sizeof_nlattr_ptr = some s →
          s.length ≤ k.sizeof_nlattr_ptr - 1)
      ∧ k.nla_strlcpy dst a k.sizeof_nlattr_ptr ≠ some long := by
    intro dst a
    refine ⟨fun s hs => hk dst a _ s hs, ?_⟩
    intro hs
    have := hk dst a _ long hs
    omega
  refine ⟨?_, ?_, hshape, ?_, ?_, ?_, ?_⟩
  · unfold parse_app_name_info
    simp only [apni_policy]
    split
    · simp [*]
    · simp [*]
  · unfold parse_app_name_info
    simp only [apni_policy]
    split
    · simp [*]
    · simp [*]
  · intro a hok ha
    rw [hshape hok]
    simp only [ha]
    exact hcomp _ _
  · intro a hok ha
    rw [hshape hok]
    simp only [ha]
    exact hcomp _ _
  · intro a hok ha
    rw [hshape hok]
    simp only [ha]
    exact hcomp _ _
  · intro a hok ha
    rw [hshape hok]
    simp only [ha]
    exact hcomp _ _

/-- C25 on a nested name whose payload is the ten characters `abcdefghij`, with an
attribute pointer of 8 bytes: the parser returns 0 and stores `abcdefg`, seven
characters, which is not the name that was sent. -/
theorem parse_app_name_info_copy_bound_witness :
    sample_netlink.sizeof_nlattr_ptr - 1 < ("abcdefghij" : String).length
    ∧ (parse_app_name_info sample_netlink (some sample_long_name_attr) sample_name).1 = 0
    ∧ (parse_app_name_info sample_netlink (some sample_long_name_attr) sample_name).2.process_name
        = some "abcdefg"
    ∧ (parse_app_name_info sample_netlink (some sample_long_name_attr) sample_name).2.process_name
        ≠ some "abcdefghij" :=
  ⟨by decide, by decide, by decide,
    ((parse_app_name_info_copy_bound sample_netlink (some sample_long_name_attr) sample_name
      "abcdefghij" sample_netlink_strlcpy_bound (by decide)).2.2.2.1
        ⟨1, [97, 98, 99, 100, 101, 102, 103, 104, 105, 106]⟩ (by decide) rfl).2⟩

end linux_rina


/-! ## Building netlink messages -/

namespace linux_rina

theorem put_all_msg_eq (k : NetlinkPut) (l : List PutOp) (m : sk_buff) :
    (put_all k m l).msg = some (put_all_msg k m l) := by
  induction l generalizing m with
  | nil => rfl
  | cons op rest ih =>
    unfold put_all put_all_msg
    split
    · rfl
    · exact ih _

theorem put_all_ret (k : NetlinkPut) (l : List PutOp) (m : sk_buff) :
    (put_all k m l).ret = 0 ∨ (put_all k m l).ret = -1 := by
  induction l generalizing m with
  | nil => exact Or.inl rfl
  | cons op rest ih =>
    unfold put_all
    split
    · exact Or.inr rfl
    · exact ih _

theorem put_all_ops_of_ok (k : NetlinkPut) (l : List PutOp) (m : sk_buff)
    (h : (put_all k m l).ret = 0) : (put_all k m l).ops = l := by
  induction l generalizing m with
  | nil => rfl
  | cons op rest ih =>
    unfold put_all at h ⊢
    split
    · rename_i hc
      rw [if_pos hc] at h
      simp at h
    · rename_i hc
      rw [if_neg hc] at h
      exact congrArg (List.cons op) (ih _ h)

theorem put_all_ops_initial (k : NetlinkPut) (l : List PutOp) (m : sk_buff) :
    (put_all k m l).ops <+: l := by
  induction l generalizing m with
  | nil => exact List.prefix_refl _
  | cons op rest ih =>
    unfold put_all
    split
    · exact ⟨rest, rfl⟩
    · exact List.cons_prefix_cons.mpr ⟨rfl, ih _⟩

theorem put_all_append (k : NetlinkPut) (l1 l2 : List PutOp) (m : sk_buff) :
    put_all k m (l1 ++ l2) =
      if (put_all k m l1).ret ≠ 0 then put_all k m l1
      else { ret := (put_all k (put_all_msg k m l1) l2).ret,
             msg := (put_all k (put_all_msg k m l1) l2).msg,
             ops := (put_all k m l1).ops ++ (put_all k (put_all_msg k m l1) l2).ops } := by
  induction l1 generalizing m with
  | nil => simp [put_all, put_all_msg]
  | cons op rest ih =>
    simp only [List.cons_append, put_all, put_all_msg]
    by_cases hc : (put_one k m op).1 ≠ 0
    · simp only [if_pos hc]
      simp
    · simp only [if_neg hc]
      rw [show rest.append l2 = rest ++ l2 from rfl, ih]
      by_cases hr : (put_all k (put_one k m op).2 rest).ret ≠ 0
      · simp only [if_pos hr]
      · simp only [if_neg hr, List.cons_append]

theorem seq_put_append {β : Type} (inj : Crafted → β) (k : NetlinkPut) (l1 l2 : List PutOp)
    (m : sk_buff) (ops : List PutOp) (next : sk_buff → List PutOp → β) :
    seq_put inj k m ops (l1 ++ l2) next =
      seq_put inj k m ops l1 (fun m1 ops1 => seq_put inj k m1 ops1 l2 next) := by
  induction l1 generalizing m ops with
  | nil => rfl
  | cons op rest ih =>
    simp only [List.cons_append]
    unfold seq_put
    split
    · rfl
    · exact ih _ _

theorem seq_put_final {β : Type} (inj : Crafted → β) (k : NetlinkPut) (l : List PutOp)
    (m : sk_buff) (ops : List PutOp) :
    seq_put inj k m ops l (fun m1 ops1 => inj { ret := 0, msg := some m1, ops := ops1 }) =
      inj { ret := (put_all k m l).ret, msg := (put_all k m l).msg,
            ops := ops ++ (put_all k m l).ops } := by
  induction l generalizing m ops with
  | nil => simp [seq_put, put_all]
  | cons op rest ih =>
    unfold seq_put put_all
    by_cases hc : (put_one k m op).1 ≠ 0
    · simp only [if_pos hc]
    · simp only [if_neg hc]
      rw [ih]
      simp

theorem put_string_if_present_eq (k : NetlinkPut) (m : sk_buff) (ops : List PutOp) (t : Nat)
    (s : Option String) (next : sk_buff → List PutOp → Crafted) :
    put_string_if_present k m ops t s next =
      seq_put id k m ops ((s.map (fun x => PutOp.nla_put_string t x)).toList) next := by
  cases s with
  | none => rfl
  | some x =>
    simp only [put_string_if_present, Option.map, Option.toList, seq_put, put_one, id]

theorem put_u32_if_positive_eq (k : NetlinkPut) (m : sk_buff) (ops : List PutOp) (t v : Nat)
    (next : sk_buff → List PutOp → Option Crafted) :
    put_u32_if_positive k m ops t v next =
      seq_put some k m ops (if 0 < v then [PutOp.nla_put_u32 t v] else []) next := by
  unfold put_u32_if_positive
  by_cases hv : 0 < v
  · simp only [if_pos hv, seq_put, put_one]
  · simp only [if_neg hv, seq_put]

theorem craft_app_name_info_eq_put_all (k : NetlinkPut) (m : sk_buff) (n : name) :
    craft_app_name_info k (some m) n = put_all k m (name_puts k.ids n) := by
  unfold craft_app_name_info
  simp only [put_string_if_present_eq]
  rw [← seq_put_append, ← seq_put_append, ← seq_put_append]
  refine (seq_put_final id k _ m []).trans ?_
  simp only [id, List.nil_append]
  rcases n with ⟨a, b, c, d⟩
  cases a <;> cases b <;> cases c <;> cases d <;> rfl

theorem filter_map_cons_eq {α β : Type} (p : α → Bool) (f : α → β) (a : α) (l : List α) :
    ((a :: l).filter p).map f = (if p a = true then [f a] else []) ++ (l.filter p).map f := by
  by_cases h : p a = true
  · simp [List.filter_cons, h]
  · simp [List.filter_cons, h]

theorem craft_flow_spec_eq_put_all (k : NetlinkPut) (m : sk_buff) (f : flow_spec)
    (h : ranges_present f = true) :
    craft_flow_spec k (some m) f = some (put_all k m (flow_spec_puts k.ids f)) := by
  rcases f with ⟨r1, r2, r3, r4, ber, od, pd, gap, dl, jt, sz⟩
  simp only [ranges_present, Bool.and_eq_true, Option.isSome_iff_exists] at h
  obtain ⟨⟨⟨⟨x1, rfl⟩, ⟨x2, rfl⟩⟩, ⟨x3, rfl⟩⟩, ⟨x4, rfl⟩⟩ := h
  unfold craft_flow_spec
  simp only [read_max, put_u32_if_positive_eq]
  rw [← seq_put_append, ← seq_put_append, ← seq_put_append, ← seq_put_append,
    ← seq_put_append, ← seq_put_append, ← seq_put_append, ← seq_put_append,
    ← seq_put_append, ← seq_put_append]
  refine (seq_put_final some k _ m []).trans ?_
  simp only [flow_spec_puts, flow_spec_fields, filter_map_cons_eq, range_max, List.filter_nil,
    List.map_nil, List.append_nil, List.nil_append, List.append_assoc, decide_eq_true_eq]

end linux_rina


namespace linux_rina

theorem put_all_cases (k : NetlinkPut) (l : List PutOp) (m : sk_buff) :
    ((put_all k m l).ret = 0 ∧ (put_all k m l).ops = l)
    ∨ ((put_all k m l).ret = -1
        ∧ ∃ pre op post, l = pre ++ op :: post ∧ (put_all k m l).ops = pre ++ [op]
            ∧ (put_all k m pre).ret = 0 ∧ (put_one k (put_all_msg k m pre) op).1 ≠ 0) := by
  induction l generalizing m with
  | nil => exact Or.inl ⟨rfl, rfl⟩
  | cons op rest ih =>
    by_cases hc : (put_one k m op).1 ≠ 0
    · refine Or.inr ⟨?_, [], op, rest, rfl, ?_, rfl, hc⟩
      · simp only [put_all, if_pos hc]
      · simp only [put_all, if_pos hc, List.nil_append]
    · rcases ih (put_one k m op).2 with ⟨h0, hops⟩ | ⟨h1, pre, o, post, hl, hops, hpre, hfail⟩
      · refine Or.inl ⟨?_, ?_⟩
        · simp only [put_all, if_neg hc, h0]
        · simp only [put_all, if_neg hc, hops]
      · refine Or.inr ⟨?_, op :: pre, o, post, ?_, ?_, ?_, ?_⟩
        · simp only [put_all, if_neg hc, h1]
        · rw [hl]; rfl
        · simp only [put_all, if_neg hc, hops, List.cons_append]
        · simp only [put_all, if_neg hc, hpre]
        · simp only [put_all_msg, if_neg hc]
          exact hfail

theorem name_puts_all_put_string (ids : AttrIds) (n : name) :
    (name_puts ids n).all is_put_string = true := by
  rcases n with ⟨a, b, c, d⟩
  cases a <;> cases b <;> cases c <;> cases d <;> rfl

theorem flow_spec_puts_all_put_u32 (ids : AttrIds) (f : flow_spec) :
    (flow_spec_puts ids f).all is_put_u32 = true := by
  simp only [flow_spec_puts, List.all_eq_true, List.mem_map, List.mem_filter]
  rintro op ⟨c, _, rfl⟩
  rfl

theorem flow_spec_puts_with_mins (ids : AttrIds) (f : flow_spec) (a b c d : Nat) :
    flow_spec_puts ids (with_mins f a b c d) = flow_spec_puts ids f := by
  rcases f with ⟨r1, r2, r3, r4, ber, od, pd, gap, dl, jt, sz⟩
  cases r1 <;> cases r2 <;> cases r3 <;> cases r4 <;> rfl

theorem ranges_present_with_mins (f : flow_spec) (a b c d : Nat) :
    ranges_present (with_mins f a b c d) = ranges_present f := by
  rcases f with ⟨r1, r2, r3, r4, ber, od, pd, gap, dl, jt, sz⟩
  cases r1 <;> cases r2 <;> cases r3 <;> cases r4 <;> rfl

/-- C26: for a non-null message `craft_app_name_info` makes exactly the
`nla_put_string` calls for the non-null components of the name, in the order
process name, process instance, entity name, entity instance; it returns 0
with all of them made, or -1 with the calls cut right after the first one that
failed; for the name with four null components it returns 0 with the message
unchanged and no call made; for a null message it logs and returns -1. -/
theorem craft_app_name_info_appends (k : NetlinkPut) (m : sk_buff) (n : name) :
    craft_app_name_info k (some m) n = put_all k m (name_puts k.ids n)
    ∧ (name_puts k.ids n).all is_put_string = true
    ∧ (((craft_app_name_info k (some m) n).ret = 0
          ∧ (craft_app_name_info k (some m) n).ops = name_puts k.ids n)
        ∨ ((craft_app_name_info k (some m) n).ret = -1
          ∧ ∃ pre op post, name_puts k.ids n = pre ++ op :: post
              ∧ (craft_app_name_info k (some m) n).ops = pre ++ [op]
              ∧ (put_all k m pre).ret = 0
              ∧ (put_one k (put_all_msg k m pre) op).1 ≠ 0))
    ∧ craft_app_name_info k (some m) null_name = { ret := 0, msg := some m, ops := [] }
    ∧ craft_app_name_info k none n =
        { ret := -1, msg := none,
          ops := [PutOp.LOG_ERR "Bogus input parameter(s), bailing out"] } := by
  refine ⟨craft_app_name_info_eq_put_all k m n, name_puts_all_put_string k.ids n, ?_, rfl, rfl⟩
  rw [craft_app_name_info_eq_put_all]
  exact put_all_cases k _ m

/-- C27, as the claim states it, fails when a put fails: with room for one
attribute and average bandwidth, delay and jitter positive, `craft_flow_spec`
appends the average bandwidth, fails at the delay and returns -1; the jitter,
although positive, is neither appended nor attempted. -/
theorem craft_flow_spec_stops_at_failed_put :
    ranges_present sample_flow_spec_pos = true
    ∧ 0 < sample_flow_spec_pos.jitter
    ∧ craft_flow_spec sample_put (some sample_tight_skb) sample_flow_spec_pos =
        some { ret := -1, msg := some { attrs := [⟨1, [5]⟩], tailroom := 0 },
               ops := [PutOp.nla_put_u32 1 5, PutOp.nla_put_u32 3 3] } := by
  refine ⟨by decide, by decide, ?_⟩
  rfl

/-- C27, amended: for a non-null message and a flow specification whose four range
pointers are not null, `craft_flow_spec` makes the `nla_put_u32` calls for the
fields whose value is strictly positive, in field order, with the upper bound
of each range (the lower bounds have no influence), up to the first call that
fails: it returns 0 with all of them made, or -1 with the calls cut right after
the first one that failed; with every field zero it returns 0 with the message
unchanged. -/
theorem craft_flow_spec_appends (k : NetlinkPut) (m : sk_buff) (f : flow_spec)
    (h : ranges_present f = true) :
    craft_flow_spec k (some m) f = some (put_all k m (flow_spec_puts k.ids f))
    ∧ (flow_spec_puts k.ids f).all is_put_u32 = true
    ∧ (((put_all k m (flow_spec_puts k.ids f)).ret = 0
          ∧ (put_all k m (flow_spec_puts k.ids f)).ops = flow_spec_puts k.ids f)
        ∨ ((put_all k m (flow_spec_puts k.ids f)).ret = -1
          ∧ ∃ pre op post, flow_spec_puts k.ids f = pre ++ op :: post
              ∧ (put_all k m (flow_spec_puts k.ids f)).ops = pre ++ [op]
              ∧ (put_all k m pre).ret = 0
              ∧ (put_one k (put_all_msg k m pre) op).1 ≠ 0))
    ∧ (∀ a b c d : Nat,
        craft_flow_spec k (some m) (with_mins f a b c d) = craft_flow_spec k (some m) f)
    ∧ craft_flow_spec k (some m) sample_flow_spec =
        some { ret := 0, msg := some m, ops := [] } := by
  refine ⟨craft_flow_spec_eq_put_all k m f h, flow_spec_puts_all_put_u32 k.ids f,
    put_all_cases k _ m, ?_, ?_⟩
  · intro a b c d
    rw [craft_flow_spec_eq_put_all k m f h,
      craft_flow_spec_eq_put_all k m _ ((ranges_present_with_mins f a b c d).trans h),
      flow_spec_puts_with_mins]
  · rw [craft_flow_spec_eq_put_all k m _ (by decide)]
    rfl

/-- The amended C27 at a message with room and a flow specification with average
bandwidth up to 5, delay 3 and jitter 2: three attributes are appended. -/
theorem craft_flow_spec_appends_witness :
    ranges_present sample_flow_spec_pos = true
    ∧ craft_flow_spec sample_put (some sample_skb) sample_flow_spec_pos =
        some (put_all sample_put sample_skb
          [PutOp.nla_put_u32 1 5, PutOp.nla_put_u32 3 3, PutOp.nla_put_u32 4 2]) :=
  ⟨by decide, (craft_flow_spec_appends sample_put sample_skb sample_flow_spec_pos (by decide)).1⟩

end linux_rina


namespace linux_rina

theorem format_eq_spec (k : NetlinkPut) (m : sk_buff) (source dest : name) (f : flow_spec)
    (id : Int) (dif_name : name) (h : ranges_present f = true) :
    rnl_format_app_alloc_flow_req_arrived k (some m) source dest f id dif_name =
      some (format_spec k m source dest f id dif_name) := by
  simp only [rnl_format_app_alloc_flow_req_arrived, nest_start_or_bail, format_spec,
    format_nests, open_nests, open_nests_msg]
  cases h1 : (k.nla_nest_start m k.ids.AAFRA_ATTR_SOURCE_APP_NAME).1 with
  | none => simp
  | some n1 =>
    simp only []
    cases h2 : (k.nla_nest_start (k.nla_nest_start m k.ids.AAFRA_ATTR_SOURCE_APP_NAME).2
        k.ids.AAFRA_ATTR_DEST_APP_NAME).1 with
    | none => simp
    | some n2 =>
      simp only []
      cases h3 : (k.nla_nest_start (k.nla_nest_start (k.nla_nest_start m
          k.ids.AAFRA_ATTR_SOURCE_APP_NAME).2 k.ids.AAFRA_ATTR_DEST_APP_NAME).2
          k.ids.AAFRA_ATTR_DIF_NAME).1 with
      | none => simp
      | some n3 =>
        simp only []
        cases h4 : (k.nla_nest_start (k.nla_nest_start (k.nla_nest_start (k.nla_nest_start m
            k.ids.AAFRA_ATTR_SOURCE_APP_NAME).2 k.ids.AAFRA_ATTR_DEST_APP_NAME).2
            k.ids.AAFRA_ATTR_DIF_NAME).2 k.ids.AAFRA_ATTR_FLOW_SPEC).1 with
        | none => simp
        | some n4 =>
          simp only []
          generalize (k.nla_nest_start (k.nla_nest_start (k.nla_nest_start (k.nla_nest_start m
            k.ids.AAFRA_ATTR_SOURCE_APP_NAME).2 k.ids.AAFRA_ATTR_DEST_APP_NAME).2
            k.ids.AAFRA_ATTR_DIF_NAME).2 k.ids.AAFRA_ATTR_FLOW_SPEC).2 = m4
          simp only [craft_app_name_info_eq_put_all, put_all_msg_eq,
            craft_flow_spec_eq_put_all _ _ _ h, Option.getD_some, format_puts, put_all_append,
            put_all, put_all_msg, put_one]
          have q1 := put_all_msg_eq k (name_puts k.ids source) m4
          generalize put_all k m4 (name_puts k.ids source) = c1 at q1 ⊢
          generalize put_all_msg k m4 (name_puts k.ids source) = m5 at q1 ⊢
          have q2 := put_all_msg_eq k (name_puts k.ids dest) m5
          generalize put_all k m5 (name_puts k.ids dest) = c2 at q2 ⊢
          generalize put_all_msg k m5 (name_puts k.ids dest) = m6 at q2 ⊢
          have q3 := put_all_msg_eq k (flow_spec_puts k.ids f) m6
          generalize put_all k m6 (flow_spec_puts k.ids f) = c3 at q3 ⊢
          generalize put_all_msg k m6 (flow_spec_puts k.ids f) = m7 at q3 ⊢
          generalize k.nla_put_u32 m7 k.ids.AAFRA_ATTR_PORT_ID (u32_of_port_id id) = r
          have q5 := put_all_msg_eq k (name_puts k.ids dif_name) r.2
          generalize put_all k r.2 (name_puts k.ids dif_name) = c5 at q5 ⊢
          generalize put_all_msg k r.2 (name_puts k.ids dif_name) = m8 at q5 ⊢
          by_cases e1 : c1.ret = 0 <;> by_cases e2 : c2.ret = 0 <;> by_cases e3 : c3.ret = 0
            <;> by_cases e4 : r.1 = 0 <;> by_cases e5 : c5.ret = 0
            <;> simp [e1, e2, e3, e4, e5, q1, q2, q3, q5]

theorem open_nests_cases (k : NetlinkPut) (l : List (Nat × String)) (m : sk_buff) :
    ((open_nests k m l).ret = 0
        ∧ (open_nests k m l).ops = l.map (fun c => PutOp.nla_nest_start c.1))
    ∨ ((open_nests k m l).ret = -1
        ∧ (open_nests k m l).ops.all (fun op => !is_put op) = true) := by
  induction l generalizing m with
  | nil => exact Or.inl ⟨rfl, rfl⟩
  | cons c rest ih =>
    cases hn : (k.nla_nest_start m c.1).1 with
    | none =>
      refine Or.inr ?_
      simp only [open_nests, hn]
      exact ⟨trivial, rfl⟩
    | some n =>
      simp only [open_nests, hn]
      rcases ih (k.nla_nest_start m c.1).2 with ⟨h0, hops⟩ | ⟨h1, hall⟩
      · exact Or.inl ⟨h0, by rw [hops]; rfl⟩
      · refine Or.inr ⟨h1, ?_⟩
        rw [List.all_cons, hall]
        rfl

theorem open_nests_no_nest_end (k : NetlinkPut) (l : List (Nat × String)) (m : sk_buff) :
    (open_nests k m l).ops.all (fun op => !is_nest_end op) = true := by
  induction l generalizing m with
  | nil => rfl
  | cons c rest ih =>
    cases hn : (k.nla_nest_start m c.1).1 with
    | none =>
      simp only [open_nests, hn]
      rfl
    | some n =>
      simp only [open_nests, hn]
      rw [List.all_cons, ih]
      rfl

theorem is_put_not_nest_end (op : PutOp) (h : is_put op = true) : (!is_nest_end op) = true := by
  cases op <;> first | rfl | simp [is_put, is_put_string, is_put_u32] at h

theorem format_puts_all_put (ids : AttrIds) (source dest : name) (f : flow_spec) (id : Int)
    (dif_name : name) : (format_puts ids source dest f id dif_name).all is_put = true := by
  have hs : ∀ n : name, (name_puts ids n).all is_put = true := by
    intro n
    have := name_puts_all_put_string ids n
    rw [List.all_eq_true] at this ⊢
    intro op hop
    simp only [is_put, this op hop, Bool.true_or]
  have hf : (flow_spec_puts ids f).all is_put = true := by
    have := flow_spec_puts_all_put_u32 ids f
    rw [List.all_eq_true] at this ⊢
    intro op hop
    simp only [is_put, this op hop, Bool.or_true]
  simp only [format_puts, List.all_append, List.all_cons, hs, hf, Bool.true_and]
  rfl

theorem put_all_ops_all (k : NetlinkPut) (l : List PutOp) (m : sk_buff) (p : PutOp → Bool)
    (h : l.all p = true) : (put_all k m l).ops.all p = true := by
  rw [List.all_eq_true] at h ⊢
  intro op hop
  exact h op ((put_all_ops_initial k l m).subset hop)

theorem format_spec_no_nest_end (k : NetlinkPut) (m : sk_buff) (source dest : name)
    (f : flow_spec) (id : Int) (dif_name : name) :
    (format_spec k m source dest f id dif_name).ops.all (fun op => !is_nest_end op) = true := by
  have hn := open_nests_no_nest_end k (format_nests k.ids) m
  have hp : (format_puts k.ids source dest f id dif_name).all (fun op => !is_nest_end op)
      = true := by
    have := format_puts_all_put k.ids source dest f id dif_name
    rw [List.all_eq_true] at this ⊢
    intro op hop
    exact is_put_not_nest_end op (this op hop)
  have hc := put_all_ops_all k _ (open_nests_msg k m (format_nests k.ids)) _ hp
  unfold format_spec
  simp only []
  split
  · exact hn
  · split
    · simp only [List.all_append, hn, hc, Bool.and_self, Bool.true_and]
      rfl
    · simp only [List.all_append, hn, hc, Bool.and_self]

theorem format_spec_ok_iff (k : NetlinkPut) (m : sk_buff) (source dest : name)
    (f : flow_spec) (id : Int) (dif_name : name) :
    (format_spec k m source dest f id dif_name).ret = 0 ↔
      ((open_nests k m (format_nests k.ids)).ret = 0
        ∧ (put_all k (open_nests_msg k m (format_nests k.ids))
            (format_puts k.ids source dest f id dif_name)).ret = 0) := by
  unfold format_spec
  simp only []
  by_cases hn : (open_nests k m (format_nests k.ids)).ret ≠ 0
  · simp only [if_pos hn]
    exact ⟨fun h => absurd h hn, fun h => h.1⟩
  · simp only [if_neg hn]
    have hn0 : (open_nests k m (format_nests k.ids)).ret = 0 := not_not.mp hn
    by_cases hc : (put_all k (open_nests_msg k m (format_nests k.ids))
        (format_puts k.ids source dest f id dif_name)).ret ≠ 0
    · simp only [if_pos hc]
      exact ⟨fun h => absurd h (by decide), fun h => absurd h.2 hc⟩
    · simp only [if_neg hc]
      exact ⟨fun _ => ⟨hn0, not_not.mp hc⟩, fun _ => trivial⟩

theorem format_spec_shape (k : NetlinkPut) (m : sk_buff) (source dest : name)
    (f : flow_spec) (id : Int) (dif_name : name) :
    ((format_spec k m source dest f id dif_name).ret = 0
        ∧ (format_spec k m source dest f id dif_name).ops =
            nest_starts k.ids ++ format_puts k.ids source dest f id dif_name)
    ∨ ((format_spec k m source dest f id dif_name).ret = -1
        ∧ ((format_spec k m source dest f id dif_name).ops.all (fun op => !is_put op) = true
          ∨ ∃ tail, (format_spec k m source dest f id dif_name).ops =
              nest_starts k.ids ++ tail)) := by
  unfold format_spec
  simp only []
  rcases open_nests_cases k (format_nests k.ids) m with ⟨h0, hops⟩ | ⟨h1, hall⟩
  · have hn : ¬ (open_nests k m (format_nests k.ids)).ret ≠ 0 := not_not.mpr h0
    simp only [if_neg hn]
    by_cases hc : (put_all k (open_nests_msg k m (format_nests k.ids))
        (format_puts k.ids source dest f id dif_name)).ret ≠ 0
    · simp only [if_pos hc]
      refine Or.inr ⟨trivial, Or.inr ⟨(put_all k (open_nests_msg k m (format_nests k.ids))
        (format_puts k.ids source dest f id dif_name)).ops ++ [PutOp.LOG_ERR
          "Could not craft _app_alloc_flow_req_arrived_msg message correctly"], ?_⟩⟩
      rw [hops, List.append_assoc]
      rfl
    · simp only [if_neg hc]
      refine Or.inl ⟨trivial, ?_⟩
      rw [hops, put_all_ops_of_ok k _ _ (not_not.mp hc)]
      rfl
  · have hn : (open_nests k m (format_nests k.ids)).ret ≠ 0 := by
      rw [h1]; decide
    simp only [if_pos hn]
    exact Or.inr ⟨h1, Or.inl hall⟩

/-- C28, as the claim states it, fails for a flow specification with a null range
pointer: after the nests are open and the two names appended,
`craft_flow_spec` reads `fspec.average_bandwidth->max` through the null
pointer, and the function returns neither 0 nor -1. -/
theorem rnl_format_null_range_deref :
    ranges_present sample_flow_spec_null = false
    ∧ rnl_format_app_alloc_flow_req_arrived sample_put (some sample_skb) sample_app_name
        sample_app_name sample_flow_spec_null 9 sample_app_name = none := by
  refine ⟨by decide, ?_⟩
  rfl

/-- C28, amended: for a non-null message and a flow specification whose four range
pointers are not null, `rnl_format_app_alloc_flow_req_arrived` opens the nests
for source name, destination name, DIF name and flow specification in that
order and then makes the puts of source name, destination name, flow
specification, port-id (as a `u32`) and DIF name in that order, stopping with
-1 at the first step that fails; it returns 0 exactly when all nests were
opened and all puts succeeded, and then its calls are the four nest starts
followed by all the puts; `nla_nest_end` is never called, and every put comes
after the four nest starts; for a null message it logs and returns -1. -/
theorem rnl_format_app_alloc_flow_req_arrived_sequence (k : NetlinkPut) (m : sk_buff)
    (source dest : name) (f : flow_spec) (id : Int) (dif_name : name)
    (h : ranges_present f = true) :
    rnl_format_app_alloc_flow_req_arrived k (some m) source dest f id dif_name =
        some (format_spec k m source dest f id dif_name)
    ∧ ((format_spec k m source dest f id dif_name).ret = 0 ↔
        ((open_nests k m (format_nests k.ids)).ret = 0
          ∧ (put_all k (open_nests_msg k m (format_nests k.ids))
              (format_puts k.ids source dest f id dif_name)).ret = 0))
    ∧ (((format_spec k m source dest f id dif_name).ret = 0
          ∧ (format_spec k m source dest f id dif_name).ops =
              nest_starts k.ids ++ format_puts k.ids source dest f id dif_name)
        ∨ ((format_spec k m source dest f id dif_name).ret = -1
          ∧ ((format_spec k m source dest f id dif_name).ops.all (fun op => !is_put op) = true
            ∨ ∃ tail, (format_spec k m source dest f id dif_name).ops =
                nest_starts k.ids ++ tail)))
    ∧ (format_spec k m source dest f id dif_name).ops.all (fun op => !is_nest_end op) = true
    ∧ rnl_format_app_alloc_flow_req_arrived k none source dest f id dif_name =
        some { ret := -1, msg := none,
               ops := [PutOp.LOG_ERR "Bogus input parameter(s), bailing out"] } :=
  ⟨format_eq_spec k m source dest f id dif_name h,
    format_spec_ok_iff k m source dest f id dif_name,
    format_spec_shape k m source dest f id dif_name,
    format_spec_no_nest_end k m source dest f id dif_name, rfl⟩

/-- The amended C28 at a message with room, a name with two components and a flow
specification with three positive fields. -/
theorem rnl_format_app_alloc_flow_req_arrived_sequence_witness :
    ranges_present sample_flow_spec_pos = true
    ∧ rnl_format_app_alloc_flow_req_arrived sample_put (some sample_skb) sample_app_name
        sample_app_name sample_flow_spec_pos 9 sample_app_name =
        some (format_spec sample_put sample_skb sample_app_name sample_app_name
          sample_flow_spec_pos 9 sample_app_name) :=
  ⟨by decide, (rnl_format_app_alloc_flow_req_arrived_sequence sample_put sample_skb
    sample_app_name sample_app_name sample_flow_spec_pos 9 sample_app_name (by decide)).1⟩

end linux_rina


/-! ## The daemon-initialized handler -/

namespace rinad

theorem daemon_init_lookup_count (m : IPCManager_) (id : Nat) :
    1 ≤ (daemon_init_lookup m id IPCP_DAEMON_INIT_RETRIES 0).2
    ∧ (daemon_init_lookup m id IPCP_DAEMON_INIT_RETRIES 0).2 ≤ IPCP_DAEMON_INIT_RETRIES
    ∧ (daemon_init_lookup m id IPCP_DAEMON_INIT_RETRIES 0).1
        = get_syscall_transaction_state m id
    ∧ (daemon_init_lookup m id IPCP_DAEMON_INIT_RETRIES 0).2
        = if (get_syscall_transaction_state m id).isSome then 1 else IPCP_DAEMON_INIT_RETRIES := by
  cases hg : get_syscall_transaction_state m id with
  | none =>
    rw [daemon_init_lookup_none m id hg]
    simp [IPCP_DAEMON_INIT_RETRIES]
  | some t =>
    have hs := daemon_init_lookup_some m id t hg 4 0
    have he : daemon_init_lookup m id IPCP_DAEMON_INIT_RETRIES 0 = (some t, 1) := hs
    rw [he]
    simp [IPCP_DAEMON_INIT_RETRIES]

theorem get_syscall_after_remove (m : IPCManager_) (id : Nat) :
    get_syscall_transaction_state (remove_syscall_transaction_state m id) id = none := by
  simp [get_syscall_transaction_state, remove_syscall_transaction_state, List.find?_eq_none,
    List.mem_filter]

/-- C29, as the claim states it, fails in a build with assertions: with the
system-call transaction pending and the IPC process missing, the handler logs
the warning and stops at `assert(0)`; the transaction is not completed and
stays in the table. -/
theorem daemon_initialized_missing_ipcp_hits_assert :
    get_syscall_transaction_state sample_sys_orphan_mgr 7 = some ⟨7⟩
    ∧ lookup_ipcp_by_id sample_sys_orphan_mgr 7 = none
    ∧ ipc_process_daemon_initialized_event_handler sample_callees false sample_sys_orphan_mgr
        ⟨7⟩ = (FLUSH_LOG LogLevel.WARN sample_sys_orphan_mgr, Outcome.assert_failed)
    ∧ completes_any (ipc_process_daemon_initialized_event_handler sample_callees false
        sample_sys_orphan_mgr ⟨7⟩).1.trace = false
    ∧ (ipc_process_daemon_initialized_event_handler sample_callees false
        sample_sys_orphan_mgr ⟨7⟩).1.pend_sys_trans = [⟨7⟩] := by
  refine ⟨rfl, rfl, rfl, rfl, rfl⟩

/-- C29, amended: the retry loop of `ipc_process_daemon_initialized_event_handler` makes
at least one and at most `IPCP_DAEMON_INIT_RETRIES` (5) lookups of the
system-call transaction, one when the first lookup hits and five when none
does.  When the transaction is found and no assertion stops the handler (the
build has assertions compiled out, or the IPC process is found and is a normal
one), the handler returns; with the IPC process found it calls
`setInitialized`, logs, and completes the transaction once, with
`IPCM_SUCCESS`, leaving the system-call table as it was; with the IPC process
missing it logs a warning, completes the transaction once, with
`IPCM_FAILURE`, and removes the system-call transaction. -/
theorem daemon_initialized_bounded_retry (x : Callees) (NDEBUG : Bool) (m : IPCManager_)
    (id : Nat) (tx : SyscallTransState)
    (h : get_syscall_transaction_state m id = some tx)
    (hb : NDEBUG = true ∨ (lookup_ipcp_by_id m id).map (fun p => p.type)
        = some IPCProcessType.NORMAL_IPC_PROCESS) :
    (∀ (m2 : IPCManager_) (id2 : Nat),
      1 ≤ (daemon_init_lookup m2 id2 IPCP_DAEMON_INIT_RETRIES 0).2
      ∧ (daemon_init_lookup m2 id2 IPCP_DAEMON_INIT_RETRIES 0).2 ≤ IPCP_DAEMON_INIT_RETRIES
      ∧ (daemon_init_lookup m2 id2 IPCP_DAEMON_INIT_RETRIES 0).1
          = get_syscall_transaction_state m2 id2
      ∧ (daemon_init_lookup m2 id2 IPCP_DAEMON_INIT_RETRIES 0).2
          = if (get_syscall_transaction_state m2 id2).isSome then 1
            else IPCP_DAEMON_INIT_RETRIES)
    ∧ (ipc_process_daemon_initialized_event_handler x NDEBUG m ⟨id⟩).2 = Outcome.returned ()
    ∧ match lookup_ipcp_by_id m id with
      | some ipcp =>
        (ipc_process_daemon_initialized_event_handler x NDEBUG m ⟨id⟩).1.trace =
            m.trace ++ [Effect.setInitialized ipcp.id, Effect.FLUSH_LOG LogLevel.INFO,
              Effect.syscall_completed tx.tid ipcm_res_t.IPCM_SUCCESS]
        ∧ (ipc_process_daemon_initialized_event_handler x NDEBUG m ⟨id⟩).1.ipcps =
            (set_ipcp_state m ipcp.id (x.setInitialized ipcp)).ipcps
        ∧ (ipc_process_daemon_initialized_event_handler x NDEBUG m ⟨id⟩).1.pend_sys_trans =
            m.pend_sys_trans
      | none =>
        (ipc_process_daemon_initialized_event_handler x NDEBUG m ⟨id⟩).1.trace =
            m.trace ++ [Effect.FLUSH_LOG LogLevel.WARN,
              Effect.syscall_completed tx.tid ipcm_res_t.IPCM_FAILURE]
        ∧ (ipc_process_daemon_initialized_event_handler x NDEBUG m ⟨id⟩).1.ipcps = m.ipcps
        ∧ (ipc_process_daemon_initialized_event_handler x NDEBUG m ⟨id⟩).1.pend_sys_trans =
            m.pend_sys_trans.filter (fun t => t.tid != id)
        ∧ get_syscall_transaction_state
            (ipc_process_daemon_initialized_event_handler x NDEBUG m ⟨id⟩).1 id = none := by
  have hl : (daemon_init_lookup m id IPCP_DAEMON_INIT_RETRIES 0).1 = some tx := by
    rw [(daemon_init_lookup_count m id).2.2.1, h]
  refine ⟨fun m2 id2 => daemon_init_lookup_count m2 id2, ?_, ?_⟩
  · cases hi : lookup_ipcp_by_id m id with
    | none =>
      rcases hb with hN | hp
      · simp [ipc_process_daemon_initialized_event_handler, hl, hi, hN]
      · rw [hi] at hp
        cases hp
    | some ipcp =>
      have hc : (NDEBUG || ipcp.type == IPCProcessType.NORMAL_IPC_PROCESS) = true := by
        rcases hb with hN | hp
        · simp [hN]
        · rw [hi] at hp
          simp only [Option.map_some', Option.some.injEq] at hp
          simp [hp]
      simp only [ipc_process_daemon_initialized_event_handler, hl, hi, hc, if_true]
  · cases hi : lookup_ipcp_by_id m id with
    | none =>
      rcases hb with hN | hp
      · subst hN
        simp only [ipc_process_daemon_initialized_event_handler, hl, hi, if_true]
        refine ⟨?_, rfl, rfl, get_syscall_after_remove _ id⟩
        simp [remove_syscall_transaction_state, syscall_completed, FLUSH_LOG, emit]
      · rw [hi] at hp
        cases hp
    | some ipcp =>
      have hc : (NDEBUG || ipcp.type == IPCProcessType.NORMAL_IPC_PROCESS) = true := by
        rcases hb with hN | hp
        · simp [hN]
        · rw [hi] at hp
          simp only [Option.map_some', Option.some.injEq] at hp
          simp [hp]
      simp only [ipc_process_daemon_initialized_event_handler, hl, hi, hc, if_true]
      refine ⟨?_, rfl, rfl⟩
      simp [remove_transaction_state, syscall_completed, FLUSH_LOG, emit, set_ipcp_state]

/-- The amended C29 at a manager with IPC process 7, a normal one, and its
system-call transaction pending, in a build with assertions. -/
theorem daemon_initialized_bounded_retry_witness :
    get_syscall_transaction_state sample_sys_mgr 7 = some ⟨7⟩
    ∧ (lookup_ipcp_by_id sample_sys_mgr 7).map (fun p => p.type)
        = some IPCProcessType.NORMAL_IPC_PROCESS
    ∧ (ipc_process_daemon_initialized_event_handler sample_callees false sample_sys_mgr
        ⟨7⟩).2 = Outcome.returned () :=
  ⟨rfl, rfl,
    (daemon_initialized_bounded_retry sample_callees false sample_sys_mgr 7 ⟨7⟩ rfl
      (Or.inr rfl)).2.1⟩

end rinad
